import Mathlib

/-!
# Authentication core of the fleet fuel card backend

Shallow embedding of `src/services/authService.js` (class `AuthService`) together with the two
tables of `src/config/authMigration.js` it reads and writes, the answers of
`src/controllers/authController.js`, and the middleware of `src/middleware/auth.js` and
`src/middleware/upload.js`.

Conventions of the embedding.

* The relational store is a record of two row lists plus the two `sqlite_sequence` counters of the
  `AUTOINCREMENT` keys.  Every statement the service prepares is a function on that record; a
  statement that SQLite rejects (UNIQUE, CHECK, FOREIGN KEY) returns `Except.error` with the
  message of the thrown error, and the enclosing `try`/`catch` of the service is the `match` on
  that value.  No statement of the service runs inside a transaction, so the writes made before a
  throwing statement stay in the store.
* Timestamps are milliseconds since the epoch (`Date.now()`).  The service stores them as the
  text `toISOString()` yields and reads them back with `new Date(text)`, which is the identity on
  milliseconds, so a column of such texts is embedded as its milliseconds.  Where a statement
  compares two such texts (`expires_at > ?`), SQLite compares them bytewise, which for the texts
  `toISOString()` writes with a four-digit year is the order of their milliseconds.
* One call runs at one instant `now`: every `new Date()`, `Date.now()`, the `iat` stamp of
  `jwt.sign` and the expiry check of `jwt.verify` inside a call read that same clock value.
* The libraries (`bcryptjs`, `jsonwebtoken`, `zod`) and the two signing secrets of `process.env`
  are the fields of `Env`.  `jwt.sign(payload, secret, { expiresIn })` stamps the payload with
  `iat = ⌊now / 1000⌋` and `exp = iat + expiresIn` and then encodes and signs it with HS256, a
  function of the stamped payload and the secret alone.
* Where a theorem needs more of `jsonwebtoken` than the types of `jwsEncode` and `jwsDecode`, it
  assumes one of the two laws `JwtRoundTrip` and `JwtSound`; `codecEnv` is an instance of the
  libraries that is proved to obey both.
-/

namespace FleetFuel

/-! ## Tables (`createAuthTables`) -/

/-- Row of table `users`. `is_active` is `INTEGER NOT NULL DEFAULT 1`, `failed_login_attempts` is
a nullable `INTEGER DEFAULT 0`, the three `TEXT` timestamps that may be `NULL` are options. -/
structure User where
  id : Nat
  email : String
  password_hash : String
  name : String
  role : String
  is_active : Int
  failed_login_attempts : Option Int
  locked_until : Option Nat
  last_login_at : Option Nat
  created_at : Nat
  updated_at : Option Nat
deriving DecidableEq, Repr

/-- Row of table `refresh_tokens`. -/
structure RefreshTokenRow where
  id : Nat
  user_id : Nat
  token : String
  expires_at : Nat
  revoked_at : Option Nat
  created_at : Nat
deriving DecidableEq, Repr

/-- The store: both tables in rowid order and the `sqlite_sequence` entry of each. -/
structure Db where
  users : List User
  refresh_tokens : List RefreshTokenRow
  users_seq : Nat
  refresh_tokens_seq : Nat
deriving DecidableEq, Repr

/-! ## Libraries and configuration -/

/-- Payload of a signed token after `jwt.sign` has stamped it. The access token carries
`userId`, `email`, `role`; the refresh token carries `userId` and `type`. -/
structure JwtClaims where
  userId : Nat
  email : Option String
  role : Option String
  type : Option String
  iat : Nat
  exp : Nat
deriving DecidableEq, Repr

/-- What the service takes from outside the repository. -/
structure Env where
  /-- `process.env.JWT_SECRET`. -/
  JWT_SECRET : String
  /-- `process.env.JWT_REFRESH_SECRET`. -/
  JWT_REFRESH_SECRET : String
  /-- `bcrypt.hash(password, saltRounds)`; the last argument is the random salt it draws. -/
  bcryptHash : String → Nat → Nat → String
  /-- `bcrypt.compare(password, hash)`. -/
  bcryptCompare : String → String → Bool
  /-- HS256 encoding of a stamped payload under a secret (the string `jwt.sign` returns). -/
  jwsEncode : JwtClaims → String → String
  /-- Signature check and decoding of `jwt.verify`, before its expiry check; an error is the
  message of the `JsonWebTokenError` it throws. -/
  jwsDecode : String → String → Except String JwtClaims
  /-- Whether `z.string().email().parse` accepts the string. -/
  zodEmail : String → Bool

/-! ## Results -/

/-- The `user` object of a successful result. -/
structure PublicUser where
  id : Nat
  email : String
  name : String
  role : String
deriving DecidableEq, Repr

/-- The `data` object of a successful result. -/
structure AuthData where
  user : Option PublicUser
  accessToken : String
  refreshToken : Option String
deriving DecidableEq, Repr

/-- The object a service method returns; a key the object does not have is `none`. -/
structure Result where
  success : Bool
  error : Option String := none
  code : Option String := none
  details : Option String := none
  lockedUntil : Option Nat := none
  attemptsRemaining : Option Int := none
  message : Option String := none
  data : Option AuthData := none
deriving DecidableEq, Repr

/-! ## Constants of `authService.js` -/

def PASSWORD_MIN_LENGTH : Nat := 8

/-- `"15m"` in seconds. -/
def ACCESS_TOKEN_EXPIRY : Nat := 15 * 60

/-- `"7d"` in seconds. -/
def REFRESH_TOKEN_EXPIRY : Nat := 7 * 24 * 60 * 60

/-! ## Password policy -/

/-- `String.prototype.length`: the number of UTF-16 code units. -/
def utf16Length (s : String) : Nat :=
  s.data.foldl (fun n c => n + (if c.toNat < 65536 then 1 else 2)) 0

/-- `[a-z]`. -/
def isLowerAZ (c : Char) : Bool := decide (97 ≤ c.toNat) && decide (c.toNat ≤ 122)

/-- `[A-Z]`. -/
def isUpperAZ (c : Char) : Bool := decide (65 ≤ c.toNat) && decide (c.toNat ≤ 90)

/-- `\d` (without the `u` and `i` flags: the ten ASCII digits). -/
def isDigit09 (c : Char) : Bool := decide (48 ≤ c.toNat) && decide (c.toNat ≤ 57)

/-- `[@$!%*?&]`. -/
def isSpecial (c : Char) : Bool := "@$!%*?&".data.contains c

/-- `[A-Za-z\d@$!%*?&]`. -/
def isAllowed (c : Char) : Bool := isLowerAZ c || isUpperAZ c || isDigit09 c || isSpecial c

/-- Line terminators, which `.` does not match. -/
def isLineTerminator (c : Char) : Bool :=
  decide (c.toNat = 10) || decide (c.toNat = 13) || decide (c.toNat = 8232) ||
    decide (c.toNat = 8233)

/-- The lookahead `(?=.*[cls])` at the start of the input. -/
def lookahead (cls : Char → Bool) : List Char → Bool
  | [] => false
  | c :: cs => cls c || (!isLineTerminator c && lookahead cls cs)

/-- `PASSWORD_REGEX.test(password)` for
`/^(?=.*[a-z])(?=.*[A-Z])(?=.*\d)(?=.*[@$!%*?&])[A-Za-z\d@$!%*?&]{8,}$/`. -/
def PASSWORD_REGEX_test (password : String) : Bool :=
  lookahead isLowerAZ password.data && lookahead isUpperAZ password.data &&
    lookahead isDigit09 password.data && lookahead isSpecial password.data &&
    password.data.all isAllowed && decide (8 ≤ password.data.length)

/-- The object `validatePasswordStrength` returns. -/
structure Validation where
  valid : Bool
  error : Option String := none
deriving DecidableEq, Repr

def validatePasswordStrength (password : String) : Validation :=
  if utf16Length password < PASSWORD_MIN_LENGTH then
    { valid := false, error := some "La contraseña debe tener al menos 8 caracteres" }
  else if !PASSWORD_REGEX_test password then
    { valid := false,
      error := some ("La contraseña debe contener mayúsculas, minúsculas, números y " ++
        "caracteres especiales (@$!%*?&)") }
  else
    { valid := true }

/-! ## Tokens -/

/-- `generateAccessToken(user)` called at `now`. -/
def generateAccessToken (env : Env) (now : Nat) (user : PublicUser) : String :=
  env.jwsEncode
    { userId := user.id, email := some user.email, role := some user.role, type := none,
      iat := now / 1000, exp := now / 1000 + ACCESS_TOKEN_EXPIRY }
    env.JWT_SECRET

/-- `generateRefreshToken(user)` called at `now`. -/
def generateRefreshToken (env : Env) (now : Nat) (user : PublicUser) : String :=
  env.jwsEncode
    { userId := user.id, email := none, role := none, type := some "refresh",
      iat := now / 1000, exp := now / 1000 + REFRESH_TOKEN_EXPIRY }
    env.JWT_REFRESH_SECRET

/-- `jwt.verify(token, secret)` called at `now`: the payload when the signature holds and the
token has not expired, the message of the thrown error otherwise. -/
def jwtVerify (env : Env) (now : Nat) (token secret : String) : Except String JwtClaims :=
  match env.jwsDecode token secret with
  | .error msg => .error msg
  | .ok decoded => if decoded.exp ≤ now / 1000 then .error "jwt expired" else .ok decoded

/-- The object `verifyRefreshToken` returns. -/
structure Verification where
  valid : Bool
  userId : Option Nat := none
  error : Option String := none
deriving DecidableEq, Repr

/-- `verifyRefreshToken(token)` called at `now`. -/
def verifyRefreshToken (env : Env) (now : Nat) (token : String) : Verification :=
  match jwtVerify env now token env.JWT_REFRESH_SECRET with
  | .error msg => { valid := false, error := some msg }
  | .ok decoded =>
    if decoded.type ≠ some "refresh" then { valid := false, error := some "Invalid token type" }
    else { valid := true, userId := some decoded.userId }

/-- The law of `jsonwebtoken` on a token it has signed under one of the two configured
secrets: `jwt.verify` under that secret accepts the signature and returns the payload that was
signed. -/
def JwtRoundTrip (env : Env) : Prop :=
  ∀ c : JwtClaims,
    env.jwsDecode (env.jwsEncode c env.JWT_SECRET) env.JWT_SECRET = .ok c ∧
    env.jwsDecode (env.jwsEncode c env.JWT_REFRESH_SECRET) env.JWT_REFRESH_SECRET = .ok c

/-- The law of `jsonwebtoken` on the payload of a token it has signed: whenever `jwt.verify`
accepts the signature, under whichever secret, the payload it returns is the one that was
signed. -/
def JwtSound (env : Env) : Prop :=
  ∀ (c c' : JwtClaims) (secret secret' : String),
    env.jwsDecode (env.jwsEncode c secret) secret' = .ok c' → c' = c

/-! ## Prepared statements -/

/-- `SELECT ... FROM users WHERE email = ?` with `.get`: the first matching row. -/
def selectUserByEmail (db : Db) (email : String) : Option User :=
  db.users.find? (fun u => decide (u.email = email))

/-- The rowid an `AUTOINCREMENT` key gives the next row: one more than the largest rowid the
table has ever held. -/
def nextRowid (seq : Nat) (ids : List Nat) : Nat :=
  max seq (ids.foldl max 0) + 1

/-- `INSERT INTO users (email, password_hash, name, role, created_at) VALUES (?, ?, ?, ?, ?)`;
returns `lastInsertRowid` and the new store. -/
def insertUser (db : Db) (email password_hash name role : String) (created_at : Nat) :
    Except String (Nat × Db) :=
  if !(["admin", "user", "viewer"].contains role) then
    .error "CHECK constraint failed: role IN ('admin', 'user', 'viewer')"
  else if db.users.any (fun u => decide (u.email = email)) then
    .error "UNIQUE constraint failed: users.email"
  else
    let id := nextRowid db.users_seq (db.users.map (fun u => u.id))
    .ok (id,
      { db with
        users := db.users ++
          [{ id := id, email := email, password_hash := password_hash, name := name,
             role := role, is_active := 1, failed_login_attempts := some 0,
             locked_until := none, last_login_at := none, created_at := created_at,
             updated_at := none }],
        users_seq := id })

/-- `INSERT INTO refresh_tokens (user_id, token, expires_at, created_at) VALUES (?, ?, ?, ?)`. -/
def insertRefreshToken (db : Db) (user_id : Nat) (token : String) (expires_at created_at : Nat) :
    Except String Db :=
  if db.refresh_tokens.any (fun r => decide (r.token = token)) then
    .error "UNIQUE constraint failed: refresh_tokens.token"
  else if !(db.users.any (fun u => decide (u.id = user_id))) then
    .error "FOREIGN KEY constraint failed"
  else
    let id := nextRowid db.refresh_tokens_seq (db.refresh_tokens.map (fun r => r.id))
    .ok
      { db with
        refresh_tokens := db.refresh_tokens ++
          [{ id := id, user_id := user_id, token := token, expires_at := expires_at,
             revoked_at := none, created_at := created_at }],
        refresh_tokens_seq := id }

/-- `UPDATE users SET failed_login_attempts = ? WHERE id = ?`, with `, locked_until = ?` when the
service appended it to the query. -/
def updateFailedAttempts (db : Db) (failedAttempts : Int) (lockUntil : Option Nat) (id : Nat) :
    Db :=
  { db with
    users := db.users.map (fun u =>
      if u.id = id then
        match lockUntil with
        | some t => { u with failed_login_attempts := some failedAttempts, locked_until := some t }
        | none => { u with failed_login_attempts := some failedAttempts }
      else u) }

/-- `UPDATE users SET failed_login_attempts = 0, locked_until = NULL, last_login_at = ?
WHERE id = ?`. -/
def resetFailedAttempts (db : Db) (last_login_at : Nat) (id : Nat) : Db :=
  { db with
    users := db.users.map (fun u =>
      if u.id = id then
        { u with failed_login_attempts := some 0, locked_until := none,
                 last_login_at := some last_login_at }
      else u) }

/-- `SELECT user_id, revoked_at FROM refresh_tokens WHERE token = ? AND expires_at > ?` with
`.get`. The two ISO texts compare as their milliseconds do. -/
def selectRefreshToken (db : Db) (token : String) (now : Nat) : Option RefreshTokenRow :=
  db.refresh_tokens.find? (fun r => decide (r.token = token) && decide (now < r.expires_at))

/-- `SELECT id, email, name, role FROM users WHERE id = ? AND is_active = 1` with `.get`. -/
def selectActiveUserById (db : Db) (id : Nat) : Option User :=
  db.users.find? (fun u => decide (u.id = id) && decide (u.is_active = 1))

/-- `SELECT password_hash FROM users WHERE id = ?` with `.get`. -/
def selectUserById (db : Db) (id : Nat) : Option User :=
  db.users.find? (fun u => decide (u.id = id))

/-- `UPDATE refresh_tokens SET revoked_at = ? WHERE token = ?`. -/
def revokeByToken (db : Db) (revoked_at : Nat) (token : String) : Db :=
  { db with
    refresh_tokens := db.refresh_tokens.map (fun r =>
      if r.token = token then { r with revoked_at := some revoked_at } else r) }

/-- `UPDATE refresh_tokens SET revoked_at = ? WHERE user_id = ?`. -/
def revokeByUser (db : Db) (revoked_at : Nat) (user_id : Nat) : Db :=
  { db with
    refresh_tokens := db.refresh_tokens.map (fun r =>
      if r.user_id = user_id then { r with revoked_at := some revoked_at } else r) }

/-- `UPDATE users SET password_hash = ? WHERE id = ?`. -/
def updatePasswordHash (db : Db) (password_hash : String) (id : Nat) : Db :=
  { db with
    users := db.users.map (fun u =>
      if u.id = id then { u with password_hash := password_hash } else u) }

/-! ## `AuthService` -/

/-- The columns of a `users` row that go into tokens and results. -/
def User.toPublic (u : User) : PublicUser :=
  { id := u.id, email := u.email, name := u.name, role := u.role }

/-- `user.failed_login_attempts || 0`. -/
def orZero : Option Int → Int
  | none => 0
  | some v => v

/-- `user.locked_until && new Date(user.locked_until) > new Date()`. -/
def isLocked (locked_until : Option Nat) (now : Nat) : Bool :=
  match locked_until with
  | none => false
  | some t => decide (now < t)

/-- `AuthService.register({ email, password, name, role = "user" })` run at `now`, with `salt`
the salt `bcrypt.hash` draws. `role = none` is a call that passes no role. -/
def AuthService.register (env : Env) (db : Db) (now salt : Nat) (email password name : String)
    (role : Option String) : Result × Db :=
  let role := role.getD "user"
  if !env.zodEmail email then
    ({ success := false, error := some "Formato de correo electrónico inválido",
       code := some "INVALID_EMAIL" }, db)
  else
    let passwordValidation := validatePasswordStrength password
    if !passwordValidation.valid then
      ({ success := false, error := passwordValidation.error, code := some "WEAK_PASSWORD" }, db)
    else
      match selectUserByEmail db email with
      | some _ =>
        ({ success := false, error := some "El correo electrónico ya está registrado",
           code := some "EMAIL_EXISTS" }, db)
      | none =>
        let passwordHash := env.bcryptHash password 12 salt
        match insertUser db email passwordHash name role now with
        | .error msg =>
          ({ success := false, error := some "Error al registrar usuario",
             code := some "REGISTRATION_ERROR", details := some msg }, db)
        | .ok (id, db1) =>
          let user : PublicUser := { id := id, email := email, name := name, role := role }
          let accessToken := generateAccessToken env now user
          let refreshToken := generateRefreshToken env now user
          match insertRefreshToken db1 user.id refreshToken (now + 7 * 24 * 60 * 60 * 1000) now with
          | .error msg =>
            ({ success := false, error := some "Error al registrar usuario",
               code := some "REGISTRATION_ERROR", details := some msg }, db1)
          | .ok db2 =>
            ({ success := true,
               data := some { user := some user, accessToken := accessToken,
                              refreshToken := some refreshToken } }, db2)

/-- `AuthService.login({ email, password })` run at `now`. -/
def AuthService.login (env : Env) (db : Db) (now : Nat) (email password : String) :
    Result × Db :=
  match selectUserByEmail db email with
  | none =>
    ({ success := false, error := some "Credenciales inválidas",
       code := some "INVALID_CREDENTIALS" }, db)
  | some user =>
    if user.is_active = 0 then
      ({ success := false, error := some "Cuenta desactivada", code := some "ACCOUNT_DISABLED" },
        db)
    else if isLocked user.locked_until now then
      ({ success := false,
         error := some "Cuenta bloqueada temporalmente debido a múltiples intentos fallidos",
         code := some "ACCOUNT_LOCKED", lockedUntil := user.locked_until }, db)
    else if !env.bcryptCompare password user.password_hash then
      let failedAttempts := orZero user.failed_login_attempts + 1
      let lockUntil : Option Nat :=
        if 5 ≤ failedAttempts then some (now + 30 * 60 * 1000) else none
      ({ success := false, error := some "Credenciales inválidas",
         code := some "INVALID_CREDENTIALS",
         attemptsRemaining := some (max 0 (5 - failedAttempts)) },
        updateFailedAttempts db failedAttempts lockUntil user.id)
    else
      let db1 := resetFailedAttempts db now user.id
      let accessToken := generateAccessToken env now user.toPublic
      let refreshToken := generateRefreshToken env now user.toPublic
      match insertRefreshToken db1 user.id refreshToken (now + 7 * 24 * 60 * 60 * 1000) now with
      | .error msg =>
        ({ success := false, error := some "Error al iniciar sesión", code := some "LOGIN_ERROR",
           details := some msg }, db1)
      | .ok db2 =>
        ({ success := true,
           data := some { user := some user.toPublic, accessToken := accessToken,
                          refreshToken := some refreshToken } }, db2)

/-- `AuthService.refreshAccessToken(refreshToken)` run at `now`. It writes nothing. -/
def AuthService.refreshAccessToken (env : Env) (db : Db) (now : Nat) (refreshToken : String) :
    Result × Db :=
  let verification := verifyRefreshToken env now refreshToken
  if !verification.valid then
    ({ success := false, error := some "Token de actualización inválido",
       code := some "INVALID_REFRESH_TOKEN" }, db)
  else
    match selectRefreshToken db refreshToken now with
    | none =>
      ({ success := false, error := some "Token de actualización no encontrado o expirado",
         code := some "TOKEN_NOT_FOUND" }, db)
    | some tokenRecord =>
      if tokenRecord.revoked_at.isSome then
        ({ success := false, error := some "Token de actualización revocado",
           code := some "TOKEN_REVOKED" }, db)
      else
        match selectActiveUserById db tokenRecord.user_id with
        | none =>
          ({ success := false, error := some "Usuario no encontrado o inactivo",
             code := some "USER_NOT_FOUND" }, db)
        | some user =>
          ({ success := true,
             data := some { user := none,
                            accessToken := generateAccessToken env now user.toPublic,
                            refreshToken := none } }, db)

/-- The argument of `logout`. The controller hands over
`req.cookies.refreshToken || req.body.refreshToken` as it came in, so the value need not be a
string: `text` is a string, `unbindable` is a value that `better-sqlite3` refuses as a bind
parameter (a boolean, a plain object, an empty array), on which `.run` throws. A value of
another kind that the driver does bind (a number, a `Buffer`) runs the `UPDATE` as a `text`
does. -/
inductive TokenArg where
  | text (token : String)
  | unbindable
deriving DecidableEq, Repr

/-- `AuthService.logout(refreshToken)` run at `now`: the `UPDATE` when `.run` binds the
argument, the `catch` branch when it throws. -/
def AuthService.logout (db : Db) (now : Nat) (refreshToken : TokenArg) : Result × Db :=
  match refreshToken with
  | .text token =>
    ({ success := true, message := some "Sesión cerrada exitosamente" },
      revokeByToken db now token)
  | .unbindable =>
    ({ success := false, error := some "Error al cerrar sesión", code := some "LOGOUT_ERROR" },
      db)

/-- `AuthService.changePassword(userId, currentPassword, newPassword)` run at `now`, with
`salt` the salt `bcrypt.hash` draws. -/
def AuthService.changePassword (env : Env) (db : Db) (now salt : Nat) (userId : Nat)
    (currentPassword newPassword : String) : Result × Db :=
  match selectUserById db userId with
  | none =>
    ({ success := false, error := some "Usuario no encontrado", code := some "USER_NOT_FOUND" },
      db)
  | some user =>
    if !env.bcryptCompare currentPassword user.password_hash then
      ({ success := false, error := some "Contraseña actual incorrecta",
         code := some "INVALID_CURRENT_PASSWORD" }, db)
    else
      let passwordValidation := validatePasswordStrength newPassword
      if !passwordValidation.valid then
        ({ success := false, error := passwordValidation.error, code := some "WEAK_PASSWORD" },
          db)
      else
        let newPasswordHash := env.bcryptHash newPassword 12 salt
        let db1 := updatePasswordHash db newPasswordHash userId
        let db2 := revokeByUser db1 now userId
        ({ success := true, message := some "Contraseña actualizada exitosamente" }, db2)

/-! ## `AuthController` (`controllers/authController.js`)

Each handler validates the request body, calls the service and answers from the result; the
functions below are the answer a handler sends once the service has returned `result`. -/

/-- What a handler sends: `res.status(...)`, the JSON body, and what it does with the
`refreshToken` cookie. -/
structure HttpResponse where
  status : Nat
  body : Result
  setRefreshCookie : Option String := none
  clearRefreshCookie : Bool := false
deriving DecidableEq, Repr

/-- The body of the `catch` branch that is not a validation error. -/
def internalError : HttpResponse :=
  { status := 500,
    body := { success := false, error := some "Error interno del servidor",
              code := some "INTERNAL_ERROR" } }

/-- The successful body of `register` and `login`: the user and the access token. -/
def sessionBody (d : AuthData) : Result :=
  { success := true,
    data := some { user := d.user, accessToken := d.accessToken, refreshToken := none } }

/-- `AuthController.register` after `authService.register` has returned `result`. -/
def AuthController.register (result : Result) : HttpResponse :=
  if !result.success then { status := 400, body := result }
  else
    match result.data with
    | none => internalError
    | some d => { status := 201, body := sessionBody d, setRefreshCookie := d.refreshToken }

/-- `AuthController.login` after `authService.login` has returned `result`. -/
def AuthController.login (result : Result) : HttpResponse :=
  if !result.success then
    let statusCode := if result.code = some "ACCOUNT_LOCKED" then 423 else 401
    { status := statusCode, body := result }
  else
    match result.data with
    | none => internalError
    | some d => { status := 200, body := sessionBody d, setRefreshCookie := d.refreshToken }

/-- `AuthController.refresh` after `authService.refreshAccessToken` has returned `result`. -/
def AuthController.refresh (result : Result) : HttpResponse :=
  if !result.success then { status := 401, body := result, clearRefreshCookie := true }
  else
    match result.data with
    | none => internalError
    | some d =>
      { status := 200,
        body := { success := true,
                  data := some { user := none, accessToken := d.accessToken,
                                 refreshToken := none } } }

/-- `AuthController.changePassword` after `authService.changePassword` has returned
`result`. -/
def AuthController.changePassword (result : Result) : HttpResponse :=
  if !result.success then { status := 400, body := result }
  else
    { status := 200,
      body := { success := true,
                message := some ("Contraseña cambiada exitosamente. " ++
                  "Por favor, inicia sesión nuevamente.") },
      clearRefreshCookie := true }

/-! ## Middleware (`middleware/auth.js`, `middleware/upload.js`) -/

/-- The object `authenticate` stores in `req.user`. -/
structure ReqUser where
  id : Nat
  email : String
  role : String
deriving DecidableEq, Repr

/-- The answer of a middleware that does not pass the request on. -/
structure Denial where
  status : Nat
  error : String
  code : String
  requiredRoles : Option (List String) := none
  userRole : Option String := none
deriving DecidableEq, Repr

/-- What a middleware does with a request: it calls `next()`, with `req.user` as given, or it
sends an answer and does not call `next()`. -/
inductive Outcome where
  | next (user : Option ReqUser)
  | respond (denial : Denial)
deriving DecidableEq, Repr

/-- `tokenPayloadSchema.parse(decoded)`: `email` must be an email address and `role` one of the
three roles; `userId`, `iat` and `exp` are numbers in every payload. -/
def tokenPayloadSchema_parse (env : Env) (decoded : JwtClaims) : Option ReqUser :=
  match decoded.email, decoded.role with
  | some email, some role =>
    if env.zodEmail email && ["admin", "user", "viewer"].contains role then
      some { id := decoded.userId, email := email, role := role }
    else none
  | _, _ => none

/-- `authenticate(req, res, next)` run at `now` on a request whose `Authorization` header is
`authHeader`. -/
def authenticate (env : Env) (now : Nat) (authHeader : Option String) : Outcome :=
  match authHeader with
  | none =>
    .respond { status := 401, error := "No se proporcionó token de autenticación",
               code := "NO_TOKEN" }
  | some header =>
    if header.data.isEmpty || !("Bearer ".data.isPrefixOf header.data) then
      .respond { status := 401, error := "No se proporcionó token de autenticación",
                 code := "NO_TOKEN" }
    else
      let token := String.mk (header.data.drop 7)
      match env.jwsDecode token env.JWT_SECRET with
      | .error _ => .respond { status := 401, error := "Token inválido", code := "INVALID_TOKEN" }
      | .ok decoded =>
        if decoded.exp ≤ now / 1000 then
          .respond { status := 401, error := "Token expirado", code := "TOKEN_EXPIRED" }
        else
          match tokenPayloadSchema_parse env decoded with
          | none =>
            .respond { status := 401, error := "Estructura de token inválida",
                       code := "INVALID_TOKEN_STRUCTURE" }
          | some user => .next (some user)

/-- The middleware `authorize(...allowedRoles)` on a request whose `req.user` is `user`. -/
def authorize (allowedRoles : List String) (user : Option ReqUser) : Outcome :=
  match user with
  | none => .respond { status := 401, error := "Usuario no autenticado",
                       code := "NOT_AUTHENTICATED" }
  | some u =>
    if !allowedRoles.contains u.role then
      .respond { status := 403, error := "No tienes permisos para realizar esta acción",
                 code := "INSUFFICIENT_PERMISSIONS", requiredRoles := some allowedRoles,
                 userRole := some u.role }
    else .next (some u)

/-- The file object multer hands to the filter. -/
structure UploadFile where
  originalname : String
  mimetype : String
deriving DecidableEq, Repr

/-- Whether `pat` occurs in `s` as a run of consecutive characters. -/
def hasInfix (pat : List Char) : List Char → Bool
  | [] => pat.isEmpty
  | c :: cs => pat.isPrefixOf (c :: cs) || hasInfix pat cs

/-- `allowedTypes.test(s)` for `/jpeg|jpg|png|webp|heic/`: the pattern has no anchors. -/
def allowedTypes_test (s : String) : Bool :=
  ["jpeg", "jpg", "png", "webp", "heic"].any (fun alt => hasInfix alt.data s.data)

/-- `String.prototype.toLowerCase`, which on the letters `A`-`Z` is this map. The two other
characters it turns into an ASCII letter (U+212A into `k`, U+0130 into `i` followed by U+0307)
cannot complete a word of the pattern below. -/
def toLowerCase (s : String) : String := String.mk (s.data.map Char.toLower)

/-- `fileFilter(req, file, cb)`: `cb(null, true)` is `.ok true`, `cb(new Error(msg))` is
`.error msg`. `extname` is `path.extname`. -/
def fileFilter (extname : String → String) (file : UploadFile) : Except String Bool :=
  let ext := allowedTypes_test (toLowerCase (extname file.originalname))
  let mimetype := allowedTypes_test file.mimetype
  if mimetype && ext then .ok true
  else .error "Solo se permiten imágenes (JPEG, PNG, WebP, HEIC)"

/-! ## Traces and sample data -/

/-- One call of a method of the service: its clock, the salt it draws if it hashes, and its
arguments. -/
inductive Call where
  | register (now salt : Nat) (email password name : String) (role : Option String)
  | login (now : Nat) (email password : String)
  | refreshAccessToken (now : Nat) (refreshToken : String)
  | logout (now : Nat) (refreshToken : TokenArg)
  | changePassword (now salt : Nat) (userId : Nat) (currentPassword newPassword : String)
deriving DecidableEq, Repr

/-- The result of a call and the store it leaves. -/
def Call.run (env : Env) (db : Db) : Call → Result × Db
  | .register now salt email password name role =>
    AuthService.register env db now salt email password name role
  | .login now email password => AuthService.login env db now email password
  | .refreshAccessToken now refreshToken => AuthService.refreshAccessToken env db now refreshToken
  | .logout now refreshToken => AuthService.logout db now refreshToken
  | .changePassword now salt userId currentPassword newPassword =>
    AuthService.changePassword env db now salt userId currentPassword newPassword

/-- The store after a sequence of calls, run in order. -/
def runCalls (env : Env) : Db → List Call → Db
  | db, [] => db
  | db, call :: rest => runCalls env (call.run env db).2 rest

/-- The clock of a call. -/
def Call.now : Call → Nat
  | .register now _ _ _ _ _ => now
  | .login now _ _ => now
  | .refreshAccessToken now _ => now
  | .logout now _ => now
  | .changePassword now _ _ _ _ => now

/-- Whether a call is a `logout` of the given token or a `changePassword` of the given
account. -/
def Call.revokes (token : String) (user_id : Nat) : Call → Bool
  | .logout _ (.text refreshToken) => decide (refreshToken = token)
  | .changePassword _ _ userId _ _ => decide (userId = user_id)
  | _ => false

/-- A token row as a later store holds it: the same columns, and still revoked if it was. -/
def RowKept (r r' : RefreshTokenRow) : Prop :=
  r'.id = r.id ∧ r'.user_id = r.user_id ∧ r'.token = r.token ∧ r'.expires_at = r.expires_at ∧
    r'.created_at = r.created_at ∧ (r.revoked_at ≠ none → r'.revoked_at ≠ none)

/-- An account row as a later store holds it: the columns no method of the service writes. -/
def UserKept (u u' : User) : Prop :=
  u'.id = u.id ∧ u'.email = u.email ∧ u'.name = u.name ∧ u'.role = u.role ∧
    u'.is_active = u.is_active ∧ u'.created_at = u.created_at

/-- What the lockout logic keeps true of an account row: the counter is a non-negative number,
and a lock expiry is there only with a counter of five or more. -/
def CounterOk (u : User) : Prop :=
  ∃ c : Int, u.failed_login_attempts = some c ∧ 0 ≤ c ∧ (u.locked_until ≠ none → 5 ≤ c)

/-- What the service keeps true of the account table: ids and emails are pairwise distinct and
every row satisfies `CounterOk`. -/
def UsersOk (db : Db) : Prop :=
  (db.users.map (fun u => u.id)).Nodup ∧ (db.users.map (fun u => u.email)).Nodup ∧
    ∀ u ∈ db.users, CounterOk u

/-- What the service keeps true of the token table: every row holds a token signed under the
refresh secret with a payload naming the owner of the row, and the owner is an account of the
store. -/
def TokensIssued (env : Env) (db : Db) : Prop :=
  ∀ row ∈ db.refresh_tokens,
    (∃ c : JwtClaims, c.userId = row.user_id ∧
      row.token = env.jwsEncode c env.JWT_REFRESH_SECRET) ∧
    ∃ v ∈ db.users, v.id = row.user_id

/-- How a later store `db'` relates to `db`: every row is still there, in place, with the
columns of `RowKept` and `UserKept`; a token row is untouched unless `revoked` holds of its
token and owner; the rows after them are new, and a new token row holds a token string that no
row of `db` holds. -/
def Evolves (revoked : String → Nat → Bool) (db db' : Db) : Prop :=
  ∃ (f : RefreshTokenRow → RefreshTokenRow) (extra : List RefreshTokenRow)
    (g : User → User) (extraU : List User),
    db'.refresh_tokens = db.refresh_tokens.map f ++ extra ∧
    (∀ r, RowKept r (f r)) ∧
    (∀ r, revoked r.token r.user_id = false → f r = r) ∧
    (∀ x ∈ extra, ∀ r ∈ db.refresh_tokens, x.token ≠ r.token) ∧
    db'.users = db.users.map g ++ extraU ∧
    (∀ u, UserKept u (g u))

/-- Consecutive `login` calls for one email, each given as (clock, password): the results in
call order and the store after the last call. -/
def runLogins (env : Env) (email : String) : Db → List (Nat × String) → List Result × Db
  | db, [] => ([], db)
  | db, call :: rest =>
    let r := AuthService.login env db call.1 email call.2
    let rs := runLogins env email r.2 rest
    (r.1 :: rs.1, rs.2)

/-- The fields of a sample token: the pieces between `|`. -/
def splitBars : List Char → List (List Char)
  | [] => [[]]
  | c :: cs =>
    if c = '|' then [] :: splitBars cs
    else
      match splitBars cs with
      | [] => [[c]]
      | f :: fs => (c :: f) :: fs

/-- Decimal reading of a field of a sample token. -/
def readNat (cs : List Char) : Option Nat :=
  if cs.isEmpty then none
  else
    cs.foldl
      (fun acc c =>
        match acc with
        | none => none
        | some n => if isDigit09 c then some (10 * n + (c.toNat - 48)) else none)
      (some 0)

/-- An absent claim is spelled as an empty field of a sample token. -/
def readText (cs : List Char) : Option String :=
  if cs.isEmpty then none else some (String.mk cs)

/-- An instance of the libraries for evaluating the service on concrete calls: the hash of a
password is the password behind a marker, and a token spells out its secret and its claims,
separated by `|`. -/
def sampleEnv : Env where
  JWT_SECRET := "a"
  JWT_REFRESH_SECRET := "r"
  bcryptHash := fun password _ _ => "#" ++ password
  bcryptCompare := fun password hash => decide (hash = "#" ++ password)
  jwsEncode := fun c secret =>
    secret ++ "|" ++ toString c.userId ++ "|" ++ c.type.getD "" ++ "|" ++ c.email.getD "" ++
      "|" ++ c.role.getD "" ++ "|" ++ toString c.iat ++ "|" ++ toString c.exp
  jwsDecode := fun token secret =>
    match splitBars token.data with
    | [s, userId, type, email, role, iat, exp] =>
      if String.mk s = secret then
        match readNat userId, readNat iat, readNat exp with
        | some i, some t, some e =>
          .ok { userId := i, email := readText email, role := readText role,
                type := readText type, iat := t, exp := e }
        | _, _, _ => .error "jwt malformed"
      else .error "invalid signature"
    | _ => .error "jwt malformed"
  zodEmail := fun s => s.data.contains '@'

/-- The store before any call. -/
def emptyDb : Db :=
  { users := [], refresh_tokens := [], users_seq := 0, refresh_tokens_seq := 0 }

/-- An account as `register` leaves it. -/
def ana : User :=
  { id := 1, email := "ana@x.io", password_hash := "#Abcdef1!", name := "Ana", role := "user",
    is_active := 1, failed_login_attempts := some 0, locked_until := none,
    last_login_at := none, created_at := 5000, updated_at := none }

/-- A store holding the account `ana` alone. -/
def anaDb : Db :=
  { users := [ana], refresh_tokens := [], users_seq := 1, refresh_tokens_seq := 0 }

/-- An account locked until 1 805 000 ms after five failures. -/
def lockedAna : User :=
  { ana with failed_login_attempts := some 5, locked_until := some 1805000 }

/-- A store holding the locked account and one refresh token of it. -/
def lockedDb : Db :=
  { users := [lockedAna],
    refresh_tokens :=
      [{ id := 1, user_id := 1, token := "r|1|refresh|||5|604805", expires_at := 604805000,
         revoked_at := none, created_at := 5000 }],
    users_seq := 1, refresh_tokens_seq := 1 }

/-- A disabled account that is also locked and has a high failure counter. -/
def disabledAna : User :=
  { ana with is_active := 0, failed_login_attempts := some 9, locked_until := some 1805000 }

/-- A store holding the disabled account alone. -/
def disabledDb : Db :=
  { users := [disabledAna], refresh_tokens := [], users_seq := 1, refresh_tokens_seq := 0 }

/-- Four wrong-password calls at 1000 ms to 4000 ms. -/
def fourWrong : List (Nat × String) :=
  [(1000, "Wrong000!"), (2000, "Wrong000!"), (3000, "Wrong000!"), (4000, "Wrong000!")]

/-- The store right after `register` of the account `ana@x.io` at 5000 ms. -/
def registeredDb : Db :=
  (AuthService.register sampleEnv emptyDb 5000 7 "ana@x.io" "Abcdef1!" "Ana" none).2

/-- The refresh token `register` stored in `registeredDb`. -/
def anaToken : String := generateRefreshToken sampleEnv 5000 ana.toPublic

/-- Calls that neither log `anaToken` out nor change the password of account 1: a failed and a
successful `login`, a `register`, a `refreshAccessToken`, a `logout` of another string and a
`changePassword` for another id. -/
def otherCalls : List Call :=
  [.login 10000 "ana@x.io" "Wrong000!", .login 11000 "ana@x.io" "Abcdef1!",
   .register 12000 3 "bob@x.io" "Str0ng!pw" "Bob" (some "viewer"),
   .refreshAccessToken 13000 "r|1|refresh|||5|604805",
   .logout 14000 (.text "r|2|refresh|||12|604812x"),
   .changePassword 15000 4 2 "Str0ng!pw" "N3w!passw"]

/-- The account `ana` after a successful `login` at 11000 ms. -/
def anaLoggedIn : User := { ana with last_login_at := some 11000 }

/-- The store after `logout` of `anaToken` at 8000 ms. -/
def loggedOutDb : Db := (AuthService.logout registeredDb 8000 (.text anaToken)).2

/-- `path.extname` on a file name without directory separators that is not made of dots
alone: the name from its last dot on, or nothing when there is no dot or the only dot comes
first. -/
def sampleExtname (name : String) : String :=
  match name.data.reverse.span (fun c => c != '.') with
  | (_, []) => ""
  | (_, [_]) => ""
  | (revExt, _ :: _ :: _) => String.mk ('.' :: revExt.reverse)

/-- A number as a field of a token: its decimal digits, the lowest first, closed by `;`. The
first argument bounds the number of digits. -/
def encNat : Nat → Nat → List Char
  | 0, _ => [';']
  | fuel + 1, n => if n = 0 then [';'] else Char.ofNat (48 + n % 10) :: encNat fuel (n / 10)

/-- Reads a number field off the front of a token: the number and the rest of the token. -/
def decNat : List Char → Option (Nat × List Char)
  | [] => none
  | c :: cs =>
    if c = ';' then some (0, cs)
    else if isDigit09 c then
      match decNat cs with
      | some (n, rest) => some (c.toNat - 48 + 10 * n, rest)
      | none => none
    else none

/-- A string as a field of a token: its length as a number field, then its characters. -/
def encText (s : String) : List Char := encNat s.data.length s.data.length ++ s.data

/-- Reads a string field off the front of a token. -/
def decText (cs : List Char) : Option (String × List Char) :=
  match decNat cs with
  | none => none
  | some (n, rest) =>
    if n ≤ rest.length then some (String.mk (rest.take n), rest.drop n) else none

/-- A claim that may be absent: `-` when it is, `+` and the string field when it is not. -/
def encOpt : Option String → List Char
  | none => ['-']
  | some s => '+' :: encText s

/-- Reads a claim that may be absent off the front of a token. -/
def decOpt : List Char → Option (Option String × List Char)
  | [] => none
  | c :: cs =>
    if c = '-' then some (none, cs)
    else if c = '+' then
      match decText cs with
      | none => none
      | some (s, rest) => some (some s, rest)
    else none

/-- The characters of a token of `codecEnv`: the secret it was signed with, then the fields of
its payload. -/
def codecRender (c : JwtClaims) (secret : String) : List Char :=
  encText secret ++ (encNat c.userId c.userId ++ (encOpt c.email ++ (encOpt c.role ++
    (encOpt c.type ++ (encNat c.iat c.iat ++ (encNat c.exp c.exp ++ []))))))

/-- Reads a token of `codecEnv` back: the secret it was signed with and its payload. -/
def codecParse (cs : List Char) : Option (String × JwtClaims) :=
  match decText cs with
  | none => none
  | some (secret, r1) =>
    match decNat r1 with
    | none => none
    | some (userId, r2) =>
      match decOpt r2 with
      | none => none
      | some (email, r3) =>
        match decOpt r3 with
        | none => none
        | some (role, r4) =>
          match decOpt r4 with
          | none => none
          | some (type, r5) =>
            match decNat r5 with
            | none => none
            | some (iat, r6) =>
              match decNat r6 with
              | none => none
              | some (exp, r7) =>
                if r7.isEmpty then
                  some (secret, { userId := userId, email := email, role := role, type := type,
                                  iat := iat, exp := exp })
                else none

/-- An instance of the libraries whose tokens read back for every payload and every secret:
each string of a token is written behind its length, so no character of a claim or of a secret
can be taken for a separator. The other fields are those of `sampleEnv`. -/
def codecEnv : Env :=
  { sampleEnv with
    jwsEncode := fun c secret => String.mk (codecRender c secret)
    jwsDecode := fun token secret =>
      match codecParse token.data with
      | none => .error "jwt malformed"
      | some (s, c) => if s = secret then .ok c else .error "invalid signature" }

/-- The libraries of `codecEnv` with one secret for both kinds of token. -/
def sharedSecretEnv : Env := { codecEnv with JWT_SECRET := "r" }

/-- The store right after `register` of the account `ana@x.io` at 5000 ms, with the libraries
of `codecEnv`. -/
def codecRegisteredDb : Db :=
  (AuthService.register codecEnv emptyDb 5000 7 "ana@x.io" "Abcdef1!" "Ana" none).2

/-- A registration and a login of the account `ana@x.io`. -/
def sessionCalls : List Call :=
  [.register 5000 7 "ana@x.io" "Abcdef1!" "Ana" none, .login 11000 "ana@x.io" "Abcdef1!"]

/-- Calls that lock `ana@x.io`: five wrong passwords from 1000 ms to 5000 ms. -/
def lockingCalls : List Call :=
  [.register 500 7 "ana@x.io" "Abcdef1!" "Ana" none, .login 1000 "ana@x.io" "Wrong000!",
   .login 2000 "ana@x.io" "Wrong000!", .login 3000 "ana@x.io" "Wrong000!",
   .login 4000 "ana@x.io" "Wrong000!", .login 5000 "ana@x.io" "Wrong000!"]

/-! ## The token library: `codecEnv` obeys both laws -/

theorem digit_char (d : Nat) (hd : d < 10) :
    Char.ofNat (48 + d) ≠ ';' ∧ isDigit09 (Char.ofNat (48 + d)) = true ∧
      (Char.ofNat (48 + d)).toNat - 48 = d := by
  interval_cases d <;> decide

theorem decNat_encNat (rest : List Char) :
    ∀ (fuel n : Nat), n ≤ fuel → decNat (encNat fuel n ++ rest) = some (n, rest) := by
  intro fuel
  induction fuel with
  | zero =>
    intro n hn
    have : n = 0 := by omega
    subst this
    simp [encNat, decNat]
  | succ fuel ih =>
    intro n hn
    by_cases h0 : n = 0
    · subst h0
      simp [encNat, decNat]
    · have hd := digit_char (n % 10) (Nat.mod_lt _ (by decide))
      have hrec := ih (n / 10) (by omega)
      simp only [encNat, if_neg h0, List.cons_append, decNat, if_neg hd.1, hd.2.1, if_true, hrec,
        hd.2.2]
      congr 2
      omega

theorem decText_encText (s : String) (rest : List Char) :
    decText (encText s ++ rest) = some (s, rest) := by
  unfold decText encText
  rw [List.append_assoc, decNat_encNat _ _ _ (le_refl _)]
  simp

theorem decOpt_encOpt (o : Option String) (rest : List Char) :
    decOpt (encOpt o ++ rest) = some (o, rest) := by
  cases o with
  | none => simp [encOpt, decOpt]
  | some s =>
    have h : ('+' : Char) ≠ '-' := by decide
    simp only [encOpt, List.cons_append, decOpt, if_neg h, if_true, decText_encText]

/-- A token of `codecEnv` reads back as the secret and the payload it was made of. -/
theorem codecParse_codecRender (c : JwtClaims) (secret : String) :
    codecParse (codecRender c secret) = some (secret, c) := by
  unfold codecParse codecRender
  simp only [decText_encText, decOpt_encOpt, decNat_encNat _ _ _ (le_refl _), List.isEmpty_nil,
    if_true]

/-- Libraries that sign and verify as `codecEnv` does obey `JwtRoundTrip`, whatever the two
secrets are. -/
theorem jwtRoundTrip_of_codec (env : Env) (henc : env.jwsEncode = codecEnv.jwsEncode)
    (hdec : env.jwsDecode = codecEnv.jwsDecode) : JwtRoundTrip env := by
  intro c
  rw [henc, hdec]
  simp only [codecEnv, codecParse_codecRender, if_true, and_self]

/-- Libraries that sign and verify as `codecEnv` does obey `JwtSound`, whatever the two
secrets are. -/
theorem jwtSound_of_codec (env : Env) (henc : env.jwsEncode = codecEnv.jwsEncode)
    (hdec : env.jwsDecode = codecEnv.jwsDecode) : JwtSound env := by
  intro c c' secret secret' h
  rw [henc, hdec] at h
  simp only [codecEnv, codecParse_codecRender] at h
  split at h
  · exact (Except.ok.inj h).symm
  · cases h

/-- Under `JwtRoundTrip`, a token signed under the refresh secret determines its payload. -/
theorem jwsEncode_injective {env : Env} (hlaw : JwtRoundTrip env) {c1 c2 : JwtClaims}
    (h : env.jwsEncode c1 env.JWT_REFRESH_SECRET = env.jwsEncode c2 env.JWT_REFRESH_SECRET) :
    c1 = c2 := by
  have h1 := (hlaw c1).2
  rw [h, (hlaw c2).2] at h1
  exact (Except.ok.inj h1).symm

/-! ## Lemmas on the prepared statements -/

theorem find?_email_map (email : String) (f : User → User) (hf : ∀ v, (f v).email = v.email)
    (l : List User) :
    (l.map f).find? (fun v => decide (v.email = email)) =
      (l.find? (fun v => decide (v.email = email))).map f := by
  induction l with
  | nil => rfl
  | cons a l ih =>
    by_cases h : a.email = email
    · simp [List.find?_cons, hf, h]
    · simp [List.find?_cons, hf, h, ih]

theorem find?_email_some {email : String} {l : List User} {u : User}
    (h : l.find? (fun v => decide (v.email = email)) = some u) : u.email = email ∧ u ∈ l := by
  have h1 := List.find?_some h
  exact ⟨by simpa using h1, List.mem_of_find?_eq_some h⟩

/-- Under the `UNIQUE` constraint on `users.email`, the row a `SELECT ... WHERE email = ?`
returns for an account's email is that account. -/
theorem selectUserByEmail_of_mem (db : Db) (u : User) (hmem : u ∈ db.users)
    (huniq : ∀ v ∈ db.users, v.email = u.email → v = u) :
    selectUserByEmail db u.email = some u := by
  unfold selectUserByEmail
  cases hf : db.users.find? (fun v => decide (v.email = u.email)) with
  | none =>
    have := List.find?_eq_none.mp hf u hmem
    simp at this
  | some v =>
    have hv := find?_email_some hf
    rw [huniq v hv.2 hv.1]

theorem selectUserByEmail_updateFailedAttempts {db : Db} {email : String} {u : User}
    (hu : selectUserByEmail db email = some u) (failedAttempts : Int) (lockUntil : Option Nat) :
    selectUserByEmail (updateFailedAttempts db failedAttempts lockUntil u.id) email =
      some { u with
        failed_login_attempts := some failedAttempts,
        locked_until := match lockUntil with
          | some t => some t
          | none => u.locked_until } := by
  unfold selectUserByEmail at hu ⊢
  unfold updateFailedAttempts
  simp only []
  rw [find?_email_map, hu]
  · cases lockUntil <;> simp
  · intro v
    by_cases h : v.id = u.id <;> cases lockUntil <;> simp [h]

theorem selectUserByEmail_resetFailedAttempts {db : Db} {email : String} {u : User}
    (hu : selectUserByEmail db email = some u) (now : Nat) :
    selectUserByEmail (resetFailedAttempts db now u.id) email =
      some { u with failed_login_attempts := some 0, locked_until := none,
                    last_login_at := some now } := by
  unfold selectUserByEmail at hu ⊢
  unfold resetFailedAttempts
  simp only []
  rw [find?_email_map, hu]
  · simp
  · intro v
    by_cases h : v.id = u.id <;> simp [h]

theorem filter_ne_id_map (id : Nat) (f : User → User) (hf : ∀ v, (f v).id = v.id)
    (l : List User) :
    (l.map (fun v => if v.id = id then f v else v)).filter (fun v => decide (v.id ≠ id)) =
      l.filter (fun v => decide (v.id ≠ id)) := by
  induction l with
  | nil => rfl
  | cons a l ih =>
    by_cases h : a.id = id
    · simp only [List.map_cons, h, if_true, List.filter_cons, hf, ne_eq, not_true_eq_false,
        decide_False, Bool.false_eq_true, if_false]
      simpa using ih
    · simp only [List.map_cons, h, if_false, List.filter_cons, ne_eq, not_false_eq_true,
        decide_True, if_true]
      rw [List.cons.injEq]
      exact ⟨rfl, by simpa using ih⟩

theorem isLocked_eq_false {locked_until : Option Nat} {now : Nat}
    (h : ∀ t, locked_until = some t → t ≤ now) : isLocked locked_until now = false := by
  cases locked_until with
  | none => rfl
  | some t => simpa [isLocked] using h t rfl

/-! ## The branches of `login` -/

theorem login_no_account {env : Env} {db : Db} {email : String} (now : Nat) (password : String)
    (hu : selectUserByEmail db email = none) :
    AuthService.login env db now email password =
      ({ success := false, error := some "Credenciales inválidas",
         code := some "INVALID_CREDENTIALS" }, db) := by
  simp [AuthService.login, hu]

theorem login_disabled {env : Env} {db : Db} {email : String} {u : User} (now : Nat)
    (password : String) (hu : selectUserByEmail db email = some u) (hdis : u.is_active = 0) :
    AuthService.login env db now email password =
      ({ success := false, error := some "Cuenta desactivada",
         code := some "ACCOUNT_DISABLED" }, db) := by
  simp [AuthService.login, hu, hdis]

theorem login_locked {env : Env} {db : Db} {email : String} {u : User} {now t : Nat}
    (password : String) (hu : selectUserByEmail db email = some u) (hact : u.is_active ≠ 0)
    (hl : u.locked_until = some t) (hlt : now < t) :
    AuthService.login env db now email password =
      ({ success := false,
         error := some "Cuenta bloqueada temporalmente debido a múltiples intentos fallidos",
         code := some "ACCOUNT_LOCKED", lockedUntil := some t }, db) := by
  simp [AuthService.login, hu, hact, hl, isLocked, hlt]

theorem login_wrong_password {env : Env} {db : Db} {email password : String} {u : User}
    {now : Nat} (hu : selectUserByEmail db email = some u) (hact : u.is_active ≠ 0)
    (hnl : ∀ t, u.locked_until = some t → t ≤ now)
    (hpw : env.bcryptCompare password u.password_hash = false) :
    AuthService.login env db now email password =
      ({ success := false, error := some "Credenciales inválidas",
         code := some "INVALID_CREDENTIALS",
         attemptsRemaining := some (max 0 (5 - (orZero u.failed_login_attempts + 1))) },
        updateFailedAttempts db (orZero u.failed_login_attempts + 1)
          (if 5 ≤ orZero u.failed_login_attempts + 1 then some (now + 30 * 60 * 1000) else none)
          u.id) := by
  simp [AuthService.login, hu, hact, isLocked_eq_false hnl, hpw]

theorem login_correct_password {env : Env} {db : Db} {email password : String} {u : User}
    {now : Nat} (hu : selectUserByEmail db email = some u) (hact : u.is_active ≠ 0)
    (hnl : ∀ t, u.locked_until = some t → t ≤ now)
    (hpw : env.bcryptCompare password u.password_hash = true) :
    AuthService.login env db now email password =
      match insertRefreshToken (resetFailedAttempts db now u.id) u.id
          (generateRefreshToken env now u.toPublic) (now + 7 * 24 * 60 * 60 * 1000) now with
      | .error msg =>
        ({ success := false, error := some "Error al iniciar sesión", code := some "LOGIN_ERROR",
           details := some msg }, resetFailedAttempts db now u.id)
      | .ok db2 =>
        ({ success := true,
           data := some { user := some u.toPublic,
                          accessToken := generateAccessToken env now u.toPublic,
                          refreshToken := some (generateRefreshToken env now u.toPublic) } },
          db2) := by
  simp [AuthService.login, hu, hact, isLocked_eq_false hnl, hpw]

theorem insertRefreshToken_stored (db : Db) {token : String} (user_id expires_at created_at : Nat)
    (h : ∃ row ∈ db.refresh_tokens, row.token = token) :
    insertRefreshToken db user_id token expires_at created_at =
      .error "UNIQUE constraint failed: refresh_tokens.token" := by
  have : db.refresh_tokens.any (fun r => decide (r.token = token)) = true := by
    simpa [List.any_eq_true] using h
  simp [insertRefreshToken, this]

theorem insertRefreshToken_fresh (db : Db) {token : String} (user_id : Nat)
    (expires_at created_at : Nat) (hfresh : ∀ row ∈ db.refresh_tokens, row.token ≠ token)
    (hfk : ∃ v ∈ db.users, v.id = user_id) :
    insertRefreshToken db user_id token expires_at created_at =
      .ok { db with
        refresh_tokens := db.refresh_tokens ++
          [{ id := nextRowid db.refresh_tokens_seq (db.refresh_tokens.map (fun r => r.id)),
             user_id := user_id, token := token, expires_at := expires_at, revoked_at := none,
             created_at := created_at }],
        refresh_tokens_seq :=
          nextRowid db.refresh_tokens_seq (db.refresh_tokens.map (fun r => r.id)) } := by
  have h1 : db.refresh_tokens.any (fun r => decide (r.token = token)) = false := by
    rw [Bool.eq_false_iff]
    intro hany
    rw [List.any_eq_true] at hany
    obtain ⟨row, hrow, heq⟩ := hany
    exact hfresh row hrow (by simpa using heq)
  have h2 : db.users.any (fun u => decide (u.id = user_id)) = true := by
    simpa [List.any_eq_true] using hfk
  simp [insertRefreshToken, h1, h2]

/-- With the matching password, `login` fails with `LOGIN_ERROR` when the refresh token it signs
is already stored; the counter reset and `last_login_at` are written all the same. -/
theorem login_correct_password_token_stored {env : Env} {db : Db} {email password : String}
    {u : User} {now : Nat} (hu : selectUserByEmail db email = some u) (hact : u.is_active ≠ 0)
    (hnl : ∀ t, u.locked_until = some t → t ≤ now)
    (hpw : env.bcryptCompare password u.password_hash = true)
    (hstored : ∃ row ∈ db.refresh_tokens, row.token = generateRefreshToken env now u.toPublic) :
    AuthService.login env db now email password =
      ({ success := false, error := some "Error al iniciar sesión", code := some "LOGIN_ERROR",
         details := some "UNIQUE constraint failed: refresh_tokens.token" },
        resetFailedAttempts db now u.id) := by
  rw [login_correct_password hu hact hnl hpw,
    insertRefreshToken_stored (resetFailedAttempts db now u.id) u.id _ now hstored]

/-- With the matching password and a refresh token not yet stored, `login` succeeds: it resets
the counter and the lock, stamps `last_login_at` and appends one token row. -/
theorem login_correct_password_fresh {env : Env} {db : Db} {email password : String}
    {u : User} {now : Nat} (hu : selectUserByEmail db email = some u) (hact : u.is_active ≠ 0)
    (hnl : ∀ t, u.locked_until = some t → t ≤ now)
    (hpw : env.bcryptCompare password u.password_hash = true)
    (hfresh : ∀ row ∈ db.refresh_tokens, row.token ≠ generateRefreshToken env now u.toPublic) :
    AuthService.login env db now email password =
      ({ success := true,
         data := some { user := some u.toPublic,
                        accessToken := generateAccessToken env now u.toPublic,
                        refreshToken := some (generateRefreshToken env now u.toPublic) } },
        { users := (resetFailedAttempts db now u.id).users,
          refresh_tokens := db.refresh_tokens ++
            [{ id := nextRowid db.refresh_tokens_seq (db.refresh_tokens.map (fun r => r.id)),
               user_id := u.id, token := generateRefreshToken env now u.toPublic,
               expires_at := now + 7 * 24 * 60 * 60 * 1000, revoked_at := none,
               created_at := now }],
          users_seq := db.users_seq,
          refresh_tokens_seq :=
            nextRowid db.refresh_tokens_seq (db.refresh_tokens.map (fun r => r.id)) }) := by
  have hsel := selectUserByEmail_resetFailedAttempts hu now
  have hmem := (find?_email_some hsel).2
  rw [login_correct_password hu hact hnl hpw,
    insertRefreshToken_fresh (resetFailedAttempts db now u.id) u.id
      (now + 7 * 24 * 60 * 60 * 1000) now hfresh ⟨_, hmem, rfl⟩]
  rfl

/-- Two refresh tokens signed for one account within one clock second are the same string. -/
theorem generateRefreshToken_same_second (env : Env) (now1 now2 : Nat) (user : PublicUser)
    (h : now1 / 1000 = now2 / 1000) :
    generateRefreshToken env now1 user = generateRefreshToken env now2 user := by
  simp [generateRefreshToken, h]

/-- A second `login` with the matching password in the clock second of a first successful one
signs the token the first one stored, and fails with `LOGIN_ERROR`. -/
theorem login_twice_same_second {env : Env} {db : Db} {email password : String} {u : User}
    {now1 : Nat} (now2 : Nat) (hu : selectUserByEmail db email = some u)
    (hact : u.is_active ≠ 0) (hnl : ∀ t, u.locked_until = some t → t ≤ now1)
    (hpw : env.bcryptCompare password u.password_hash = true)
    (hfresh : ∀ row ∈ db.refresh_tokens, row.token ≠ generateRefreshToken env now1 u.toPublic)
    (hsec : now1 / 1000 = now2 / 1000) :
    (AuthService.login env db now1 email password).1.success = true ∧
    (AuthService.login env (AuthService.login env db now1 email password).2 now2 email
      password).1.success = false ∧
    (AuthService.login env (AuthService.login env db now1 email password).2 now2 email
      password).1.code = some "LOGIN_ERROR" ∧
    (AuthService.login env (AuthService.login env db now1 email password).2 now2 email
      password).2.refresh_tokens = (AuthService.login env db now1 email password).2.refresh_tokens
    := by
  rw [login_correct_password_fresh hu hact hnl hpw hfresh]
  have hsel := selectUserByEmail_resetFailedAttempts hu now1
  have hsel2 : selectUserByEmail
      { users := (resetFailedAttempts db now1 u.id).users,
        refresh_tokens := db.refresh_tokens ++
          [{ id := nextRowid db.refresh_tokens_seq (db.refresh_tokens.map (fun r => r.id)),
             user_id := u.id, token := generateRefreshToken env now1 u.toPublic,
             expires_at := now1 + 7 * 24 * 60 * 60 * 1000, revoked_at := none,
             created_at := now1 }],
        users_seq := db.users_seq,
        refresh_tokens_seq :=
          nextRowid db.refresh_tokens_seq (db.refresh_tokens.map (fun r => r.id)) } email =
      some { u with failed_login_attempts := some 0, locked_until := none,
                    last_login_at := some now1 } := hsel
  have h2 := @login_correct_password_token_stored env _ _ password _ now2 hsel2 hact (fun t ht => by cases ht) hpw
    ⟨_, List.mem_append_right _ (List.mem_singleton_self _),
      generateRefreshToken_same_second env now1 now2 _ hsec⟩
  rw [h2]
  exact ⟨rfl, rfl, rfl, rfl⟩

/-! ## The branches of `register` -/

theorem le_foldl_max (ids : List Nat) :
    ∀ a : Nat, a ≤ ids.foldl max a ∧ ∀ x ∈ ids, x ≤ ids.foldl max a := by
  induction ids with
  | nil => intro a; exact ⟨le_refl a, by simp⟩
  | cons i ids ih =>
    intro a
    have h := ih (max a i)
    refine ⟨le_trans (le_max_left a i) h.1, ?_⟩
    intro x hx
    rcases List.mem_cons.mp hx with rfl | hx
    · exact le_trans (le_max_right a x) h.1
    · exact h.2 x hx

/-- An `AUTOINCREMENT` key is larger than every key in the table. -/
theorem lt_nextRowid (seq : Nat) (ids : List Nat) : ∀ x ∈ ids, x < nextRowid seq ids := by
  intro x hx
  have h := (le_foldl_max ids 0).2 x hx
  unfold nextRowid
  omega

theorem selectUserByEmail_ne_none {db : Db} {email : String} {u : User} (hmem : u ∈ db.users)
    (he : u.email = email) : ∃ v, selectUserByEmail db email = some v := by
  unfold selectUserByEmail
  cases hf : db.users.find? (fun v => decide (v.email = email)) with
  | none =>
    have := List.find?_eq_none.mp hf u hmem
    simp [he] at this
  | some v => exact ⟨v, rfl⟩

theorem insertUser_ok {db : Db} {email role : String} (password_hash name : String)
    (created_at : Nat) (hrole : ["admin", "user", "viewer"].contains role = true)
    (hnew : selectUserByEmail db email = none) :
    insertUser db email password_hash name role created_at =
      .ok (nextRowid db.users_seq (db.users.map (fun u => u.id)),
        { db with
          users := db.users ++
            [{ id := nextRowid db.users_seq (db.users.map (fun u => u.id)), email := email,
               password_hash := password_hash, name := name, role := role, is_active := 1,
               failed_login_attempts := some 0, locked_until := none, last_login_at := none,
               created_at := created_at, updated_at := none }],
          users_seq := nextRowid db.users_seq (db.users.map (fun u => u.id)) }) := by
  have hany : db.users.any (fun u => decide (u.email = email)) = false := by
    rw [Bool.eq_false_iff]
    intro h
    rw [List.any_eq_true] at h
    obtain ⟨v, hv, heq⟩ := h
    have := List.find?_eq_none.mp hnew v hv
    exact this heq
  simp only [insertUser, hrole, hany, Bool.not_true, Bool.false_eq_true, if_false]

/-- The refresh token `register` signs is not in a store whose tokens were all signed for their
owners, when the encoding determines the payload: the new account's id has never been used. -/
theorem register_refresh_token_fresh (env : Env) (db : Db) (now : Nat) (email name role : String)
    (hinj : ∀ c1 c2 : JwtClaims,
      env.jwsEncode c1 env.JWT_REFRESH_SECRET = env.jwsEncode c2 env.JWT_REFRESH_SECRET →
        c1 = c2)
    (hissued : ∀ row ∈ db.refresh_tokens, ∃ c : JwtClaims,
      c.userId = row.user_id ∧ row.token = env.jwsEncode c env.JWT_REFRESH_SECRET)
    (hfk : ∀ row ∈ db.refresh_tokens, ∃ v ∈ db.users, v.id = row.user_id) :
    ∀ row ∈ db.refresh_tokens,
      row.token ≠ generateRefreshToken env now
        { id := nextRowid db.users_seq (db.users.map (fun u => u.id)), email := email,
          name := name, role := role } := by
  intro row hrow heq
  obtain ⟨c, hc, htok⟩ := hissued row hrow
  obtain ⟨v, hv, hvid⟩ := hfk row hrow
  rw [htok] at heq
  have hcl := hinj _ _ heq
  have hid : c.userId = nextRowid db.users_seq (db.users.map (fun u => u.id)) := by
    rw [hcl]
  have hlt := lt_nextRowid db.users_seq (db.users.map (fun u => u.id)) v.id
    (List.mem_map_of_mem (fun u => u.id) hv)
  omega

/-! ## Consecutive calls -/

theorem runLogins_append (env : Env) (email : String) (xs ys : List (Nat × String)) (db : Db) :
    runLogins env email db (xs ++ ys) =
      ((runLogins env email db xs).1 ++
          (runLogins env email (runLogins env email db xs).2 ys).1,
        (runLogins env email (runLogins env email db xs).2 ys).2) := by
  induction xs generalizing db with
  | nil => rfl
  | cons x xs ih => simp [runLogins, ih]

/-- Wrong passwords that keep the counter below five only count up: the lock expiry and every
other column of the account stay as they were. -/
theorem runLogins_wrong_below_five (env : Env) (email : String) :
    ∀ (calls : List (Nat × String)) (db : Db) (u : User) (c : Int),
      selectUserByEmail db email = some u → u.is_active ≠ 0 → u.locked_until = none →
      u.failed_login_attempts = some c → c + calls.length < 5 →
      (∀ call ∈ calls, env.bcryptCompare call.2 u.password_hash = false) →
      selectUserByEmail (runLogins env email db calls).2 email =
        some { u with failed_login_attempts := some (c + calls.length) } := by
  intro calls
  induction calls with
  | nil =>
    intro db u c hu _ _ hc _ _
    simp only [runLogins, List.length_nil, Nat.cast_zero, add_zero]
    rw [hu, ← hc]
  | cons call rest ih =>
    intro db u c hu hact hl hc hlt hw
    have hnl : ∀ t, u.locked_until = some t → t ≤ call.1 := by
      intro t ht
      rw [hl] at ht
      cases ht
    have hpw := hw call (List.mem_cons_self _ _)
    have hz : orZero u.failed_login_attempts = c := by rw [hc]; rfl
    simp only [List.length_cons, Nat.cast_add, Nat.cast_one] at hlt
    have h5 : ¬ (5 ≤ c + 1) := by omega
    simp only [runLogins]
    rw [login_wrong_password hu hact hnl hpw, hz]
    simp only [h5, if_false]
    have hsel := selectUserByEmail_updateFailedAttempts hu (c + 1) none
    have := ih (updateFailedAttempts db (c + 1) none u.id)
      { u with failed_login_attempts := some (c + 1) } (c + 1)
      (by simpa using hsel) hact hl rfl (by omega)
      (fun call2 h2 => hw call2 (List.mem_cons_of_mem _ h2))
    rw [this]
    simp only [List.length_cons, Nat.cast_add, Nat.cast_one]
    have e : c + 1 + (rest.length : Int) = c + ((rest.length : Int) + 1) := by ring
    rw [e]

/-- While an active account is locked, consecutive calls made before the lock expiry all return
`ACCOUNT_LOCKED` and leave the store as it was. -/
theorem runLogins_locked (env : Env) (email : String) (db : Db) (u : User) (t : Nat)
    (hu : selectUserByEmail db email = some u) (hact : u.is_active ≠ 0)
    (hl : u.locked_until = some t) :
    ∀ calls : List (Nat × String), (∀ call ∈ calls, call.1 < t) →
      (runLogins env email db calls).2 = db ∧
      ∀ r ∈ (runLogins env email db calls).1,
        r.code = some "ACCOUNT_LOCKED" ∧ r.lockedUntil = some t := by
  intro calls
  induction calls with
  | nil => intro _; exact ⟨rfl, by simp [runLogins]⟩
  | cons call rest ih =>
    intro hlt
    have h1 := @login_locked env _ _ _ _ _ call.2 hu hact hl (hlt call (List.mem_cons_self _ _))
    have h2 := ih (fun call2 h => hlt call2 (List.mem_cons_of_mem _ h))
    simp only [runLogins, h1, List.mem_cons]
    refine ⟨h2.1, ?_⟩
    intro r hr
    rcases hr with rfl | hr
    · exact ⟨rfl, rfl⟩
    · exact h2.2 r hr

/-- The fifth consecutive wrong password, on the account as four wrong passwords left it. -/
theorem login_fifth_wrong (env : Env) (email : String) (db : Db) (u : User)
    (first4 : List (Nat × String)) (t5 : Nat) (pw5 : String)
    (hu : selectUserByEmail db email = some u) (hact : u.is_active ≠ 0)
    (hc : u.failed_login_attempts = some 0) (hl : u.locked_until = none)
    (h4 : first4.length = 4)
    (hw4 : ∀ call ∈ first4, env.bcryptCompare call.2 u.password_hash = false)
    (hw5 : env.bcryptCompare pw5 u.password_hash = false) :
    (AuthService.login env (runLogins env email db first4).2 t5 email pw5).1 =
      { success := false, error := some "Credenciales inválidas",
        code := some "INVALID_CREDENTIALS", attemptsRemaining := some 0 } ∧
    selectUserByEmail (AuthService.login env (runLogins env email db first4).2 t5 email pw5).2
        email =
      some { u with failed_login_attempts := some 5,
                    locked_until := some (t5 + 30 * 60 * 1000) } := by
  have h := runLogins_wrong_below_five env email first4 db u 0 hu hact hl hc
    (by rw [h4]; decide) hw4
  rw [h4] at h
  have hnl : ∀ t, ({ u with failed_login_attempts := some ((0 : Int) + (4 : Nat)) } :
      User).locked_until = some t → t ≤ t5 := by
    intro t ht
    rw [hl] at ht
    cases ht
  have hlog := @login_wrong_password env _ _ pw5 _ _ h hact hnl hw5
  rw [hlog]
  refine ⟨by simp [orZero], ?_⟩
  simp only []
  rw [selectUserByEmail_updateFailedAttempts h]
  simp [orZero]

theorem runLogins_concat (env : Env) (email : String) (db : Db) (xs : List (Nat × String))
    (t : Nat) (pw : String) :
    (runLogins env email db (xs ++ [(t, pw)])).2 =
      (AuthService.login env (runLogins env email db xs).2 t email pw).2 := by
  rw [runLogins_append]
  rfl

/-! ## Claims on `login` -/

/-- C1: from an active account with failed-login counter 0 and no lock expiry, each of the first
four consecutive wrong-password `login` calls leaves the lock expiry null, the fifth sets it to
the time of that call plus 30 minutes, and every further `login` call made before that time,
whatever its password, returns `ACCOUNT_LOCKED`. -/
theorem C1_lockout_after_five (env : Env) (db : Db) (email : String) (u : User)
    (first4 : List (Nat × String)) (t5 : Nat) (pw5 : String)
    (hu : selectUserByEmail db email = some u) (hact : u.is_active ≠ 0)
    (hc : u.failed_login_attempts = some 0) (hl : u.locked_until = none)
    (h4 : first4.length = 4)
    (hw4 : ∀ call ∈ first4, env.bcryptCompare call.2 u.password_hash = false)
    (hw5 : env.bcryptCompare pw5 u.password_hash = false) :
    (∀ k, k ≤ 4 →
      (selectUserByEmail (runLogins env email db (first4.take k)).2 email).map
        (fun v => v.locked_until) = some none) ∧
    (selectUserByEmail (runLogins env email db (first4 ++ [(t5, pw5)])).2 email).map
      (fun v => v.locked_until) = some (some (t5 + 30 * 60 * 1000)) ∧
    ∀ further : List (Nat × String), (∀ call ∈ further, call.1 < t5 + 30 * 60 * 1000) →
      ∀ r ∈ (runLogins env email (runLogins env email db (first4 ++ [(t5, pw5)])).2 further).1,
        r.success = false ∧ r.code = some "ACCOUNT_LOCKED" := by
  have h5 := login_fifth_wrong env email db u first4 t5 pw5 hu hact hc hl h4 hw4 hw5
  refine ⟨?_, ?_, ?_⟩
  · intro k hk
    have hlen : (first4.take k).length = k := by
      rw [List.length_take, h4]
      omega
    have h := runLogins_wrong_below_five env email (first4.take k) db u 0 hu hact hl hc
      (by rw [hlen]; omega) (fun call hm => hw4 call (List.mem_of_mem_take hm))
    rw [h]
    simp [hl]
  · rw [runLogins_concat, h5.2]
    rfl
  · intro further hlt r hr
    rw [runLogins_concat] at hr
    have hlk := runLogins_locked env email _ _ (t5 + 30 * 60 * 1000) h5.2 hact rfl further hlt
    have hcode := hlk.2 r hr
    refine ⟨?_, hcode.1⟩
    have hall : ∀ (calls : List (Nat × String)) (d : Db) (v : User) (t : Nat),
        selectUserByEmail d email = some v → v.is_active ≠ 0 → v.locked_until = some t →
        (∀ call ∈ calls, call.1 < t) →
        ∀ r ∈ (runLogins env email d calls).1, r.success = false := by
      intro calls
      induction calls with
      | nil => intro d v t _ _ _ _ r hr; simp [runLogins] at hr
      | cons call rest ih =>
        intro d v t hv hva hvl hlt r hr
        have h1 := @login_locked env _ _ _ _ _ call.2 hv hva hvl
          (hlt call (List.mem_cons_self _ _))
        simp only [runLogins, h1, List.mem_cons] at hr
        rcases hr with rfl | hr
        · rfl
        · exact ih d v t hv hva hvl (fun c2 h => hlt c2 (List.mem_cons_of_mem _ h)) r hr
    exact hall further _ _ (t5 + 30 * 60 * 1000) h5.2 hact rfl hlt r hr

/-- C1 on the sample account: five wrong passwords at 1000 ms to 5000 ms lock it until
5000 + 1 800 000 ms, and two later calls with the right password are refused. -/
theorem C1_lockout_after_five_witness :
    selectUserByEmail anaDb "ana@x.io" = some ana ∧
    sampleEnv.bcryptCompare "Abcdef1!" ana.password_hash = true ∧
    (selectUserByEmail
      (runLogins sampleEnv "ana@x.io" anaDb (fourWrong ++ [(5000, "Wrong000!")])).2
      "ana@x.io").map (fun v => v.locked_until) = some (some (5000 + 30 * 60 * 1000)) ∧
    ∀ r ∈ (runLogins sampleEnv "ana@x.io"
        (runLogins sampleEnv "ana@x.io" anaDb (fourWrong ++ [(5000, "Wrong000!")])).2
        [(6000, "Abcdef1!"), (1804999, "Abcdef1!")]).1,
      r.success = false ∧ r.code = some "ACCOUNT_LOCKED" :=
  ⟨by decide, by decide,
    (C1_lockout_after_five sampleEnv anaDb "ana@x.io" ana fourWrong 5000 "Wrong000!"
      (by decide) (by decide) (by decide) (by decide) (by decide) (by decide) (by decide)).2.1,
    (C1_lockout_after_five sampleEnv anaDb "ana@x.io" ana fourWrong 5000 "Wrong000!"
      (by decide) (by decide) (by decide) (by decide) (by decide) (by decide) (by decide)).2.2
      [(6000, "Abcdef1!"), (1804999, "Abcdef1!")] (by decide)⟩

/-- C2 (as stated) fails: after four wrong passwords on a fresh account, the result of the fifth
wrong-password `login` has no `lockedUntil` key, although that call stores the lock expiry
5000 + 1 800 000 on the account. -/
theorem C2_fifth_result_has_no_lock_expiry :
    selectUserByEmail anaDb "ana@x.io" = some ana ∧
    ana.failed_login_attempts = some 0 ∧ ana.locked_until = none ∧ ana.is_active = 1 ∧
    (∀ call ∈ fourWrong ++ [(5000, "Wrong000!")],
      sampleEnv.bcryptCompare call.2 ana.password_hash = false) ∧
    (AuthService.login sampleEnv (runLogins sampleEnv "ana@x.io" anaDb fourWrong).2 5000
      "ana@x.io" "Wrong000!").1.lockedUntil = none ∧
    (selectUserByEmail
      (AuthService.login sampleEnv (runLogins sampleEnv "ana@x.io" anaDb fourWrong).2 5000
        "ana@x.io" "Wrong000!").2 "ana@x.io").map (fun v => v.locked_until) =
      some (some 1805000) := by
  decide

/-- C2 (amended): the result of the fifth consecutive wrong-password `login` is
`INVALID_CREDENTIALS` with `attemptsRemaining = 0` and no `lockedUntil` key; the lock expiry,
the time of that call plus 30 minutes, is written to the account, and it is the `lockedUntil`
of the `ACCOUNT_LOCKED` result of every `login` made before that time. -/
theorem C2_fifth_wrong_result (env : Env) (db : Db) (email : String) (u : User)
    (first4 : List (Nat × String)) (t5 : Nat) (pw5 : String)
    (hu : selectUserByEmail db email = some u) (hact : u.is_active ≠ 0)
    (hc : u.failed_login_attempts = some 0) (hl : u.locked_until = none)
    (h4 : first4.length = 4)
    (hw4 : ∀ call ∈ first4, env.bcryptCompare call.2 u.password_hash = false)
    (hw5 : env.bcryptCompare pw5 u.password_hash = false) :
    (AuthService.login env (runLogins env email db first4).2 t5 email pw5).1 =
      { success := false, error := some "Credenciales inválidas",
        code := some "INVALID_CREDENTIALS", attemptsRemaining := some 0 } ∧
    (AuthService.login env (runLogins env email db first4).2 t5 email pw5).1.lockedUntil =
      none ∧
    (selectUserByEmail (AuthService.login env (runLogins env email db first4).2 t5 email pw5).2
      email).map (fun v => v.locked_until) = some (some (t5 + 30 * 60 * 1000)) ∧
    ∀ (t6 : Nat) (pw6 : String), t6 < t5 + 30 * 60 * 1000 →
      (AuthService.login env
        (AuthService.login env (runLogins env email db first4).2 t5 email pw5).2 t6 email
        pw6).1.code = some "ACCOUNT_LOCKED" ∧
      (AuthService.login env
        (AuthService.login env (runLogins env email db first4).2 t5 email pw5).2 t6 email
        pw6).1.lockedUntil = some (t5 + 30 * 60 * 1000) := by
  have h5 := login_fifth_wrong env email db u first4 t5 pw5 hu hact hc hl h4 hw4 hw5
  refine ⟨h5.1, by rw [h5.1], by rw [h5.2]; rfl, ?_⟩
  intro t6 pw6 hlt
  rw [login_locked pw6 h5.2 hact rfl hlt]
  exact ⟨rfl, rfl⟩

/-- C2 (amended) on the sample account: the fifth wrong password gets no `lockedUntil`, the
account row gets the lock expiry. -/
theorem C2_fifth_wrong_result_witness :
    selectUserByEmail anaDb "ana@x.io" = some ana ∧
    (AuthService.login sampleEnv (runLogins sampleEnv "ana@x.io" anaDb fourWrong).2 5000
      "ana@x.io" "Wrong000!").1.lockedUntil = none ∧
    (selectUserByEmail
      (AuthService.login sampleEnv (runLogins sampleEnv "ana@x.io" anaDb fourWrong).2 5000
        "ana@x.io" "Wrong000!").2 "ana@x.io").map (fun v => v.locked_until) =
      some (some (5000 + 30 * 60 * 1000)) :=
  ⟨by decide,
    (C2_fifth_wrong_result sampleEnv anaDb "ana@x.io" ana fourWrong 5000 "Wrong000!"
      (by decide) (by decide) (by decide) (by decide) (by decide) (by decide) (by decide)).2.1,
    (C2_fifth_wrong_result sampleEnv anaDb "ana@x.io" ana fourWrong 5000 "Wrong000!"
      (by decide) (by decide) (by decide) (by decide) (by decide) (by decide)
      (by decide)).2.2.1⟩

/-- C3: for an active account that is not locked at `now` and stores failed-login counter `c`,
`login` with a password the hash comparison rejects returns `INVALID_CREDENTIALS` with
`attemptsRemaining = max(0, 5 - (c + 1))`, stores counter `c + 1`, sets the lock expiry to
`now + 30 min` exactly when `c + 1 ≥ 5` and keeps it otherwise, leaves every other account and
the whole token table as they were. -/
theorem C3_login_wrong_password (env : Env) (db : Db) (now : Nat) (email password : String)
    (u : User) (c : Int) (hu : selectUserByEmail db email = some u) (hact : u.is_active ≠ 0)
    (hnl : ∀ t, u.locked_until = some t → t ≤ now) (hc : u.failed_login_attempts = some c)
    (hpw : env.bcryptCompare password u.password_hash = false) :
    (AuthService.login env db now email password).1.success = false ∧
    (AuthService.login env db now email password).1.code = some "INVALID_CREDENTIALS" ∧
    (AuthService.login env db now email password).1.attemptsRemaining =
      some (max 0 (5 - (c + 1))) ∧
    selectUserByEmail (AuthService.login env db now email password).2 email =
      some { u with
        failed_login_attempts := some (c + 1),
        locked_until := if 5 ≤ c + 1 then some (now + 30 * 60 * 1000) else u.locked_until } ∧
    (AuthService.login env db now email password).2.users.filter (fun v => decide (v.id ≠ u.id)) =
      db.users.filter (fun v => decide (v.id ≠ u.id)) ∧
    (AuthService.login env db now email password).2.refresh_tokens = db.refresh_tokens ∧
    (AuthService.login env db now email password).2.refresh_tokens_seq =
      db.refresh_tokens_seq := by
  rw [login_wrong_password hu hact hnl hpw]
  have hz : orZero u.failed_login_attempts = c := by rw [hc]; rfl
  refine ⟨rfl, rfl, by simp [hz], ?_, ?_, rfl, rfl⟩
  · simp only []
    rw [selectUserByEmail_updateFailedAttempts hu, hz]
    by_cases h5 : 5 ≤ c + 1 <;> simp [h5]
  · simp only [updateFailedAttempts]
    by_cases h5 : 5 ≤ orZero u.failed_login_attempts + 1
    · simp only [h5, if_true]
      exact filter_ne_id_map u.id
        (fun v => { v with
          failed_login_attempts := some (orZero u.failed_login_attempts + 1),
          locked_until := some (now + 30 * 60 * 1000) })
        (fun _ => rfl) db.users
    · simp only [h5, if_false]
      exact filter_ne_id_map u.id
        (fun v => { v with failed_login_attempts := some (orZero u.failed_login_attempts + 1) })
        (fun _ => rfl) db.users

/-- C3 on the sample account: one wrong password at 9000 ms. -/
theorem C3_login_wrong_password_witness :
    selectUserByEmail anaDb "ana@x.io" = some ana ∧
    sampleEnv.bcryptCompare "Wrong000!" ana.password_hash = false ∧
    (AuthService.login sampleEnv anaDb 9000 "ana@x.io" "Wrong000!").1.code =
      some "INVALID_CREDENTIALS" ∧
    (AuthService.login sampleEnv anaDb 9000 "ana@x.io" "Wrong000!").2.refresh_tokens =
      anaDb.refresh_tokens :=
  ⟨by decide, by decide,
    (C3_login_wrong_password sampleEnv anaDb 9000 "ana@x.io" "Wrong000!" ana 0 (by decide)
      (by decide) (fun t h => by simp [ana] at h) (by decide) (by decide)).2.1,
    (C3_login_wrong_password sampleEnv anaDb 9000 "ana@x.io" "Wrong000!" ana 0 (by decide)
      (by decide) (fun t h => by simp [ana] at h) (by decide) (by decide)).2.2.2.2.2.1⟩

/-- C4: for an active account whose lock expiry is later than `now`, `login` with any password
returns `ACCOUNT_LOCKED` carrying the stored lock expiry and leaves the whole store (accounts,
counters, tokens) as it was. -/
theorem C4_login_locked (env : Env) (db : Db) (now : Nat) (email password : String) (u : User)
    (t : Nat) (hu : selectUserByEmail db email = some u) (hact : u.is_active ≠ 0)
    (hl : u.locked_until = some t) (hlt : now < t) :
    (AuthService.login env db now email password).1.success = false ∧
    (AuthService.login env db now email password).1.code = some "ACCOUNT_LOCKED" ∧
    (AuthService.login env db now email password).1.lockedUntil = u.locked_until ∧
    (AuthService.login env db now email password).2 = db := by
  rw [login_locked password hu hact hl hlt]
  exact ⟨rfl, rfl, hl.symm, rfl⟩

/-- C4 on the locked sample account, one millisecond before the lock expires, with the right
password. -/
theorem C4_login_locked_witness :
    selectUserByEmail lockedDb "ana@x.io" = some lockedAna ∧
    sampleEnv.bcryptCompare "Abcdef1!" lockedAna.password_hash = true ∧
    (AuthService.login sampleEnv lockedDb 1804999 "ana@x.io" "Abcdef1!").1.code =
      some "ACCOUNT_LOCKED" ∧
    (AuthService.login sampleEnv lockedDb 1804999 "ana@x.io" "Abcdef1!").2 = lockedDb :=
  ⟨by decide, by decide,
    (C4_login_locked sampleEnv lockedDb 1804999 "ana@x.io" "Abcdef1!" lockedAna 1805000
      (by decide) (by decide) (by decide) (by decide)).2.1,
    (C4_login_locked sampleEnv lockedDb 1804999 "ana@x.io" "Abcdef1!" lockedAna 1805000
      (by decide) (by decide) (by decide) (by decide)).2.2.2⟩

/-- C7: `login` for an email no account has returns `INVALID_CREDENTIALS` and leaves the store
as it was, and its error message and code are those of `login` with a wrong password against an
existing, active, unlocked account (in whatever store, at whatever time). -/
theorem C7_login_unknown_email (env : Env) (db : Db) (now : Nat) (email password : String)
    (hu : selectUserByEmail db email = none) :
    (AuthService.login env db now email password).1.success = false ∧
    (AuthService.login env db now email password).1.code = some "INVALID_CREDENTIALS" ∧
    (AuthService.login env db now email password).2 = db ∧
    ∀ (env2 : Env) (db2 : Db) (now2 : Nat) (email2 password2 : String) (u : User),
      selectUserByEmail db2 email2 = some u → u.is_active ≠ 0 →
      (∀ t, u.locked_until = some t → t ≤ now2) →
      env2.bcryptCompare password2 u.password_hash = false →
      (AuthService.login env2 db2 now2 email2 password2).1.error =
        (AuthService.login env db now email password).1.error ∧
      (AuthService.login env2 db2 now2 email2 password2).1.code =
        (AuthService.login env db now email password).1.code := by
  rw [login_no_account now password hu]
  refine ⟨rfl, rfl, rfl, ?_⟩
  intro env2 db2 now2 email2 password2 u hu2 hact hnl hpw
  rw [login_wrong_password hu2 hact hnl hpw]
  exact ⟨rfl, rfl⟩

/-- C7 on the sample store, for an email it does not hold. -/
theorem C7_login_unknown_email_witness :
    selectUserByEmail anaDb "bob@x.io" = none ∧
    (AuthService.login sampleEnv anaDb 9000 "bob@x.io" "Abcdef1!").1.code =
      some "INVALID_CREDENTIALS" ∧
    (AuthService.login sampleEnv anaDb 9000 "bob@x.io" "Abcdef1!").2 = anaDb :=
  ⟨by decide,
    (C7_login_unknown_email sampleEnv anaDb 9000 "bob@x.io" "Abcdef1!" (by decide)).2.1,
    (C7_login_unknown_email sampleEnv anaDb 9000 "bob@x.io" "Abcdef1!" (by decide)).2.2.1⟩

/-- C8: for an account whose active flag is false (`is_active = 0`), `login` returns
`ACCOUNT_DISABLED` whatever the password, the failure counter, the lock expiry and the time are,
and leaves the whole store as it was. -/
theorem C8_login_disabled (env : Env) (db : Db) (now : Nat) (email password : String) (u : User)
    (hu : selectUserByEmail db email = some u) (hdis : u.is_active = 0) :
    (AuthService.login env db now email password).1.success = false ∧
    (AuthService.login env db now email password).1.code = some "ACCOUNT_DISABLED" ∧
    (AuthService.login env db now email password).2 = db := by
  rw [login_disabled now password hu hdis]
  exact ⟨rfl, rfl, rfl⟩

/-- C8 on the disabled sample account, with the right password. -/
theorem C8_login_disabled_witness :
    selectUserByEmail disabledDb "ana@x.io" = some disabledAna ∧
    sampleEnv.bcryptCompare "Abcdef1!" disabledAna.password_hash = true ∧
    (AuthService.login sampleEnv disabledDb 9000 "ana@x.io" "Abcdef1!").1.code =
      some "ACCOUNT_DISABLED" ∧
    (AuthService.login sampleEnv disabledDb 9000 "ana@x.io" "Abcdef1!").2 = disabledDb :=
  ⟨by decide, by decide,
    (C8_login_disabled sampleEnv disabledDb 9000 "ana@x.io" "Abcdef1!" disabledAna (by decide)
      (by decide)).2.1,
    (C8_login_disabled sampleEnv disabledDb 9000 "ana@x.io" "Abcdef1!" disabledAna (by decide)
      (by decide)).2.2⟩

/-- C5 at a failing input: the account registered at 5000 ms is active, unlocked and its stored
hash matches the password, yet `login` with that password at 5999 ms, in the same clock second,
returns `LOGIN_ERROR`: the refresh token it signs is the one `register` stored, the `INSERT`
violates `UNIQUE(token)`, no token row is added, and `last_login_at` is written all the same. -/
theorem C5_login_same_second_fails :
    (selectUserByEmail registeredDb "ana@x.io").map (fun v => v.is_active) = some 1 ∧
    (selectUserByEmail registeredDb "ana@x.io").map (fun v => v.locked_until) = some none ∧
    (selectUserByEmail registeredDb "ana@x.io").map
      (fun v => sampleEnv.bcryptCompare "Abcdef1!" v.password_hash) = some true ∧
    (AuthService.login sampleEnv registeredDb 5999 "ana@x.io" "Abcdef1!").1.success = false ∧
    (AuthService.login sampleEnv registeredDb 5999 "ana@x.io" "Abcdef1!").1.code =
      some "LOGIN_ERROR" ∧
    (AuthService.login sampleEnv registeredDb 5999 "ana@x.io" "Abcdef1!").2.refresh_tokens =
      registeredDb.refresh_tokens ∧
    (selectUserByEmail (AuthService.login sampleEnv registeredDb 5999 "ana@x.io" "Abcdef1!").2
      "ana@x.io").map (fun v => v.last_login_at) = some (some 5999) := by
  decide

/-- C6 (as stated) fails: in one store, at one time and for one password, the result of `login`
for an email without account differs from the result for a wrong password against an existing,
active, unlocked account. -/
theorem C6_results_distinguishable :
    selectUserByEmail anaDb "bob@x.io" = none ∧
    selectUserByEmail anaDb "ana@x.io" = some ana ∧
    ana.is_active = 1 ∧ ana.locked_until = none ∧
    sampleEnv.bcryptCompare "Wrong000!" ana.password_hash = false ∧
    (AuthService.login sampleEnv anaDb 9000 "bob@x.io" "Wrong000!").1 ≠
      (AuthService.login sampleEnv anaDb 9000 "ana@x.io" "Wrong000!").1 ∧
    (AuthService.login sampleEnv anaDb 9000 "bob@x.io" "Wrong000!").1.attemptsRemaining = none ∧
    (AuthService.login sampleEnv anaDb 9000 "ana@x.io" "Wrong000!").1.attemptsRemaining =
      some 4 := by
  decide

/-- C6 (amended): for every password, the result of `login` for an email without account and
the result for a wrong password against an existing, active, unlocked account have the same
`success`, `error`, `code` and no other key, except that the second carries
`attemptsRemaining`, which the first does not have; so the two results are never equal. -/
theorem C6_results_agree_up_to_attemptsRemaining (env : Env) (db : Db) (now : Nat)
    (email1 email2 password : String) (u : User)
    (h1 : selectUserByEmail db email1 = none) (h2 : selectUserByEmail db email2 = some u)
    (hact : u.is_active ≠ 0) (hnl : ∀ t, u.locked_until = some t → t ≤ now)
    (hpw : env.bcryptCompare password u.password_hash = false) :
    (AuthService.login env db now email2 password).1 =
      { (AuthService.login env db now email1 password).1 with
        attemptsRemaining := some (max 0 (5 - (orZero u.failed_login_attempts + 1))) } ∧
    (AuthService.login env db now email1 password).1.attemptsRemaining = none ∧
    (AuthService.login env db now email1 password).1 ≠
      (AuthService.login env db now email2 password).1 := by
  rw [login_no_account now password h1, login_wrong_password h2 hact hnl hpw]
  refine ⟨rfl, rfl, ?_⟩
  intro h
  have := congrArg Result.attemptsRemaining h
  simp at this

/-- C6 (amended) on the sample store: an unknown email against a wrong password for `ana@x.io`. -/
theorem C6_results_agree_up_to_attemptsRemaining_witness :
    selectUserByEmail anaDb "bob@x.io" = none ∧
    selectUserByEmail anaDb "ana@x.io" = some ana ∧
    sampleEnv.bcryptCompare "Wrong000!" ana.password_hash = false ∧
    (AuthService.login sampleEnv anaDb 9000 "bob@x.io" "Wrong000!").1.attemptsRemaining = none ∧
    (AuthService.login sampleEnv anaDb 9000 "bob@x.io" "Wrong000!").1 ≠
      (AuthService.login sampleEnv anaDb 9000 "ana@x.io" "Wrong000!").1 :=
  ⟨by decide, by decide, by decide,
    (C6_results_agree_up_to_attemptsRemaining sampleEnv anaDb 9000 "bob@x.io" "ana@x.io"
      "Wrong000!" ana (by decide) (by decide) (by decide) (fun t h => by simp [ana] at h)
      (by decide)).2.1,
    (C6_results_agree_up_to_attemptsRemaining sampleEnv anaDb 9000 "bob@x.io" "ana@x.io"
      "Wrong000!" ana (by decide) (by decide) (by decide) (fun t h => by simp [ana] at h)
      (by decide)).2.2⟩

/-! ## Claims on `register` -/

/-- The `CHECK` constraint on `users.role` at work: `register` called on the service with a
string that is none of the three roles returns `REGISTRATION_ERROR` and stores nothing. The
controller admits the three roles only. -/
theorem register_unknown_role :
    sampleEnv.zodEmail "ana@x.io" = true ∧
    (validatePasswordStrength "Abcdef1!").valid = true ∧
    selectUserByEmail emptyDb "ana@x.io" = none ∧
    (AuthService.register sampleEnv emptyDb 5000 7 "ana@x.io" "Abcdef1!" "Ana"
      (some "root")).1.success = false ∧
    (AuthService.register sampleEnv emptyDb 5000 7 "ana@x.io" "Abcdef1!" "Ana"
      (some "root")).1.code = some "REGISTRATION_ERROR" ∧
    (AuthService.register sampleEnv emptyDb 5000 7 "ana@x.io" "Abcdef1!" "Ana"
      (some "root")).2 = emptyDb := by
  decide

/-- What `register` does in a store that does not hold the refresh token it signs: for a valid
email no account uses, a password the policy accepts, any name, and a role that is absent or
one of `admin`, `user`, `viewer`, it succeeds. The returned account has the passed role, or
`user` when none is passed, and an id no account had; the account table gains that account, and
the token table gains exactly one row: owned by it, holding the returned refresh token, with
`revoked_at` null and `expires_at = now + 7 days`. -/
theorem register_succeeds_of_fresh (env : Env) (db : Db) (now salt : Nat)
    (email password name : String) (role : Option String)
    (hemail : env.zodEmail email = true)
    (hpw : (validatePasswordStrength password).valid = true)
    (hnew : selectUserByEmail db email = none)
    (hrole : role = none ∨ role = some "admin" ∨ role = some "user" ∨ role = some "viewer")
    (hfresh : ∀ row ∈ db.refresh_tokens,
      row.token ≠ generateRefreshToken env now
        { id := nextRowid db.users_seq (db.users.map (fun u => u.id)), email := email,
          name := name, role := role.getD "user" }) :
    ∃ (user : PublicUser) (row : RefreshTokenRow),
      (AuthService.register env db now salt email password name role).1 =
        { success := true,
          data := some { user := some user, accessToken := generateAccessToken env now user,
                         refreshToken := some row.token } } ∧
      user.email = email ∧ user.name = name ∧ user.role = role.getD "user" ∧
      (∀ v ∈ db.users, v.id ≠ user.id) ∧
      (AuthService.register env db now salt email password name role).2.users =
        db.users ++
          [{ id := user.id, email := email, password_hash := env.bcryptHash password 12 salt,
             name := name, role := role.getD "user", is_active := 1,
             failed_login_attempts := some 0, locked_until := none, last_login_at := none,
             created_at := now, updated_at := none }] ∧
      (AuthService.register env db now salt email password name role).2.refresh_tokens =
        db.refresh_tokens ++ [row] ∧
      row.user_id = user.id ∧ row.token = generateRefreshToken env now user ∧
      row.revoked_at = none ∧ row.expires_at = now + 7 * 24 * 60 * 60 * 1000 := by
  have hr : ["admin", "user", "viewer"].contains (role.getD "user") = true := by
    rcases hrole with rfl | rfl | rfl | rfl <;> decide
  have hins := @insertUser_ok db _ _ (env.bcryptHash password 12 salt) name now hr hnew
  have hfk : ∃ v ∈ (db.users ++
      [({ id := nextRowid db.users_seq (db.users.map (fun u => u.id)), email := email,
          password_hash := env.bcryptHash password 12 salt, name := name,
          role := role.getD "user", is_active := 1, failed_login_attempts := some 0,
          locked_until := none, last_login_at := none, created_at := now,
          updated_at := none } : User)]),
      v.id = nextRowid db.users_seq (db.users.map (fun u => u.id)) :=
    ⟨_, List.mem_append_right _ (List.mem_singleton_self _), rfl⟩
  have htok := insertRefreshToken_fresh
    ({ db with
      users := db.users ++
        [{ id := nextRowid db.users_seq (db.users.map (fun u => u.id)), email := email,
           password_hash := env.bcryptHash password 12 salt, name := name,
           role := role.getD "user", is_active := 1, failed_login_attempts := some 0,
           locked_until := none, last_login_at := none, created_at := now,
           updated_at := none }],
      users_seq := nextRowid db.users_seq (db.users.map (fun u => u.id)) } : Db)
    (nextRowid db.users_seq (db.users.map (fun u => u.id)))
    (now + 7 * 24 * 60 * 60 * 1000) now hfresh hfk
  refine ⟨{ id := nextRowid db.users_seq (db.users.map (fun u => u.id)), email := email,
            name := name, role := role.getD "user" },
    { id := nextRowid db.refresh_tokens_seq (db.refresh_tokens.map (fun r => r.id)),
      user_id := nextRowid db.users_seq (db.users.map (fun u => u.id)),
      token := generateRefreshToken env now
        { id := nextRowid db.users_seq (db.users.map (fun u => u.id)), email := email,
          name := name, role := role.getD "user" },
      expires_at := now + 7 * 24 * 60 * 60 * 1000, revoked_at := none, created_at := now },
    ?_, rfl, rfl, rfl, ?_, ?_, ?_, rfl, rfl, rfl, rfl⟩
  · simp only [AuthService.register, hemail, hpw, hnew, hins, htok, Bool.not_true,
      Bool.false_eq_true, if_false]
  · intro v hv heq
    have := lt_nextRowid db.users_seq (db.users.map (fun u => u.id)) v.id
      (List.mem_map_of_mem (fun u => u.id) hv)
    simp only [] at heq
    omega
  · simp only [AuthService.register, hemail, hpw, hnew, hins, htok, Bool.not_true,
      Bool.false_eq_true, if_false]
  · simp only [AuthService.register, hemail, hpw, hnew, hins, htok, Bool.not_true,
      Bool.false_eq_true, if_false]

/-- C10 (as stated) fails: `register` with the email of an existing account and the password
`"short1"` returns `WEAK_PASSWORD`, not `EMAIL_EXISTS`: the strength policy is checked before
the account lookup. -/
theorem C10_existing_email_weak_password :
    ana ∈ anaDb.users ∧ ana.email = "ana@x.io" ∧ sampleEnv.zodEmail "ana@x.io" = true ∧
    (AuthService.register sampleEnv anaDb 9000 7 "ana@x.io" "short1" "Eve" none).1.code =
      some "WEAK_PASSWORD" ∧
    (AuthService.register sampleEnv anaDb 9000 7 "ana@x.io" "short1" "Eve" none).1.code ≠
      some "EMAIL_EXISTS" := by
  decide

/-- C10 (amended): for every store containing an account with email `e`, `register` called with
`e` fails and leaves the whole store as it was, for every password, name and role; its code is
`EMAIL_EXISTS` when `e` is a valid address and the strength policy accepts the password,
`WEAK_PASSWORD` when `e` is valid and the policy rejects the password, and `INVALID_EMAIL` when
`e` is not a valid address. -/
theorem C10_register_existing_email (env : Env) (db : Db) (now salt : Nat)
    (email password name : String) (role : Option String) (u : User) (hmem : u ∈ db.users)
    (he : u.email = email) :
    (AuthService.register env db now salt email password name role).1.success = false ∧
    (AuthService.register env db now salt email password name role).2 = db ∧
    (env.zodEmail email = true → (validatePasswordStrength password).valid = true →
      (AuthService.register env db now salt email password name role).1.code =
        some "EMAIL_EXISTS") ∧
    (env.zodEmail email = true → (validatePasswordStrength password).valid = false →
      (AuthService.register env db now salt email password name role).1.code =
        some "WEAK_PASSWORD") ∧
    (env.zodEmail email = false →
      (AuthService.register env db now salt email password name role).1.code =
        some "INVALID_EMAIL") := by
  obtain ⟨v, hv⟩ := selectUserByEmail_ne_none hmem he
  cases hz : env.zodEmail email <;> cases hp : (validatePasswordStrength password).valid <;>
    simp [AuthService.register, hz, hp, hv]

/-- C10 (amended) on the sample store: a second registration of `ana@x.io` with a strong password. -/
theorem C10_register_existing_email_witness :
    ana ∈ anaDb.users ∧ ana.email = "ana@x.io" ∧ sampleEnv.zodEmail "ana@x.io" = true ∧
    (validatePasswordStrength "Str0ng!pw").valid = true ∧
    (AuthService.register sampleEnv anaDb 9000 7 "ana@x.io" "Str0ng!pw" "Eve" none).1.code =
      some "EMAIL_EXISTS" ∧
    (AuthService.register sampleEnv anaDb 9000 7 "ana@x.io" "Str0ng!pw" "Eve" none).2 = anaDb :=
  ⟨by decide, by decide, by decide, by decide,
    (C10_register_existing_email sampleEnv anaDb 9000 7 "ana@x.io" "Str0ng!pw" "Eve" none ana
      (by decide) (by decide)).2.2.1 (by decide) (by decide),
    (C10_register_existing_email sampleEnv anaDb 9000 7 "ana@x.io" "Str0ng!pw" "Eve" none ana
      (by decide) (by decide)).2.1⟩

/-! ## The password policy -/

theorem isSpecial_iff (c : Char) :
    isSpecial c = true ↔ c ∈ ['@', '$', '!', '%', '*', '?', '&'] := by
  simp [isSpecial]

theorem isAllowed_toNat_le {c : Char} (h : isAllowed c = true) : c.toNat ≤ 122 := by
  simp only [isAllowed, Bool.or_eq_true] at h
  rcases h with ((h | h) | h) | h
  · simp only [isLowerAZ, Bool.and_eq_true, decide_eq_true_eq] at h; omega
  · simp only [isUpperAZ, Bool.and_eq_true, decide_eq_true_eq] at h; omega
  · simp only [isDigit09, Bool.and_eq_true, decide_eq_true_eq] at h; omega
  · rw [isSpecial_iff] at h
    simp only [List.mem_cons, List.mem_singleton, List.not_mem_nil, or_false] at h
    rcases h with rfl | rfl | rfl | rfl | rfl | rfl | rfl <;> decide

theorem isAllowed_toNat_ge {c : Char} (h : isAllowed c = true) : 33 ≤ c.toNat := by
  simp only [isAllowed, Bool.or_eq_true] at h
  rcases h with ((h | h) | h) | h
  · simp only [isLowerAZ, Bool.and_eq_true, decide_eq_true_eq] at h; omega
  · simp only [isUpperAZ, Bool.and_eq_true, decide_eq_true_eq] at h; omega
  · simp only [isDigit09, Bool.and_eq_true, decide_eq_true_eq] at h; omega
  · rw [isSpecial_iff] at h
    simp only [List.mem_cons, List.mem_singleton, List.not_mem_nil, or_false] at h
    rcases h with rfl | rfl | rfl | rfl | rfl | rfl | rfl <;> decide

/-- No character of the allowed class is a line terminator. -/
theorem isLineTerminator_of_isAllowed {c : Char} (h : isAllowed c = true) :
    isLineTerminator c = false := by
  have h1 := isAllowed_toNat_le h
  have h2 := isAllowed_toNat_ge h
  simp only [isLineTerminator, Bool.or_eq_false_iff, decide_eq_false_iff_not]
  omega

/-- A lookahead that matches has found a character of its class. -/
theorem any_of_lookahead (cls : Char → Bool) (l : List Char) (h : lookahead cls l = true) :
    ∃ c ∈ l, cls c = true := by
  induction l with
  | nil => simp [lookahead] at h
  | cons a l ih =>
    simp only [lookahead, Bool.or_eq_true, Bool.and_eq_true] at h
    rcases h with h | ⟨_, h⟩
    · exact ⟨a, List.mem_cons_self _ _, h⟩
    · obtain ⟨c, hc, hcls⟩ := ih h
      exact ⟨c, List.mem_cons_of_mem _ hc, hcls⟩

/-- On input without line terminators a lookahead matches as soon as the class occurs. -/
theorem lookahead_of_any (cls : Char → Bool) (l : List Char)
    (hall : ∀ c ∈ l, isLineTerminator c = false) (h : ∃ c ∈ l, cls c = true) :
    lookahead cls l = true := by
  induction l with
  | nil => simp at h
  | cons a l ih =>
    obtain ⟨c, hc, hcls⟩ := h
    simp only [lookahead, Bool.or_eq_true, Bool.and_eq_true]
    rcases List.mem_cons.mp hc with rfl | hc
    · exact Or.inl hcls
    · right
      refine ⟨by simp [hall a (List.mem_cons_self _ _)], ?_⟩
      exact ih (fun x hx => hall x (List.mem_cons_of_mem _ hx)) ⟨c, hc, hcls⟩

theorem foldl_utf16 (l : List Char) :
    ∀ a : Nat, a + l.length ≤ l.foldl (fun n c => n + (if c.toNat < 65536 then 1 else 2)) a ∧
      ((∀ c ∈ l, c.toNat < 65536) →
        l.foldl (fun n c => n + (if c.toNat < 65536 then 1 else 2)) a = a + l.length) := by
  induction l with
  | nil => intro a; simp
  | cons x l ih =>
    intro a
    have h := ih (a + (if x.toNat < 65536 then 1 else 2))
    simp only [List.foldl_cons, List.length_cons]
    have hd : 1 ≤ (if x.toNat < 65536 then 1 else 2 : Nat) := by split <;> omega
    refine ⟨?_, ?_⟩
    · have := h.1
      omega
    · intro hall
      have hx := hall x (List.mem_cons_self _ _)
      rw [h.2 (fun c hc => hall c (List.mem_cons_of_mem _ hc))]
      simp only [hx, if_true]
      omega

/-- A string has at least as many UTF-16 code units as characters. -/
theorem length_le_utf16Length (s : String) : s.length ≤ utf16Length s := by
  have := (foldl_utf16 s.data 0).1
  show s.data.length ≤ s.data.foldl (fun n c => n + (if c.toNat < 65536 then 1 else 2)) 0
  omega

/-- Without characters above U+FFFF, the UTF-16 length is the number of characters. -/
theorem utf16Length_eq_length (s : String) (h : ∀ c ∈ s.data, c.toNat < 65536) :
    utf16Length s = s.length := by
  have := (foldl_utf16 s.data 0).2 h
  show s.data.foldl (fun n c => n + (if c.toNat < 65536 then 1 else 2)) 0 = s.data.length
  omega

theorem validatePasswordStrength_valid_iff (password : String) :
    (validatePasswordStrength password).valid = true ↔
      8 ≤ utf16Length password ∧ PASSWORD_REGEX_test password = true := by
  unfold validatePasswordStrength PASSWORD_MIN_LENGTH
  by_cases h1 : utf16Length password < 8
  · simp only [h1, if_true]
    constructor
    · intro h; cases h
    · intro h; omega
  · simp only [h1, if_false]
    cases h2 : PASSWORD_REGEX_test password
    · simp
    · simp
      omega

/-- C12 (as stated) fails: `"Abcdef1!#"` has nine characters, among them a lowercase letter, an
uppercase letter, a digit and the special character `!`, and `validatePasswordStrength` rejects
it, because `#` is outside the character class of the pattern. -/
theorem C12_extra_character_rejected :
    8 ≤ "Abcdef1!#".length ∧
    (∃ c ∈ "Abcdef1!#".data, isLowerAZ c = true) ∧
    (∃ c ∈ "Abcdef1!#".data, isUpperAZ c = true) ∧
    (∃ c ∈ "Abcdef1!#".data, isDigit09 c = true) ∧
    (∃ c ∈ "Abcdef1!#".data, isSpecial c = true) ∧
    (validatePasswordStrength "Abcdef1!#").valid = false := by
  decide

/-- C12 (amended): `validatePasswordStrength` returns valid if and only if the password has at
least 8 characters, contains a lowercase letter, an uppercase letter, a digit and a character
of `@$!%*?&`, and every one of its characters is a letter `a`-`z` or `A`-`Z`, a digit or a
character of `@$!%*?&`. -/
theorem C12_valid_iff (password : String) :
    (validatePasswordStrength password).valid = true ↔
      8 ≤ password.length ∧
      (∃ c ∈ password.data, isLowerAZ c = true) ∧
      (∃ c ∈ password.data, isUpperAZ c = true) ∧
      (∃ c ∈ password.data, isDigit09 c = true) ∧
      (∃ c ∈ password.data, isSpecial c = true) ∧
      ∀ c ∈ password.data,
        isLowerAZ c = true ∨ isUpperAZ c = true ∨ isDigit09 c = true ∨ isSpecial c = true := by
  rw [validatePasswordStrength_valid_iff]
  constructor
  · rintro ⟨_, hre⟩
    simp only [PASSWORD_REGEX_test, Bool.and_eq_true, decide_eq_true_eq, List.all_eq_true] at hre
    obtain ⟨⟨⟨⟨⟨hl, hu⟩, hd⟩, hs⟩, hall⟩, hlen⟩ := hre
    refine ⟨hlen, any_of_lookahead _ _ hl, any_of_lookahead _ _ hu, any_of_lookahead _ _ hd,
      any_of_lookahead _ _ hs, ?_⟩
    intro c hc
    have := hall c hc
    simp only [isAllowed, Bool.or_eq_true] at this
    tauto
  · rintro ⟨hlen, hl, hu, hd, hs, hall⟩
    have hallowed : ∀ c ∈ password.data, isAllowed c = true := by
      intro c hc
      have := hall c hc
      simp only [isAllowed, Bool.or_eq_true]
      tauto
    have hterm : ∀ c ∈ password.data, isLineTerminator c = false :=
      fun c hc => isLineTerminator_of_isAllowed (hallowed c hc)
    have hbmp : ∀ c ∈ password.data, c.toNat < 65536 := by
      intro c hc
      have := isAllowed_toNat_le (hallowed c hc)
      omega
    refine ⟨by rw [utf16Length_eq_length password hbmp]; exact hlen, ?_⟩
    simp only [PASSWORD_REGEX_test, Bool.and_eq_true, decide_eq_true_eq, List.all_eq_true]
    exact ⟨⟨⟨⟨⟨lookahead_of_any _ _ hterm hl, lookahead_of_any _ _ hterm hu⟩,
      lookahead_of_any _ _ hterm hd⟩, lookahead_of_any _ _ hterm hs⟩, hallowed⟩, hlen⟩

/-- C13 (as stated) fails: the password `Ab1!xy😀` has seven characters, the last of which lies
above U+FFFF and counts twice in `password.length`, so the length test lets it pass and the
pattern rejects it: the reason returned is the composition reason, not the minimum-length
reason. -/
theorem C13_seven_characters_composition_reason :
    "Ab1!xy😀".length = 7 ∧
    utf16Length "Ab1!xy😀" = 8 ∧
    (validatePasswordStrength "Ab1!xy😀").valid = false ∧
    (validatePasswordStrength "Ab1!xy😀").error =
      some ("La contraseña debe contener mayúsculas, minúsculas, números y " ++
        "caracteres especiales (@$!%*?&)") ∧
    (validatePasswordStrength "Ab1!xy😀").error ≠
      some "La contraseña debe tener al menos 8 caracteres" := by
  decide

/-- C13 (amended): `validatePasswordStrength` returns the minimum-length reason for every
password whose `length` (counted as `String.prototype.length` counts, in UTF-16 code units) is
below 8, whatever its composition, and the composition reason for every rejected password of
length 8 or more; the two reasons are different strings and a rejected password gets exactly
one of them. For a password without characters above U+FFFF, `length` is the number of its
characters, and a password of 8 or more characters has `length` 8 or more. -/
theorem C13_reasons (password : String) :
    (utf16Length password < 8 →
      validatePasswordStrength password =
        { valid := false, error := some "La contraseña debe tener al menos 8 caracteres" }) ∧
    (8 ≤ utf16Length password → (validatePasswordStrength password).valid = false →
      validatePasswordStrength password =
        { valid := false,
          error := some ("La contraseña debe contener mayúsculas, minúsculas, números y " ++
            "caracteres especiales (@$!%*?&)") }) ∧
    ("La contraseña debe tener al menos 8 caracteres" ≠
      "La contraseña debe contener mayúsculas, minúsculas, números y " ++
        "caracteres especiales (@$!%*?&)") ∧
    ((validatePasswordStrength password).valid = true →
      (validatePasswordStrength password).error = none) ∧
    ((∀ c ∈ password.data, c.toNat < 65536) → utf16Length password = password.length) ∧
    (8 ≤ password.length → 8 ≤ utf16Length password) := by
  refine ⟨?_, ?_, by decide, ?_, utf16Length_eq_length password, ?_⟩
  · intro h
    simp [validatePasswordStrength, PASSWORD_MIN_LENGTH, h]
  · intro h hv
    have h1 : ¬ utf16Length password < 8 := by omega
    cases h2 : PASSWORD_REGEX_test password
    · simp [validatePasswordStrength, PASSWORD_MIN_LENGTH, h1, h2]
    · have := (validatePasswordStrength_valid_iff password).mpr ⟨h, h2⟩
      rw [this] at hv
      cases hv
  · intro hv
    have h := (validatePasswordStrength_valid_iff password).mp hv
    have h1 : ¬ utf16Length password < 8 := by omega
    simp [validatePasswordStrength, PASSWORD_MIN_LENGTH, h1, h.2]
  · intro h
    have := length_le_utf16Length password
    omega

/-- C13 (amended) on `"short1"` (six characters) and on `"alllowercase1!"` (fourteen, no
uppercase). -/
theorem C13_reasons_witness :
    utf16Length "short1" < 8 ∧
    8 ≤ utf16Length "alllowercase1!" ∧
    (validatePasswordStrength "alllowercase1!").valid = false ∧
    validatePasswordStrength "short1" =
      { valid := false, error := some "La contraseña debe tener al menos 8 caracteres" } ∧
    validatePasswordStrength "alllowercase1!" =
      { valid := false,
        error := some ("La contraseña debe contener mayúsculas, minúsculas, números y " ++
          "caracteres especiales (@$!%*?&)") } :=
  ⟨by decide, by decide, by decide, (C13_reasons "short1").1 (by decide),
    (C13_reasons "alllowercase1!").2.1 (by decide) (by decide)⟩

/-! ## The branches of `changePassword` and `logout` -/

theorem selectUserById_eq_none {db : Db} {id : Nat} (h : ∀ u ∈ db.users, u.id ≠ id) :
    selectUserById db id = none := by
  unfold selectUserById
  rw [List.find?_eq_none]
  intro u hu
  simpa using h u hu

theorem map_revoke_eq_self (p : RefreshTokenRow → Prop) [DecidablePred p] (t : Nat)
    (l : List RefreshTokenRow) (h : ∀ r ∈ l, ¬ p r) :
    l.map (fun r => if p r then { r with revoked_at := some t } else r) = l := by
  induction l with
  | nil => rfl
  | cons a l ih =>
    rw [List.map_cons, if_neg (h a (List.mem_cons_self _ _)),
      ih (fun r hr => h r (List.mem_cons_of_mem _ hr))]

theorem changePassword_no_account {env : Env} {db : Db} {userId : Nat} (now salt : Nat)
    (currentPassword newPassword : String) (h : selectUserById db userId = none) :
    AuthService.changePassword env db now salt userId currentPassword newPassword =
      ({ success := false, error := some "Usuario no encontrado",
         code := some "USER_NOT_FOUND" }, db) := by
  simp [AuthService.changePassword, h]

theorem changePassword_wrong_current {env : Env} {db : Db} {userId : Nat} {u : User}
    {currentPassword : String} (now salt : Nat) (newPassword : String)
    (h : selectUserById db userId = some u)
    (hpw : env.bcryptCompare currentPassword u.password_hash = false) :
    AuthService.changePassword env db now salt userId currentPassword newPassword =
      ({ success := false, error := some "Contraseña actual incorrecta",
         code := some "INVALID_CURRENT_PASSWORD" }, db) := by
  simp [AuthService.changePassword, h, hpw]

theorem changePassword_weak {env : Env} {db : Db} {userId : Nat} {u : User}
    {currentPassword newPassword : String} (now salt : Nat)
    (h : selectUserById db userId = some u)
    (hpw : env.bcryptCompare currentPassword u.password_hash = true)
    (hweak : (validatePasswordStrength newPassword).valid = false) :
    AuthService.changePassword env db now salt userId currentPassword newPassword =
      ({ success := false, error := (validatePasswordStrength newPassword).error,
         code := some "WEAK_PASSWORD" }, db) := by
  simp [AuthService.changePassword, h, hpw, hweak]

theorem changePassword_ok {env : Env} {db : Db} {userId : Nat} {u : User}
    {currentPassword newPassword : String} (now salt : Nat)
    (h : selectUserById db userId = some u)
    (hpw : env.bcryptCompare currentPassword u.password_hash = true)
    (hstrong : (validatePasswordStrength newPassword).valid = true) :
    AuthService.changePassword env db now salt userId currentPassword newPassword =
      ({ success := true, message := some "Contraseña actualizada exitosamente" },
        revokeByUser (updatePasswordHash db (env.bcryptHash newPassword 12 salt) userId) now
          userId) := by
  simp [AuthService.changePassword, h, hpw, hstrong]

theorem register_weak {env : Env} {db : Db} {email password : String} (now salt : Nat)
    (name : String) (role : Option String) (hemail : env.zodEmail email = true)
    (hweak : (validatePasswordStrength password).valid = false) :
    AuthService.register env db now salt email password name role =
      ({ success := false, error := (validatePasswordStrength password).error,
         code := some "WEAK_PASSWORD" }, db) := by
  simp [AuthService.register, hemail, hweak]

/-! ## Claims on weak passwords, `logout` and failing `changePassword` -/

/-- C11: for every password the strength policy rejects, `register` with a valid email returns
`WEAK_PASSWORD`, and `changePassword` for an existing account, with its correct current
password and that password as the new one, returns `WEAK_PASSWORD`; both leave the whole
store, accounts and refresh tokens, as it was. -/
theorem C11_weak_password (env : Env) (db : Db) (now salt : Nat) (weak : String)
    (hweak : (validatePasswordStrength weak).valid = false) :
    (∀ (email name : String) (role : Option String), env.zodEmail email = true →
      (AuthService.register env db now salt email weak name role).1.success = false ∧
      (AuthService.register env db now salt email weak name role).1.code =
        some "WEAK_PASSWORD" ∧
      (AuthService.register env db now salt email weak name role).2 = db) ∧
    (∀ (userId : Nat) (u : User) (currentPassword : String),
      selectUserById db userId = some u →
      env.bcryptCompare currentPassword u.password_hash = true →
      (AuthService.changePassword env db now salt userId currentPassword weak).1.success =
        false ∧
      (AuthService.changePassword env db now salt userId currentPassword weak).1.code =
        some "WEAK_PASSWORD" ∧
      (AuthService.changePassword env db now salt userId currentPassword weak).2 = db) := by
  constructor
  · intro email name role hemail
    rw [register_weak now salt name role hemail hweak]
    exact ⟨rfl, rfl, rfl⟩
  · intro userId u currentPassword hu hpw
    rw [changePassword_weak now salt hu hpw hweak]
    exact ⟨rfl, rfl, rfl⟩

/-- C11 on `"short1"` for `register` and on `"alllowercase1!"` for `changePassword`. -/
theorem C11_weak_password_witness :
    (validatePasswordStrength "short1").valid = false ∧
    (validatePasswordStrength "alllowercase1!").valid = false ∧
    selectUserById registeredDb 1 = some ana ∧
    (AuthService.register sampleEnv registeredDb 9000 7 "bob@x.io" "short1" "Bob" none).1.code =
      some "WEAK_PASSWORD" ∧
    (AuthService.register sampleEnv registeredDb 9000 7 "bob@x.io" "short1" "Bob" none).2 =
      registeredDb ∧
    (AuthService.changePassword sampleEnv registeredDb 9000 7 1 "Abcdef1!"
      "alllowercase1!").1.code = some "WEAK_PASSWORD" ∧
    (AuthService.changePassword sampleEnv registeredDb 9000 7 1 "Abcdef1!"
      "alllowercase1!").2 = registeredDb :=
  ⟨by decide, by decide, by decide,
    ((C11_weak_password sampleEnv registeredDb 9000 7 "short1" (by decide)).1 "bob@x.io" "Bob"
      none (by decide)).2.1,
    ((C11_weak_password sampleEnv registeredDb 9000 7 "short1" (by decide)).1 "bob@x.io" "Bob"
      none (by decide)).2.2,
    ((C11_weak_password sampleEnv registeredDb 9000 7 "alllowercase1!" (by decide)).2 1 ana
      "Abcdef1!" (by decide) (by decide)).2.1,
    ((C11_weak_password sampleEnv registeredDb 9000 7 "alllowercase1!" (by decide)).2 1 ana
      "Abcdef1!" (by decide) (by decide)).2.2⟩

/-- C18: for every token string that no row of the token table holds, `logout` returns a
success result and leaves the whole store, accounts and refresh tokens, as it was. -/
theorem C18_logout_unknown_token (db : Db) (now : Nat) (token : String)
    (h : ∀ r ∈ db.refresh_tokens, r.token ≠ token) :
    (AuthService.logout db now (.text token)).1 =
      { success := true, message := some "Sesión cerrada exitosamente" } ∧
    (AuthService.logout db now (.text token)).1.success = true ∧
    (AuthService.logout db now (.text token)).1.code = none ∧
    (AuthService.logout db now (.text token)).2 = db := by
  refine ⟨rfl, rfl, rfl, ?_⟩
  simp only [AuthService.logout, revokeByToken]
  rw [map_revoke_eq_self (fun r => r.token = token) now db.refresh_tokens h]

/-- C18 on the store after one registration, for a string that is no token of it. -/
theorem C18_logout_unknown_token_witness :
    (∀ r ∈ registeredDb.refresh_tokens, r.token ≠ "no-such-token") ∧
    (AuthService.logout registeredDb 9000 (.text "no-such-token")).1.success = true ∧
    (AuthService.logout registeredDb 9000 (.text "no-such-token")).2 = registeredDb :=
  ⟨by decide, (C18_logout_unknown_token registeredDb 9000 "no-such-token" (by decide)).2.1,
    (C18_logout_unknown_token registeredDb 9000 "no-such-token" (by decide)).2.2.2⟩

/-- C20: `changePassword` returns `USER_NOT_FOUND` when no account has the given id, and
otherwise `INVALID_CURRENT_PASSWORD` when the hash comparison rejects the supplied current
password, whatever the new password is; in both cases the whole store, password hashes and
refresh-token rows included, is left as it was. -/
theorem C20_changePassword_failures (env : Env) (db : Db) (now salt : Nat) (userId : Nat)
    (currentPassword newPassword : String) :
    ((∀ u ∈ db.users, u.id ≠ userId) →
      (AuthService.changePassword env db now salt userId currentPassword newPassword).1.success =
        false ∧
      (AuthService.changePassword env db now salt userId currentPassword newPassword).1.code =
        some "USER_NOT_FOUND" ∧
      (AuthService.changePassword env db now salt userId currentPassword newPassword).2 = db) ∧
    (∀ u, selectUserById db userId = some u →
      env.bcryptCompare currentPassword u.password_hash = false →
      (AuthService.changePassword env db now salt userId currentPassword newPassword).1.success =
        false ∧
      (AuthService.changePassword env db now salt userId currentPassword newPassword).1.code =
        some "INVALID_CURRENT_PASSWORD" ∧
      (AuthService.changePassword env db now salt userId currentPassword newPassword).2 = db) := by
  constructor
  · intro h
    rw [changePassword_no_account now salt currentPassword newPassword
      (selectUserById_eq_none h)]
    exact ⟨rfl, rfl, rfl⟩
  · intro u hu hpw
    rw [changePassword_wrong_current now salt newPassword hu hpw]
    exact ⟨rfl, rfl, rfl⟩

/-- C20 on the store after one registration: an id no account has, and a wrong current
password together with a weak new one. -/
theorem C20_changePassword_failures_witness :
    (∀ u ∈ registeredDb.users, u.id ≠ 2) ∧
    selectUserById registeredDb 1 = some ana ∧
    sampleEnv.bcryptCompare "Wrong000!" ana.password_hash = false ∧
    (validatePasswordStrength "short1").valid = false ∧
    (AuthService.changePassword sampleEnv registeredDb 9000 7 2 "Abcdef1!"
      "Str0ng!pw").1.code = some "USER_NOT_FOUND" ∧
    (AuthService.changePassword sampleEnv registeredDb 9000 7 1 "Wrong000!"
      "short1").1.code = some "INVALID_CURRENT_PASSWORD" ∧
    (AuthService.changePassword sampleEnv registeredDb 9000 7 1 "Wrong000!"
      "short1").2 = registeredDb :=
  ⟨by decide, by decide, by decide, by decide,
    ((C20_changePassword_failures sampleEnv registeredDb 9000 7 2 "Abcdef1!" "Str0ng!pw").1
      (by decide)).2.1,
    ((C20_changePassword_failures sampleEnv registeredDb 9000 7 1 "Wrong000!" "short1").2 ana
      (by decide) (by decide)).2.1,
    ((C20_changePassword_failures sampleEnv registeredDb 9000 7 1 "Wrong000!" "short1").2 ana
      (by decide) (by decide)).2.2⟩

/-! ## The branches of `refreshAccessToken` -/

/-- `verifyRefreshToken` accepts exactly the tokens that `jwt.verify` accepts under the refresh
secret and whose payload has the type marker `"refresh"`. -/
theorem verifyRefreshToken_valid_iff (env : Env) (now : Nat) (token : String) :
    (verifyRefreshToken env now token).valid = true ↔
      ∃ c, jwtVerify env now token env.JWT_REFRESH_SECRET = .ok c ∧ c.type = some "refresh" := by
  unfold verifyRefreshToken
  cases h : jwtVerify env now token env.JWT_REFRESH_SECRET with
  | error msg => simp
  | ok c =>
    by_cases ht : c.type = some "refresh"
    · simp [ht]
    · simp [ht]

theorem jwtVerify_ok_iff (env : Env) (now : Nat) (token secret : String) (c : JwtClaims) :
    jwtVerify env now token secret = .ok c ↔
      env.jwsDecode token secret = .ok c ∧ now / 1000 < c.exp := by
  unfold jwtVerify
  cases h : env.jwsDecode token secret with
  | error msg => simp
  | ok d =>
    by_cases he : d.exp ≤ now / 1000
    · simp only [he, if_true, Except.ok.injEq]
      constructor
      · intro hc; cases hc
      · rintro ⟨rfl, hlt⟩; omega
    · simp only [he, if_false, Except.ok.injEq]
      constructor
      · rintro rfl; exact ⟨rfl, by omega⟩
      · rintro ⟨rfl, _⟩; rfl

theorem selectRefreshToken_some {db : Db} {token : String} {now : Nat} {row : RefreshTokenRow}
    (h : selectRefreshToken db token now = some row) :
    row ∈ db.refresh_tokens ∧ row.token = token ∧ now < row.expires_at := by
  unfold selectRefreshToken at h
  have h1 := List.find?_some h
  simp only [Bool.and_eq_true, decide_eq_true_eq] at h1
  exact ⟨List.mem_of_find?_eq_some h, h1.1, h1.2⟩

theorem selectRefreshToken_eq_none {db : Db} {token : String} {now : Nat} :
    selectRefreshToken db token now = none ↔
      ∀ r ∈ db.refresh_tokens, ¬ (r.token = token ∧ now < r.expires_at) := by
  unfold selectRefreshToken
  rw [List.find?_eq_none]
  simp

/-- Under the `UNIQUE` constraint on `refresh_tokens.token`, the row the token lookup returns
for an unexpired stored token is the row that holds it. -/
theorem selectRefreshToken_of_mem (db : Db) (row : RefreshTokenRow) (now : Nat)
    (hmem : row ∈ db.refresh_tokens) (hexp : now < row.expires_at)
    (huniq : ∀ r ∈ db.refresh_tokens, r.token = row.token → r = row) :
    selectRefreshToken db row.token now = some row := by
  cases hf : selectRefreshToken db row.token now with
  | none =>
    exact absurd ⟨rfl, hexp⟩ (selectRefreshToken_eq_none.mp hf row hmem)
  | some r =>
    have hr := selectRefreshToken_some hf
    rw [huniq r hr.1 hr.2.1]

theorem selectActiveUserById_some {db : Db} {id : Nat} {u : User}
    (h : selectActiveUserById db id = some u) : u ∈ db.users ∧ u.id = id ∧ u.is_active = 1 := by
  unfold selectActiveUserById at h
  have h1 := List.find?_some h
  simp only [Bool.and_eq_true, decide_eq_true_eq] at h1
  exact ⟨List.mem_of_find?_eq_some h, h1.1, h1.2⟩

theorem selectActiveUserById_eq_none {db : Db} {id : Nat} :
    selectActiveUserById db id = none ↔
      ∀ u ∈ db.users, ¬ (u.id = id ∧ u.is_active = 1) := by
  unfold selectActiveUserById
  rw [List.find?_eq_none]
  simp

theorem refresh_invalid {env : Env} {now : Nat} {token : String} (db : Db)
    (h : (verifyRefreshToken env now token).valid = false) :
    AuthService.refreshAccessToken env db now token =
      ({ success := false, error := some "Token de actualización inválido",
         code := some "INVALID_REFRESH_TOKEN" }, db) := by
  simp [AuthService.refreshAccessToken, h]

theorem refresh_not_found {env : Env} {db : Db} {now : Nat} {token : String}
    (hv : (verifyRefreshToken env now token).valid = true)
    (h : selectRefreshToken db token now = none) :
    AuthService.refreshAccessToken env db now token =
      ({ success := false, error := some "Token de actualización no encontrado o expirado",
         code := some "TOKEN_NOT_FOUND" }, db) := by
  simp [AuthService.refreshAccessToken, hv, h]

theorem refresh_revoked {env : Env} {db : Db} {now : Nat} {token : String}
    {row : RefreshTokenRow} (hv : (verifyRefreshToken env now token).valid = true)
    (h : selectRefreshToken db token now = some row) (hr : row.revoked_at ≠ none) :
    AuthService.refreshAccessToken env db now token =
      ({ success := false, error := some "Token de actualización revocado",
         code := some "TOKEN_REVOKED" }, db) := by
  have : row.revoked_at.isSome = true := by
    cases hx : row.revoked_at with
    | none => exact absurd hx hr
    | some t => rfl
  simp [AuthService.refreshAccessToken, hv, h, this]

theorem refresh_user_not_found {env : Env} {db : Db} {now : Nat} {token : String}
    {row : RefreshTokenRow} (hv : (verifyRefreshToken env now token).valid = true)
    (h : selectRefreshToken db token now = some row) (hr : row.revoked_at = none)
    (hu : selectActiveUserById db row.user_id = none) :
    AuthService.refreshAccessToken env db now token =
      ({ success := false, error := some "Usuario no encontrado o inactivo",
         code := some "USER_NOT_FOUND" }, db) := by
  simp [AuthService.refreshAccessToken, hv, h, hr, hu]

theorem refresh_ok {env : Env} {db : Db} {now : Nat} {token : String}
    {row : RefreshTokenRow} {u : User} (hv : (verifyRefreshToken env now token).valid = true)
    (h : selectRefreshToken db token now = some row) (hr : row.revoked_at = none)
    (hu : selectActiveUserById db row.user_id = some u) :
    AuthService.refreshAccessToken env db now token =
      ({ success := true,
         data := some { user := none, accessToken := generateAccessToken env now u.toPublic,
                        refreshToken := none } }, db) := by
  simp [AuthService.refreshAccessToken, hv, h, hr, hu]

/-- `refreshAccessToken` never writes. -/
theorem refresh_db (env : Env) (db : Db) (now : Nat) (token : String) :
    (AuthService.refreshAccessToken env db now token).2 = db := by
  unfold AuthService.refreshAccessToken
  simp only []
  split
  · rfl
  · split
    · rfl
    · split
      · rfl
      · split <;> rfl

/-- What a successful `refreshAccessToken` has checked. -/
theorem refresh_success_inv {env : Env} {db : Db} {now : Nat} {token : String}
    (h : (AuthService.refreshAccessToken env db now token).1.success = true) :
    (verifyRefreshToken env now token).valid = true ∧
    ∃ row u, selectRefreshToken db token now = some row ∧ row.revoked_at = none ∧
      selectActiveUserById db row.user_id = some u := by
  cases hv : (verifyRefreshToken env now token).valid with
  | false => rw [refresh_invalid db hv] at h; cases h
  | true =>
    refine ⟨rfl, ?_⟩
    cases hs : selectRefreshToken db token now with
    | none => rw [refresh_not_found hv hs] at h; cases h
    | some row =>
      cases hr : row.revoked_at with
      | some t =>
        rw [refresh_revoked hv hs (by rw [hr]; exact Option.some_ne_none t)] at h
        cases h
      | none =>
        cases hu : selectActiveUserById db row.user_id with
        | none => rw [refresh_user_not_found hv hs hr hu] at h; cases h
        | some u => exact ⟨row, u, rfl, hr, hu⟩

/-! ## Claims on `refreshAccessToken` -/

/-- C15: `refreshAccessToken` writes nothing and returns the code of the first failing check,
in this order: `INVALID_REFRESH_TOKEN` unless `jwt.verify` accepts the token under the refresh
secret with type marker `"refresh"`; else `TOKEN_NOT_FOUND` if no row holds the token string
with `expires_at` later than now; else `TOKEN_REVOKED` if the row found has a non-null
`revoked_at`; else `USER_NOT_FOUND` if no account has the row's owner id with `is_active = 1`;
else it succeeds with an access token for that account. -/
theorem C15_refresh_check_order (env : Env) (db : Db) (now : Nat) (token : String) :
    (AuthService.refreshAccessToken env db now token).2 = db ∧
    ((¬ ∃ c, jwtVerify env now token env.JWT_REFRESH_SECRET = .ok c ∧ c.type = some "refresh") →
      (AuthService.refreshAccessToken env db now token).1.code =
        some "INVALID_REFRESH_TOKEN") ∧
    ((∃ c, jwtVerify env now token env.JWT_REFRESH_SECRET = .ok c ∧ c.type = some "refresh") →
      ((∀ r ∈ db.refresh_tokens, ¬ (r.token = token ∧ now < r.expires_at)) →
        (AuthService.refreshAccessToken env db now token).1.code = some "TOKEN_NOT_FOUND") ∧
      ∀ row, selectRefreshToken db token now = some row →
        (row.revoked_at ≠ none →
          (AuthService.refreshAccessToken env db now token).1.code = some "TOKEN_REVOKED") ∧
        (row.revoked_at = none →
          ((∀ u ∈ db.users, ¬ (u.id = row.user_id ∧ u.is_active = 1)) →
            (AuthService.refreshAccessToken env db now token).1.code =
              some "USER_NOT_FOUND") ∧
          ∀ u, selectActiveUserById db row.user_id = some u →
            (AuthService.refreshAccessToken env db now token).1 =
              { success := true,
                data := some { user := none,
                               accessToken := generateAccessToken env now u.toPublic,
                               refreshToken := none } })) := by
  refine ⟨refresh_db env db now token, ?_, ?_⟩
  · intro h
    have hv : (verifyRefreshToken env now token).valid = false := by
      rw [← Bool.not_eq_true, verifyRefreshToken_valid_iff]
      exact h
    rw [refresh_invalid db hv]
  · intro h
    have hv := (verifyRefreshToken_valid_iff env now token).mpr h
    refine ⟨?_, ?_⟩
    · intro hnone
      rw [refresh_not_found hv (selectRefreshToken_eq_none.mpr hnone)]
    · intro row hrow
      refine ⟨?_, ?_⟩
      · intro hr
        rw [refresh_revoked hv hrow hr]
      · intro hr
        refine ⟨?_, ?_⟩
        · intro hnone
          rw [refresh_user_not_found hv hrow hr (selectActiveUserById_eq_none.mpr hnone)]
        · intro u hu
          rw [refresh_ok hv hrow hr hu]

/-- C15 on the sample stores: a string that is no token, the registered token after `logout`,
and the registered token before it. -/
theorem C15_refresh_check_order_witness :
    (¬ ∃ c, jwtVerify sampleEnv 9000 "no-such-token" sampleEnv.JWT_REFRESH_SECRET = .ok c ∧
      c.type = some "refresh") ∧
    (∃ c, jwtVerify sampleEnv 9000 anaToken sampleEnv.JWT_REFRESH_SECRET = .ok c ∧
      c.type = some "refresh") ∧
    (AuthService.refreshAccessToken sampleEnv registeredDb 9000 "no-such-token").1.code =
      some "INVALID_REFRESH_TOKEN" ∧
    (AuthService.refreshAccessToken sampleEnv loggedOutDb 9000 anaToken).1.code =
      some "TOKEN_REVOKED" ∧
    (AuthService.refreshAccessToken sampleEnv registeredDb 9000 anaToken).1.success = true :=
  have hno : ¬ ∃ c, jwtVerify sampleEnv 9000 "no-such-token" sampleEnv.JWT_REFRESH_SECRET =
      .ok c ∧ c.type = some "refresh" := by
    rintro ⟨c, hc, _⟩
    have : jwtVerify sampleEnv 9000 "no-such-token" sampleEnv.JWT_REFRESH_SECRET =
        .error "jwt malformed" := rfl
    rw [this] at hc
    cases hc
  have hyes : ∃ c, jwtVerify sampleEnv 9000 anaToken sampleEnv.JWT_REFRESH_SECRET = .ok c ∧
      c.type = some "refresh" :=
    ⟨{ userId := 1, email := none, role := none, type := some "refresh", iat := 5,
       exp := 604805 }, rfl, rfl⟩
  ⟨hno, hyes,
    (C15_refresh_check_order sampleEnv registeredDb 9000 "no-such-token").2.1 hno,
    (((C15_refresh_check_order sampleEnv loggedOutDb 9000 anaToken).2.2 hyes).2
      { id := 1, user_id := 1, token := anaToken, expires_at := 604805000,
        revoked_at := some 8000, created_at := 5000 } (by decide)).1 (by decide),
    by
      rw [((((C15_refresh_check_order sampleEnv registeredDb 9000 anaToken).2.2 hyes).2
        { id := 1, user_id := 1, token := anaToken, expires_at := 604805000,
          revoked_at := none, created_at := 5000 } (by decide)).2 (by decide)).2 ana
        (by decide)]⟩

/-! ## How the store evolves -/

theorem find?_map_comm {α : Type} (p : α → Bool) (f : α → α) (hp : ∀ x, p (f x) = p x)
    (l : List α) : (l.map f).find? p = (l.find? p).map f := by
  induction l with
  | nil => rfl
  | cons a l ih =>
    cases h : p a
    · simp [List.find?_cons, hp, h, ih]
    · simp [List.find?_cons, hp, h]

theorem find?_append_of_some {α : Type} (p : α → Bool) (l extra : List α) (a : α)
    (h : l.find? p = some a) : (l ++ extra).find? p = some a := by
  rw [List.find?_append, h]
  rfl

theorem rowKept_refl (r : RefreshTokenRow) : RowKept r r :=
  ⟨rfl, rfl, rfl, rfl, rfl, fun h => h⟩

theorem rowKept_trans {a b c : RefreshTokenRow} (h1 : RowKept a b) (h2 : RowKept b c) :
    RowKept a c :=
  ⟨h2.1.trans h1.1, h2.2.1.trans h1.2.1, h2.2.2.1.trans h1.2.2.1,
    h2.2.2.2.1.trans h1.2.2.2.1, h2.2.2.2.2.1.trans h1.2.2.2.2.1,
    fun h => h2.2.2.2.2.2 (h1.2.2.2.2.2 h)⟩

theorem userKept_refl (u : User) : UserKept u u := ⟨rfl, rfl, rfl, rfl, rfl, rfl⟩

theorem userKept_trans {a b c : User} (h1 : UserKept a b) (h2 : UserKept b c) : UserKept a c :=
  ⟨h2.1.trans h1.1, h2.2.1.trans h1.2.1, h2.2.2.1.trans h1.2.2.1,
    h2.2.2.2.1.trans h1.2.2.2.1, h2.2.2.2.2.1.trans h1.2.2.2.2.1,
    h2.2.2.2.2.2.trans h1.2.2.2.2.2⟩

theorem evolves_refl (revoked : String → Nat → Bool) (db : Db) : Evolves revoked db db :=
  ⟨id, [], id, [], by simp, rowKept_refl, fun _ _ => rfl, by simp, by simp, userKept_refl⟩

theorem evolves_mono {P Q : String → Nat → Bool} {db db' : Db}
    (hPQ : ∀ t u, Q t u = false → P t u = false) (h : Evolves P db db') : Evolves Q db db' := by
  obtain ⟨f, extra, g, extraU, h1, h2, h3, h4, h5, h6⟩ := h
  exact ⟨f, extra, g, extraU, h1, h2, fun r hr => h3 r (hPQ _ _ hr), h4, h5, h6⟩

theorem evolves_trans {P Q : String → Nat → Bool} {db db1 db2 : Db}
    (h1 : Evolves P db db1) (h2 : Evolves Q db1 db2) :
    Evolves (fun t u => P t u || Q t u) db db2 := by
  obtain ⟨f1, e1, g1, eU1, ht1, hk1, hf1, hx1, hu1, hg1⟩ := h1
  obtain ⟨f2, e2, g2, eU2, ht2, hk2, hf2, hx2, hu2, hg2⟩ := h2
  refine ⟨f2 ∘ f1, e1.map f2 ++ e2, g2 ∘ g1, eU1.map g2 ++ eU2, ?_, ?_, ?_, ?_, ?_, ?_⟩
  · rw [ht2, ht1]
    simp [List.map_append]
  · intro r
    exact rowKept_trans (hk1 r) (hk2 (f1 r))
  · intro r hr
    simp only [Bool.or_eq_false_iff] at hr
    have e1 := hf1 r hr.1
    simp only [Function.comp]
    rw [e1]
    exact hf2 r hr.2
  · intro x hx r hr
    rcases List.mem_append.mp hx with hx | hx
    · obtain ⟨y, hy, rfl⟩ := List.mem_map.mp hx
      rw [(hk2 y).2.2.1]
      exact hx1 y hy r hr
    · have hmem : f1 r ∈ db1.refresh_tokens := by
        rw [ht1]
        exact List.mem_append_left _ (List.mem_map_of_mem f1 hr)
      have := hx2 x hx (f1 r) hmem
      rwa [(hk1 r).2.2.1] at this
  · rw [hu2, hu1]
    simp [List.map_append]
  · intro u
    exact userKept_trans (hg1 u) (hg2 (g1 u))

/-- A statement that only rewrites account rows, keeping the columns of `UserKept`. -/
theorem evolves_users_map (db : Db) (g : User → User) (hg : ∀ u, UserKept u (g u)) :
    Evolves (fun _ _ => false) db { db with users := db.users.map g } :=
  ⟨id, [], g, [], by simp, rowKept_refl, fun _ _ => rfl, by simp, by simp, hg⟩

theorem evolves_updateFailedAttempts (db : Db) (failedAttempts : Int) (lockUntil : Option Nat)
    (id : Nat) : Evolves (fun _ _ => false) db (updateFailedAttempts db failedAttempts lockUntil id)
    := by
  unfold updateFailedAttempts
  apply evolves_users_map
  intro u
  by_cases h : u.id = id
  · rw [if_pos h]
    cases lockUntil <;> exact ⟨rfl, rfl, rfl, rfl, rfl, rfl⟩
  · rw [if_neg h]
    exact userKept_refl u

theorem evolves_resetFailedAttempts (db : Db) (now id : Nat) :
    Evolves (fun _ _ => false) db (resetFailedAttempts db now id) := by
  unfold resetFailedAttempts
  apply evolves_users_map
  intro u
  by_cases h : u.id = id
  · rw [if_pos h]
    exact ⟨rfl, rfl, rfl, rfl, rfl, rfl⟩
  · rw [if_neg h]
    exact userKept_refl u

theorem evolves_updatePasswordHash (db : Db) (password_hash : String) (id : Nat) :
    Evolves (fun _ _ => false) db (updatePasswordHash db password_hash id) := by
  unfold updatePasswordHash
  apply evolves_users_map
  intro u
  by_cases h : u.id = id
  · rw [if_pos h]
    exact ⟨rfl, rfl, rfl, rfl, rfl, rfl⟩
  · rw [if_neg h]
    exact userKept_refl u

theorem evolves_insertUser {db db1 : Db} {email password_hash name role : String}
    {created_at rowid : Nat}
    (h : insertUser db email password_hash name role created_at = .ok (rowid, db1)) :
    Evolves (fun _ _ => false) db db1 := by
  unfold insertUser at h
  split at h
  · cases h
  · split at h
    · cases h
    · simp only [Except.ok.injEq, Prod.mk.injEq] at h
      obtain ⟨_, rfl⟩ := h
      exact ⟨id, [], id, _, by simp, rowKept_refl, fun _ _ => rfl, by simp,
        by rw [List.map_id], userKept_refl⟩

theorem insertRefreshToken_ok_inv {db db1 : Db} {token : String}
    {user_id expires_at created_at : Nat}
    (h : insertRefreshToken db user_id token expires_at created_at = .ok db1) :
    (∀ r ∈ db.refresh_tokens, r.token ≠ token) ∧ db1.users = db.users ∧
    db1.users_seq = db.users_seq ∧
    db1.refresh_tokens = db.refresh_tokens ++
      [{ id := nextRowid db.refresh_tokens_seq (db.refresh_tokens.map (fun r => r.id)),
         user_id := user_id, token := token, expires_at := expires_at, revoked_at := none,
         created_at := created_at }] := by
  unfold insertRefreshToken at h
  split at h
  · cases h
  · rename_i hany
    split at h
    · cases h
    · simp only [Except.ok.injEq] at h
      subst h
      refine ⟨?_, rfl, rfl, rfl⟩
      intro r hr heq
      apply hany
      rw [List.any_eq_true]
      exact ⟨r, hr, by simpa using heq⟩

theorem evolves_insertRefreshToken {db db1 : Db} {token : String}
    {user_id expires_at created_at : Nat}
    (h : insertRefreshToken db user_id token expires_at created_at = .ok db1) :
    Evolves (fun _ _ => false) db db1 := by
  obtain ⟨hfresh, hu, _, ht⟩ := insertRefreshToken_ok_inv h
  refine ⟨id, _, id, [], by rw [ht, List.map_id], rowKept_refl, fun _ _ => rfl, ?_,
    by rw [hu]; simp, userKept_refl⟩
  intro x hx r hr
  rw [List.mem_singleton] at hx
  subst hx
  exact fun heq => hfresh r hr heq.symm

theorem evolves_revokeByToken (db : Db) (now : Nat) (token : String) :
    Evolves (fun t _ => decide (token = t)) db (revokeByToken db now token) := by
  refine ⟨fun r => if r.token = token then { r with revoked_at := some now } else r, [], id, [],
    by simp [revokeByToken], ?_, ?_, by simp, by simp [revokeByToken], userKept_refl⟩
  · intro r
    beta_reduce
    by_cases h : r.token = token
    · rw [if_pos h]
      exact ⟨rfl, rfl, rfl, rfl, rfl, fun _ => Option.some_ne_none now⟩
    · rw [if_neg h]
      exact rowKept_refl r
  · intro r hr
    have : ¬ r.token = token := by
      intro h
      simp [h] at hr
    simp only [this, if_false]

theorem evolves_revokeByUser (db : Db) (now : Nat) (user_id : Nat) :
    Evolves (fun _ u => decide (user_id = u)) db (revokeByUser db now user_id) := by
  refine ⟨fun r => if r.user_id = user_id then { r with revoked_at := some now } else r, [], id,
    [], by simp [revokeByUser], ?_, ?_, by simp, by simp [revokeByUser], userKept_refl⟩
  · intro r
    beta_reduce
    by_cases h : r.user_id = user_id
    · rw [if_pos h]
      exact ⟨rfl, rfl, rfl, rfl, rfl, fun _ => Option.some_ne_none now⟩
    · rw [if_neg h]
      exact rowKept_refl r
  · intro r hr
    have : ¬ r.user_id = user_id := by
      intro h
      simp [h] at hr
    simp only [this, if_false]

theorem evolves_never {db db' : Db} (P : String → Nat → Bool)
    (h : Evolves (fun _ _ => false) db db') : Evolves P db db' :=
  evolves_mono (fun _ _ _ => rfl) h

theorem evolves_never_trans {db db1 db2 : Db} (h1 : Evolves (fun _ _ => false) db db1)
    (h2 : Evolves (fun _ _ => false) db1 db2) : Evolves (fun _ _ => false) db db2 :=
  evolves_mono (fun _ _ _ => rfl) (evolves_trans h1 h2)

theorem evolves_login (env : Env) (db : Db) (now : Nat) (email password : String) :
    Evolves (fun _ _ => false) db (AuthService.login env db now email password).2 := by
  cases hu : selectUserByEmail db email with
  | none => rw [login_no_account now password hu]; exact evolves_refl _ db
  | some u =>
    by_cases hact : u.is_active = 0
    · rw [login_disabled now password hu hact]; exact evolves_refl _ db
    · cases hl : isLocked u.locked_until now with
      | true =>
        have : (AuthService.login env db now email password).2 = db := by
          simp [AuthService.login, hu, hact, hl]
        rw [this]; exact evolves_refl _ db
      | false =>
        have hnl : ∀ t, u.locked_until = some t → t ≤ now := by
          intro t ht
          rw [ht] at hl
          simpa [isLocked] using hl
        cases hpw : env.bcryptCompare password u.password_hash with
        | false =>
          rw [login_wrong_password hu hact hnl hpw]
          exact evolves_updateFailedAttempts db _ _ u.id
        | true =>
          rw [login_correct_password hu hact hnl hpw]
          cases hins : insertRefreshToken (resetFailedAttempts db now u.id) u.id
              (generateRefreshToken env now u.toPublic) (now + 7 * 24 * 60 * 60 * 1000) now with
          | error msg => exact evolves_resetFailedAttempts db now u.id
          | ok db2 =>
            exact evolves_never_trans (evolves_resetFailedAttempts db now u.id)
              (evolves_insertRefreshToken hins)

theorem evolves_register (env : Env) (db : Db) (now salt : Nat) (email password name : String)
    (role : Option String) :
    Evolves (fun _ _ => false) db
      (AuthService.register env db now salt email password name role).2 := by
  unfold AuthService.register
  simp only []
  split
  · exact evolves_refl _ db
  · split
    · exact evolves_refl _ db
    · split
      · exact evolves_refl _ db
      · split
        · exact evolves_refl _ db
        · rename_i id db1 hins
          split
          · exact evolves_insertUser hins
          · rename_i db2 hins2
            exact evolves_never_trans (evolves_insertUser hins) (evolves_insertRefreshToken hins2)

theorem evolves_changePassword (env : Env) (db : Db) (now salt userId : Nat)
    (currentPassword newPassword : String) :
    Evolves (fun _ u => decide (userId = u)) db
      (AuthService.changePassword env db now salt userId currentPassword newPassword).2 := by
  unfold AuthService.changePassword
  split
  · exact evolves_refl _ db
  · split
    · exact evolves_refl _ db
    · simp only []
      split
      · exact evolves_refl _ db
      · exact evolves_mono (fun _ _ h => by simpa using h)
          (evolves_trans (evolves_updatePasswordHash db _ userId)
            (evolves_revokeByUser _ now userId))

/-- One call of the service keeps every row; it touches a token row only if it is a `logout`
of its token or a `changePassword` of its owner. -/
theorem evolves_call (env : Env) (db : Db) (call : Call) :
    Evolves (fun t u => call.revokes t u) db (call.run env db).2 := by
  cases call with
  | register now salt email password name role =>
    exact evolves_never _ (evolves_register env db now salt email password name role)
  | login now email password => exact evolves_never _ (evolves_login env db now email password)
  | refreshAccessToken now refreshToken =>
    simp only [Call.run, refresh_db]
    exact evolves_refl _ db
  | logout now refreshToken =>
    cases refreshToken with
    | text token => exact evolves_revokeByToken db now token
    | unbindable => exact evolves_refl _ db
  | changePassword now salt userId currentPassword newPassword =>
    exact evolves_changePassword env db now salt userId currentPassword newPassword

/-- Any sequence of calls keeps every row; it touches a token row only if one of the calls is
a `logout` of its token or a `changePassword` of its owner. -/
theorem evolves_runCalls (env : Env) :
    ∀ (calls : List Call) (db : Db),
      Evolves (fun t u => calls.any (fun c => c.revokes t u)) db (runCalls env db calls) := by
  intro calls
  induction calls with
  | nil => intro db; exact evolves_refl _ db
  | cons call rest ih =>
    intro db
    have h := evolves_trans (evolves_call env db call) (ih (call.run env db).2)
    exact evolves_mono (fun t u hq => by simpa [List.any_cons] using hq) h

theorem find?_of_imp {α : Type} (p q : α → Bool) (l : List α) (a : α)
    (h : l.find? p = some a) (hq : q a = true) (himp : ∀ x, q x = true → p x = true) :
    l.find? q = some a := by
  induction l with
  | nil => simp at h
  | cons x l ih =>
    rw [List.find?_cons] at h ⊢
    cases hp : p x
    · rw [hp] at h
      have hqx : q x = false := by
        cases hqx : q x
        · rfl
        · rw [himp x hqx] at hp; cases hp
      rw [hqx]
      exact ih h
    · rw [hp] at h
      simp only [Option.some.injEq] at h
      subst h
      rw [hq]

/-- A token lookup that finds a row finds the same row at every later time before the row
expires. -/
theorem selectRefreshToken_later {db : Db} {token : String} {t1 t2 : Nat}
    {row : RefreshTokenRow} (h : selectRefreshToken db token t1 = some row) (hle : t1 ≤ t2)
    (hexp : t2 < row.expires_at) : selectRefreshToken db token t2 = some row := by
  have hr := selectRefreshToken_some h
  unfold selectRefreshToken at h ⊢
  refine find?_of_imp _ _ _ _ h (by simp [hr.2.1, hexp]) ?_
  intro x hx
  simp only [Bool.and_eq_true, decide_eq_true_eq] at hx ⊢
  exact ⟨hx.1, by omega⟩

theorem evolves_selectRefreshToken {P : String → Nat → Bool} {db db' : Db} {token : String}
    {now : Nat} {row : RefreshTokenRow} (h : Evolves P db db')
    (hsel : selectRefreshToken db token now = some row)
    (hP : P row.token row.user_id = false) : selectRefreshToken db' token now = some row := by
  obtain ⟨f, extra, g, extraU, ht, hk, hf, _, _, _⟩ := h
  unfold selectRefreshToken at hsel ⊢
  rw [ht]
  apply find?_append_of_some
  rw [find?_map_comm _ f (fun x => by rw [(hk x).2.2.1, (hk x).2.2.2.1]), hsel]
  simp [hf row hP]

theorem evolves_selectActiveUserById {P : String → Nat → Bool} {db db' : Db} {id : Nat}
    {u : User} (h : Evolves P db db') (hsel : selectActiveUserById db id = some u) :
    ∃ u', selectActiveUserById db' id = some u' ∧ UserKept u u' := by
  obtain ⟨f, extra, g, extraU, _, _, _, _, hu, hg⟩ := h
  refine ⟨g u, ?_, hg u⟩
  unfold selectActiveUserById at hsel ⊢
  rw [hu]
  apply find?_append_of_some
  rw [find?_map_comm _ g (fun x => by rw [(hg x).1, (hg x).2.2.2.2.1]), hsel]
  rfl

/-- Once every row holding a token string is revoked, it stays so: later rows cannot hold the
string, and no statement clears `revoked_at`. -/
theorem evolves_revoked {P : String → Nat → Bool} {db db' : Db} {token : String}
    (h : Evolves P db db') (hex : ∃ r ∈ db.refresh_tokens, r.token = token)
    (hall : ∀ r ∈ db.refresh_tokens, r.token = token → r.revoked_at ≠ none) :
    ∀ r ∈ db'.refresh_tokens, r.token = token → r.revoked_at ≠ none := by
  obtain ⟨f, extra, g, extraU, ht, hk, _, hx, _, _⟩ := h
  intro r hr htok
  rw [ht] at hr
  rcases List.mem_append.mp hr with hr | hr
  · obtain ⟨r0, hr0, rfl⟩ := List.mem_map.mp hr
    have hk0 := hk r0
    exact hk0.2.2.2.2.2 (hall r0 hr0 (by rw [← hk0.2.2.1]; exact htok))
  · obtain ⟨r0, hr0, htok0⟩ := hex
    exact absurd (htok.trans htok0.symm) (hx r hr r0 hr0)

/-! ## Claims on the life of a refresh token -/

/-- C16: a successful `refreshAccessToken` returns an access token and no refresh token and
leaves the whole store as it was; and after any sequence of calls of the service that contains
no `logout` of that token and no `changePassword` of its owner, `refreshAccessToken` succeeds
for the same token at every later time before its expiry (the one signed into the token and
the one stored in its row). -/
theorem C16_refresh_reusable (env : Env) (db : Db) (t1 : Nat) (token : String)
    (hok : (AuthService.refreshAccessToken env db t1 token).1.success = true) :
    (∃ a, (AuthService.refreshAccessToken env db t1 token).1 =
      { success := true,
        data := some { user := none, accessToken := a, refreshToken := none } }) ∧
    (AuthService.refreshAccessToken env db t1 token).2 = db ∧
    ∃ c row, env.jwsDecode token env.JWT_REFRESH_SECRET = .ok c ∧
      selectRefreshToken db token t1 = some row ∧
      ∀ calls : List Call, (∀ call ∈ calls, call.revokes token row.user_id = false) →
        ∀ t2, t1 ≤ t2 → t2 / 1000 < c.exp → t2 < row.expires_at →
          (AuthService.refreshAccessToken env (runCalls env db calls) t2 token).1.success =
            true := by
  obtain ⟨hv, row, u, hsel, hrev, hu⟩ := refresh_success_inv hok
  obtain ⟨c, hc, htype⟩ := (verifyRefreshToken_valid_iff env t1 token).mp hv
  have hdec := ((jwtVerify_ok_iff env t1 token _ c).mp hc).1
  refine ⟨⟨_, by rw [refresh_ok hv hsel hrev hu]⟩, refresh_db env db t1 token, c, row, hdec,
    hsel, ?_⟩
  intro calls hcalls t2 hle hexp hrow
  have hev := evolves_runCalls env calls db
  have hP : (fun t u => calls.any (fun c => c.revokes t u)) row.token row.user_id = false := by
    simp only [(selectRefreshToken_some hsel).2.1]
    rw [Bool.eq_false_iff]
    intro hany
    rw [List.any_eq_true] at hany
    obtain ⟨call, hmem, hr⟩ := hany
    rw [hcalls call hmem] at hr
    cases hr
  have hsel2 := evolves_selectRefreshToken hev (selectRefreshToken_later hsel hle hrow) hP
  obtain ⟨u', hu', _⟩ := evolves_selectActiveUserById hev hu
  have hv2 : (verifyRefreshToken env t2 token).valid = true :=
    (verifyRefreshToken_valid_iff env t2 token).mpr
      ⟨c, (jwtVerify_ok_iff env t2 token _ c).mpr ⟨hdec, hexp⟩, htype⟩
  rw [refresh_ok hv2 hsel2 hrev hu']

/-- C16 on the store after one registration: the token refreshes at 9000 ms and again at
20000 ms, after six other calls. -/
theorem C16_refresh_reusable_witness :
    (AuthService.refreshAccessToken sampleEnv registeredDb 9000 anaToken).1.success = true ∧
    (AuthService.refreshAccessToken sampleEnv registeredDb 9000 anaToken).2 = registeredDb ∧
    (∀ call ∈ otherCalls, call.revokes anaToken 1 = false) ∧
    (AuthService.refreshAccessToken sampleEnv (runCalls sampleEnv registeredDb otherCalls) 20000
      anaToken).1.success = true :=
  by
    have h := C16_refresh_reusable sampleEnv registeredDb 9000 anaToken (by decide)
    obtain ⟨c, row, hc, hrow, hall⟩ := h.2.2
    have e1 : sampleEnv.jwsDecode anaToken sampleEnv.JWT_REFRESH_SECRET =
        .ok ⟨1, none, none, some "refresh", 5, 604805⟩ := rfl
    have e2 : selectRefreshToken registeredDb anaToken 9000 =
        some ⟨1, 1, anaToken, 604805000, none, 5000⟩ := by decide
    rw [e1] at hc
    rw [e2] at hrow
    have hc2 := (Except.ok.inj hc).symm
    have hrow2 := (Option.some.inj hrow).symm
    subst hc2
    subst hrow2
    exact ⟨by decide, h.2.1, by decide,
      hall otherCalls (by decide) 20000 (by decide) (by decide) (by decide)⟩

/-- C17: once the row holding a token string is revoked, `refreshAccessToken` does not succeed
for that string at any time after any sequence of `register`, `login`, `refreshAccessToken`,
`logout` and `changePassword` calls; and such a sequence keeps every refresh-token row of the
store in place with its columns, a non-null `revoked_at` staying non-null. The token string
identifies the row (`UNIQUE(token)`). -/
theorem C17_revoked_stays_revoked (env : Env) (db : Db) (token : String)
    (row : RefreshTokenRow) (hrow : row ∈ db.refresh_tokens) (htok : row.token = token)
    (hrev : row.revoked_at ≠ none)
    (huniq : ∀ r ∈ db.refresh_tokens, r.token = token → r = row) (calls : List Call) :
    (∀ now, (AuthService.refreshAccessToken env (runCalls env db calls) now token).1.success =
      false) ∧
    ∃ f extra, (runCalls env db calls).refresh_tokens = db.refresh_tokens.map f ++ extra ∧
      ∀ r, RowKept r (f r) := by
  have hev := evolves_runCalls env calls db
  constructor
  · intro now
    have hall := evolves_revoked hev ⟨row, hrow, htok⟩
      (fun r hr ht => by rw [huniq r hr ht]; exact hrev)
    cases hs : (AuthService.refreshAccessToken env (runCalls env db calls) now token).1.success
      with
    | false => rfl
    | true =>
      obtain ⟨_, r, u, hsel, hnone, _⟩ := refresh_success_inv hs
      have hr := selectRefreshToken_some hsel
      exact absurd hnone (hall r hr.1 hr.2.1)
  · obtain ⟨f, extra, _, _, ht, hk, _⟩ := hev
    exact ⟨f, extra, ht, hk⟩

/-- C17 on the store after `logout` of the registered token: after six more calls, among them
a successful `login`, the token is still refused. -/
theorem C17_revoked_stays_revoked_witness :
    (∀ r ∈ loggedOutDb.refresh_tokens, r.token = anaToken → r.revoked_at = some 8000) ∧
    (AuthService.refreshAccessToken sampleEnv (runCalls sampleEnv loggedOutDb otherCalls) 20000
      anaToken).1.success = false :=
  ⟨by decide,
    (C17_revoked_stays_revoked sampleEnv loggedOutDb anaToken
      { id := 1, user_id := 1, token := anaToken, expires_at := 604805000,
        revoked_at := some 8000, created_at := 5000 } (by decide) (by decide) (by decide)
      (by decide) otherCalls).1 20000⟩

/-! ## Issued tokens -/

/-- What a `login` that returns a refresh token has done. -/
theorem login_issued_inv {env : Env} {db : Db} {now : Nat} {email password : String}
    {pu : PublicUser} {a token : String}
    (h : (AuthService.login env db now email password).1.data =
      some { user := some pu, accessToken := a, refreshToken := some token }) :
    token = generateRefreshToken env now pu ∧
    (∀ r ∈ db.refresh_tokens, r.token ≠ token) ∧
    (AuthService.login env db now email password).2.refresh_tokens =
      db.refresh_tokens ++
        [{ id := nextRowid db.refresh_tokens_seq (db.refresh_tokens.map (fun r => r.id)),
           user_id := pu.id, token := token, expires_at := now + 7 * 24 * 60 * 60 * 1000,
           revoked_at := none, created_at := now }] := by
  cases hu : selectUserByEmail db email with
  | none => rw [login_no_account now password hu] at h; cases h
  | some u =>
    by_cases hact : u.is_active = 0
    · rw [login_disabled now password hu hact] at h; cases h
    · cases hl : isLocked u.locked_until now with
      | true => simp [AuthService.login, hu, hact, hl] at h
      | false =>
        have hnl : ∀ t, u.locked_until = some t → t ≤ now := by
          intro t ht
          rw [ht] at hl
          simpa [isLocked] using hl
        cases hpw : env.bcryptCompare password u.password_hash with
        | false => rw [login_wrong_password hu hact hnl hpw] at h; cases h
        | true =>
          rw [login_correct_password hu hact hnl hpw] at h ⊢
          cases hins : insertRefreshToken (resetFailedAttempts db now u.id) u.id
              (generateRefreshToken env now u.toPublic) (now + 7 * 24 * 60 * 60 * 1000) now with
          | error msg => rw [hins] at h; cases h
          | ok db2 =>
            rw [hins] at h
            simp only [Option.some.injEq, AuthData.mk.injEq] at h
            obtain ⟨hpu, _, htok⟩ := h
            subst hpu
            subst htok
            obtain ⟨hfresh, _, _, ht⟩ := insertRefreshToken_ok_inv hins
            exact ⟨rfl, hfresh, ht⟩

theorem insertUser_ok_inv {db db1 : Db} {email password_hash name role : String}
    {created_at rowid : Nat}
    (h : insertUser db email password_hash name role created_at = .ok (rowid, db1)) :
    db1.refresh_tokens = db.refresh_tokens ∧ db1.refresh_tokens_seq = db.refresh_tokens_seq ∧
    rowid = nextRowid db.users_seq (db.users.map (fun u => u.id)) ∧
    db1.users = db.users ++
      [{ id := rowid, email := email, password_hash := password_hash, name := name,
         role := role, is_active := 1, failed_login_attempts := some 0, locked_until := none,
         last_login_at := none, created_at := created_at, updated_at := none }] := by
  unfold insertUser at h
  split at h
  · cases h
  · split at h
    · cases h
    · simp only [Except.ok.injEq, Prod.mk.injEq] at h
      obtain ⟨hid, rfl⟩ := h
      subst hid
      exact ⟨rfl, rfl, rfl, rfl⟩

/-- What a `register` that returns a refresh token has done. -/
theorem register_issued_inv {env : Env} {db : Db} {now salt : Nat}
    {email password name : String} {role : Option String} {pu : PublicUser} {a token : String}
    (h : (AuthService.register env db now salt email password name role).1.data =
      some { user := some pu, accessToken := a, refreshToken := some token }) :
    token = generateRefreshToken env now pu ∧
    (∀ r ∈ db.refresh_tokens, r.token ≠ token) ∧
    (AuthService.register env db now salt email password name role).2.refresh_tokens =
      db.refresh_tokens ++
        [{ id := nextRowid db.refresh_tokens_seq (db.refresh_tokens.map (fun r => r.id)),
           user_id := pu.id, token := token, expires_at := now + 7 * 24 * 60 * 60 * 1000,
           revoked_at := none, created_at := now }] ∧
    (∀ u ∈ db.users, u.id ≠ pu.id) ∧
    (AuthService.register env db now salt email password name role).2.users =
      db.users ++
        [{ id := pu.id, email := email, password_hash := env.bcryptHash password 12 salt,
           name := name, role := role.getD "user", is_active := 1,
           failed_login_attempts := some 0, locked_until := none, last_login_at := none,
           created_at := now, updated_at := none }] := by
  cases hz : env.zodEmail email with
  | false => simp [AuthService.register, hz] at h
  | true =>
    cases hv : (validatePasswordStrength password).valid with
    | false => simp [AuthService.register, hz, hv] at h
    | true =>
      cases hs : selectUserByEmail db email with
      | some u => simp [AuthService.register, hz, hv, hs] at h
      | none =>
        cases hi : insertUser db email (env.bcryptHash password 12 salt) name
            (role.getD "user") now with
        | error msg => simp [AuthService.register, hz, hv, hs, hi] at h
        | ok p =>
          obtain ⟨rowid, db1⟩ := p
          cases hi2 : insertRefreshToken db1 rowid
              (generateRefreshToken env now
                { id := rowid, email := email, name := name, role := role.getD "user" })
              (now + 7 * 24 * 60 * 60 * 1000) now with
          | error msg => simp [AuthService.register, hz, hv, hs, hi, hi2] at h
          | ok db2 =>
            have hreg : AuthService.register env db now salt email password name role =
                ({ success := true,
                   data := some
                    { user := some { id := rowid, email := email, name := name,
                                     role := role.getD "user" },
                      accessToken := generateAccessToken env now
                        { id := rowid, email := email, name := name, role := role.getD "user" },
                      refreshToken := some (generateRefreshToken env now
                        { id := rowid, email := email, name := name,
                          role := role.getD "user" }) } }, db2) := by
              simp [AuthService.register, hz, hv, hs, hi, hi2]
            rw [hreg] at h ⊢
            simp only [Option.some.injEq, AuthData.mk.injEq] at h
            obtain ⟨hpu, _, htok⟩ := h
            subst hpu
            subst htok
            obtain ⟨hfresh, hu2, _, ht⟩ := insertRefreshToken_ok_inv hi2
            obtain ⟨ht1, hs1, hid, hu1⟩ := insertUser_ok_inv hi
            rw [ht1] at hfresh
            refine ⟨rfl, hfresh, ?_, ?_, ?_⟩
            · simp only []
              rw [ht, ht1, hs1]
            · intro u hu heq
              have := lt_nextRowid db.users_seq (db.users.map (fun u => u.id)) u.id
                (List.mem_map_of_mem (fun u => u.id) hu)
              simp only [] at heq
              omega
            · simp only []
              rw [hu2, hu1]

/-- What a call that returns a refresh token has done: it is a `register` or a `login`, the
token is the one signed at its clock for the returned account, no row held it before, and the
call appended the row that holds it. -/
theorem issued_inv {env : Env} {db : Db} {call : Call} {pu : PublicUser} {a token : String}
    (h : (call.run env db).1.data =
      some { user := some pu, accessToken := a, refreshToken := some token }) :
    token = generateRefreshToken env call.now pu ∧
    (∀ r ∈ db.refresh_tokens, r.token ≠ token) ∧
    (call.run env db).2.refresh_tokens =
      db.refresh_tokens ++
        [{ id := nextRowid db.refresh_tokens_seq (db.refresh_tokens.map (fun r => r.id)),
           user_id := pu.id, token := token,
           expires_at := call.now + 7 * 24 * 60 * 60 * 1000, revoked_at := none,
           created_at := call.now }] := by
  cases call with
  | register now salt email password name role =>
    have := register_issued_inv h
    exact ⟨this.1, this.2.1, this.2.2.1⟩
  | login now email password => exact login_issued_inv h
  | refreshAccessToken now refreshToken =>
    exfalso
    simp only [Call.run] at h
    cases hs : (AuthService.refreshAccessToken env db now refreshToken).1.success with
    | true =>
      obtain ⟨hv, row, u, hsel, hrev, hu⟩ := refresh_success_inv hs
      rw [refresh_ok hv hsel hrev hu] at h
      simp at h
    | false =>
      unfold AuthService.refreshAccessToken at h hs
      simp only [] at h hs
      split at h
      · cases h
      · split at h
        · cases h
        · split at h
          · cases h
          · split at h
            · cases h
            · simp at h
  | logout now refreshToken => cases refreshToken <;> cases h
  | changePassword now salt userId currentPassword newPassword =>
    exfalso
    simp only [Call.run] at h
    unfold AuthService.changePassword at h
    split at h
    · cases h
    · split at h
      · cases h
      · simp only [] at h
        split at h <;> cases h

/-- C14: take a refresh token that a `register` or `login` call has just returned, an account
with the returned id that is active in the store (`is_active = 1`), and a time before the expiry
signed into the token. Then `refreshAccessToken` succeeds and returns an access token that
`jwt.verify` accepts under the access secret and that carries the account's id, email and role;
and once `logout` has been called with the refresh token, `refreshAccessToken` returns
`TOKEN_REVOKED` for it. The one hypothesis on the library is its law `JwtRoundTrip`: what the
refresh token and the new access token decode to follows from `generateRefreshToken` and
`generateAccessToken`. -/
theorem C14_issued_token_refreshes (env : Env) (hlaw : JwtRoundTrip env) (db : Db)
    (call : Call) (pu : PublicUser) (a token : String)
    (hissued : (call.run env db).1.data =
      some { user := some pu, accessToken := a, refreshToken := some token })
    (t1 : Nat) (hexp : t1 / 1000 < call.now / 1000 + REFRESH_TOKEN_EXPIRY)
    (u : User) (hact : selectActiveUserById (call.run env db).2 pu.id = some u) :
    (AuthService.refreshAccessToken env (call.run env db).2 t1 token).1 =
      { success := true,
        data := some { user := none, accessToken := generateAccessToken env t1 u.toPublic,
                       refreshToken := none } } ∧
    jwtVerify env t1 (generateAccessToken env t1 u.toPublic) env.JWT_SECRET =
      .ok { userId := u.id, email := some u.email, role := some u.role, type := none,
            iat := t1 / 1000, exp := t1 / 1000 + ACCESS_TOKEN_EXPIRY } ∧
    u.id = pu.id ∧ u.is_active = 1 ∧
    ∀ tl t2, t2 / 1000 < call.now / 1000 + REFRESH_TOKEN_EXPIRY →
      (AuthService.refreshAccessToken env
        (AuthService.logout (call.run env db).2 tl (.text token)).2 t2 token).1 =
        { success := false, error := some "Token de actualización revocado",
          code := some "TOKEN_REVOKED" } := by
  obtain ⟨hgen, hfresh, htokens⟩ := issued_inv hissued
  have hdec : env.jwsDecode token env.JWT_REFRESH_SECRET =
      .ok { userId := pu.id, email := none, role := none, type := some "refresh",
            iat := call.now / 1000, exp := call.now / 1000 + REFRESH_TOKEN_EXPIRY } := by
    rw [hgen]
    exact (hlaw _).2
  have hdecA : env.jwsDecode (generateAccessToken env t1 u.toPublic) env.JWT_SECRET =
      .ok { userId := u.id, email := some u.email, role := some u.role, type := none,
            iat := t1 / 1000, exp := t1 / 1000 + ACCESS_TOKEN_EXPIRY } := (hlaw _).1
  have hvalid : ∀ t, t / 1000 < call.now / 1000 + REFRESH_TOKEN_EXPIRY →
      (verifyRefreshToken env t token).valid = true := fun t ht =>
    (verifyRefreshToken_valid_iff env t token).mpr
      ⟨_, (jwtVerify_ok_iff env t token _ _).mpr ⟨hdec, ht⟩, rfl⟩
  have hsel : ∀ t, t / 1000 < call.now / 1000 + REFRESH_TOKEN_EXPIRY →
      selectRefreshToken (call.run env db).2 token t =
        some { id := nextRowid db.refresh_tokens_seq (db.refresh_tokens.map (fun r => r.id)),
               user_id := pu.id, token := token,
               expires_at := call.now + 7 * 24 * 60 * 60 * 1000, revoked_at := none,
               created_at := call.now } := by
    intro t ht
    have hnone : db.refresh_tokens.find?
        (fun r => decide (r.token = token) && decide (t < r.expires_at)) = none := by
      rw [List.find?_eq_none]
      intro r hr
      simp [hfresh r hr]
    have hlt : t < call.now + 7 * 24 * 60 * 60 * 1000 := by
      unfold REFRESH_TOKEN_EXPIRY at ht
      omega
    unfold selectRefreshToken
    rw [htokens, List.find?_append, hnone]
    simp [List.find?_cons, hlt]
  have hu := selectActiveUserById_some hact
  refine ⟨?_, ?_, hu.2.1, hu.2.2, ?_⟩
  · rw [refresh_ok (hvalid t1 hexp) (hsel t1 hexp) rfl hact]
  · refine (jwtVerify_ok_iff env t1 _ _ _).mpr ⟨hdecA, ?_⟩
    show t1 / 1000 < t1 / 1000 + ACCESS_TOKEN_EXPIRY
    unfold ACCESS_TOKEN_EXPIRY
    omega
  · intro tl t2 ht2
    have hsel2 : selectRefreshToken
        (AuthService.logout (call.run env db).2 tl (.text token)).2 token t2 =
        some { id := nextRowid db.refresh_tokens_seq (db.refresh_tokens.map (fun r => r.id)),
               user_id := pu.id, token := token,
               expires_at := call.now + 7 * 24 * 60 * 60 * 1000, revoked_at := some tl,
               created_at := call.now } := by
      have h0 := hsel t2 ht2
      unfold selectRefreshToken at h0 ⊢
      simp only [AuthService.logout, revokeByToken]
      rw [find?_map_comm _ _ (fun x => by by_cases hx : x.token = token <;> simp [hx]), h0]
      simp
    rw [refresh_revoked (hvalid t2 ht2) hsel2 (Option.some_ne_none tl)]

/-- C14 on the store after one registration, with libraries that obey the law: the token of a
`login` at 11000 ms refreshes at 20000 ms, and is refused after `logout`. -/
theorem C14_issued_token_refreshes_witness :
    JwtRoundTrip codecEnv ∧
    (AuthService.login codecEnv codecRegisteredDb 11000 "ana@x.io" "Abcdef1!").1.data =
      some { user := some ana.toPublic,
             accessToken := generateAccessToken codecEnv 11000 ana.toPublic,
             refreshToken := some (generateRefreshToken codecEnv 11000 ana.toPublic) } ∧
    selectActiveUserById
      (AuthService.login codecEnv codecRegisteredDb 11000 "ana@x.io" "Abcdef1!").2 1 =
        some anaLoggedIn ∧
    (AuthService.refreshAccessToken codecEnv
      (AuthService.login codecEnv codecRegisteredDb 11000 "ana@x.io" "Abcdef1!").2 20000
      (generateRefreshToken codecEnv 11000 ana.toPublic)).1.success = true ∧
    (AuthService.refreshAccessToken codecEnv
      (AuthService.logout
        (AuthService.login codecEnv codecRegisteredDb 11000 "ana@x.io" "Abcdef1!").2 21000
        (.text (generateRefreshToken codecEnv 11000 ana.toPublic))).2 22000
      (generateRefreshToken codecEnv 11000 ana.toPublic)).1.code = some "TOKEN_REVOKED" := by
  have h := C14_issued_token_refreshes codecEnv (jwtRoundTrip_of_codec codecEnv rfl rfl)
    codecRegisteredDb (.login 11000 "ana@x.io" "Abcdef1!") ana.toPublic
    (generateAccessToken codecEnv 11000 ana.toPublic)
    (generateRefreshToken codecEnv 11000 ana.toPublic) (by decide) 20000 (by decide)
    anaLoggedIn (by decide)
  refine ⟨jwtRoundTrip_of_codec codecEnv rfl rfl, by decide, by decide, ?_, ?_⟩
  · have h1 := h.1
    simp only [Call.run] at h1
    rw [h1]
  · have h2 := h.2.2.2.2 21000 22000 (by decide)
    simp only [Call.run] at h2
    rw [h2]

/-! ## Claims on a successful `changePassword` -/

theorem filter_ne_user_revoke (id now : Nat) (l : List RefreshTokenRow) :
    (l.map (fun r => if r.user_id = id then { r with revoked_at := some now } else r)).filter
        (fun r => decide (r.user_id ≠ id)) =
      l.filter (fun r => decide (r.user_id ≠ id)) := by
  induction l with
  | nil => rfl
  | cons a l ih =>
    by_cases h : a.user_id = id
    · rw [List.map_cons, if_pos h, List.filter_cons, List.filter_cons]
      simp only [h, ne_eq, not_true_eq_false, decide_False, Bool.false_eq_true, if_false]
      exact ih
    · rw [List.map_cons, if_neg h, List.filter_cons, List.filter_cons]
      simp only [h, ne_eq, not_false_eq_true, decide_True, if_true]
      rw [ih]

theorem selectUserById_some {db : Db} {id : Nat} {u : User}
    (h : selectUserById db id = some u) : u ∈ db.users ∧ u.id = id := by
  unfold selectUserById at h
  have h1 := List.find?_some h
  exact ⟨List.mem_of_find?_eq_some h, by simpa using h1⟩

/-- C19 (as stated) fails: the refresh token issued to the account at 5000 ms has expired
when the password is changed at 700 000 000 ms; the change revokes its row, and
`refreshAccessToken` right afterwards fails with `INVALID_REFRESH_TOKEN`, not `TOKEN_REVOKED`:
the token is verified, expiry included, before the store is looked at. -/
theorem C19_expired_token_not_reported_revoked :
    selectUserById registeredDb 1 = some ana ∧
    sampleEnv.bcryptCompare "Abcdef1!" ana.password_hash = true ∧
    (validatePasswordStrength "Str0ng!pw").valid = true ∧
    (∃ r ∈ registeredDb.refresh_tokens, r.user_id = 1 ∧ r.token = anaToken) ∧
    (AuthService.changePassword sampleEnv registeredDb 700000000 7 1 "Abcdef1!"
      "Str0ng!pw").1.success = true ∧
    (∀ r ∈ (AuthService.changePassword sampleEnv registeredDb 700000000 7 1 "Abcdef1!"
      "Str0ng!pw").2.refresh_tokens, r.revoked_at = some 700000000) ∧
    (AuthService.refreshAccessToken sampleEnv
      (AuthService.changePassword sampleEnv registeredDb 700000000 7 1 "Abcdef1!"
        "Str0ng!pw").2
      700000001 anaToken).1.code = some "INVALID_REFRESH_TOKEN" := by
  decide

/-- C19 (amended): for an existing account, `changePassword` with its correct current password
and a new password the policy accepts succeeds, stores the new hash and sets `revoked_at` to
now on every refresh-token row the account owns, leaving the rows of other accounts as they
were. Afterwards `refreshAccessToken` succeeds for no token whose rows the account owns, and
it returns `TOKEN_REVOKED` for such a token whenever the token still verifies and its row has
not expired (once it has, the earlier checks answer `INVALID_REFRESH_TOKEN` or
`TOKEN_NOT_FOUND`). -/
theorem C19_changePassword_revokes_all (env : Env) (db : Db) (now salt userId : Nat)
    (currentPassword newPassword : String) (u : User)
    (hu : selectUserById db userId = some u)
    (hpw : env.bcryptCompare currentPassword u.password_hash = true)
    (hstrong : (validatePasswordStrength newPassword).valid = true) :
    (AuthService.changePassword env db now salt userId currentPassword newPassword).1 =
      { success := true, message := some "Contraseña actualizada exitosamente" } ∧
    selectUserById
        (AuthService.changePassword env db now salt userId currentPassword newPassword).2
        userId =
      some { u with password_hash := env.bcryptHash newPassword 12 salt } ∧
    (AuthService.changePassword env db now salt userId currentPassword
        newPassword).2.refresh_tokens =
      db.refresh_tokens.map
        (fun r => if r.user_id = userId then { r with revoked_at := some now } else r) ∧
    (∀ r ∈ (AuthService.changePassword env db now salt userId currentPassword
        newPassword).2.refresh_tokens, r.user_id = userId → r.revoked_at = some now) ∧
    (AuthService.changePassword env db now salt userId currentPassword
        newPassword).2.refresh_tokens.filter (fun r => decide (r.user_id ≠ userId)) =
      db.refresh_tokens.filter (fun r => decide (r.user_id ≠ userId)) ∧
    (∀ token t2, (∀ r ∈ db.refresh_tokens, r.token = token → r.user_id = userId) →
      (AuthService.refreshAccessToken env
        (AuthService.changePassword env db now salt userId currentPassword newPassword).2 t2
        token).1.success = false) ∧
    ∀ token t2 row, selectRefreshToken db token t2 = some row → row.user_id = userId →
      (∃ c, jwtVerify env t2 token env.JWT_REFRESH_SECRET = .ok c ∧ c.type = some "refresh") →
      (AuthService.refreshAccessToken env
        (AuthService.changePassword env db now salt userId currentPassword newPassword).2 t2
        token).1.code = some "TOKEN_REVOKED" := by
  rw [changePassword_ok now salt hu hpw hstrong]
  have hmem : ∀ r ∈ db.refresh_tokens.map
      (fun r => if r.user_id = userId then { r with revoked_at := some now } else r),
      r.user_id = userId → r.revoked_at = some now := by
    intro r hr hid
    obtain ⟨r0, _, rfl⟩ := List.mem_map.mp hr
    by_cases h0 : r0.user_id = userId
    · rw [if_pos h0]
    · rw [if_neg h0] at hid
      exact absurd hid h0
  refine ⟨rfl, ?_, rfl, hmem, filter_ne_user_revoke userId now db.refresh_tokens, ?_, ?_⟩
  · have hid := (selectUserById_some hu).2
    unfold selectUserById at hu ⊢
    simp only [revokeByUser, updatePasswordHash]
    rw [find?_map_comm _ _ (fun x => by by_cases hx : x.id = userId <;> simp [hx]), hu]
    simp [hid]
  · intro token t2 hown
    cases hs : (AuthService.refreshAccessToken env
        (revokeByUser (updatePasswordHash db (env.bcryptHash newPassword 12 salt) userId) now
          userId) t2 token).1.success with
    | false => rfl
    | true =>
      obtain ⟨_, r, _, hsel, hnone, _⟩ := refresh_success_inv hs
      have hr := selectRefreshToken_some hsel
      obtain ⟨r0, hr0, hf⟩ := List.mem_map.mp hr.1
      have hid0 : r0.user_id = userId := by
        apply hown r0 hr0
        rw [← hr.2.1, ← hf]
        by_cases h0 : r0.user_id = userId
        · rw [if_pos h0]
        · rw [if_neg h0]
      have hrid : r.user_id = userId := by
        rw [← hf, if_pos hid0]
        exact hid0
      rw [hmem r hr.1 hrid] at hnone
      cases hnone
  · intro token t2 row hsel hown hv
    have hv2 := (verifyRefreshToken_valid_iff env t2 token).mpr hv
    have hsel2 : selectRefreshToken
        (revokeByUser (updatePasswordHash db (env.bcryptHash newPassword 12 salt) userId) now
          userId) token t2 = some { row with revoked_at := some now } := by
      unfold selectRefreshToken at hsel ⊢
      simp only [revokeByUser, updatePasswordHash]
      rw [find?_map_comm _ _ (fun x => by by_cases hx : x.user_id = userId <;> simp [hx]), hsel]
      simp [hown]
    rw [refresh_revoked hv2 hsel2 (Option.some_ne_none now)]

/-- C19 (amended) on the store after a registration and a second login: both tokens of the
account are revoked by the password change, and the first one is refused at 20000 ms. -/
theorem C19_changePassword_revokes_all_witness :
    selectUserById (AuthService.login sampleEnv registeredDb 11000 "ana@x.io" "Abcdef1!").2 1 =
      some anaLoggedIn ∧
    (AuthService.changePassword sampleEnv
      (AuthService.login sampleEnv registeredDb 11000 "ana@x.io" "Abcdef1!").2 15000 7 1
      "Abcdef1!" "Str0ng!pw").1.success = true ∧
    (AuthService.changePassword sampleEnv
      (AuthService.login sampleEnv registeredDb 11000 "ana@x.io" "Abcdef1!").2 15000 7 1
      "Abcdef1!" "Str0ng!pw").2.refresh_tokens.map (fun r => r.revoked_at) =
        [some 15000, some 15000] ∧
    (AuthService.refreshAccessToken sampleEnv
      (AuthService.changePassword sampleEnv
        (AuthService.login sampleEnv registeredDb 11000 "ana@x.io" "Abcdef1!").2 15000 7 1
        "Abcdef1!" "Str0ng!pw").2 20000 anaToken).1.code = some "TOKEN_REVOKED" := by
  have h := C19_changePassword_revokes_all sampleEnv
    (AuthService.login sampleEnv registeredDb 11000 "ana@x.io" "Abcdef1!").2 15000 7 1
    "Abcdef1!" "Str0ng!pw" anaLoggedIn (by decide) (by decide) (by decide)
  refine ⟨by decide, by rw [h.1], by decide, ?_⟩
  exact h.2.2.2.2.2.2 anaToken 20000 ⟨1, 1, anaToken, 604805000, none, 5000⟩ (by decide)
    (by decide) ⟨⟨1, none, none, some "refresh", 5, 604805⟩, rfl, rfl⟩

/-! ## Claims on the controllers and the middleware -/

/-- C26 (as stated) fails: `TOKEN_NOT_FOUND` from `refreshAccessToken` is answered 401, not
404; `USER_NOT_FOUND` from `changePassword` is answered 400, not 404; `LOGIN_ERROR` from
`login` is answered 401, not 500; and `REGISTRATION_ERROR` from `register` is answered 400,
not 500. -/
theorem C26_status_not_by_code :
    (AuthService.refreshAccessToken sampleEnv emptyDb 9000 anaToken).1.code =
      some "TOKEN_NOT_FOUND" ∧
    (AuthController.refresh
      (AuthService.refreshAccessToken sampleEnv emptyDb 9000 anaToken).1).status = 401 ∧
    (AuthService.changePassword sampleEnv registeredDb 9000 7 2 "Abcdef1!" "Str0ng!pw").1.code =
      some "USER_NOT_FOUND" ∧
    (AuthController.changePassword
      (AuthService.changePassword sampleEnv registeredDb 9000 7 2 "Abcdef1!"
        "Str0ng!pw").1).status = 400 ∧
    (AuthService.login sampleEnv registeredDb 5999 "ana@x.io" "Abcdef1!").1.code =
      some "LOGIN_ERROR" ∧
    (AuthController.login
      (AuthService.login sampleEnv registeredDb 5999 "ana@x.io" "Abcdef1!").1).status = 401 ∧
    (AuthService.register sampleEnv emptyDb 5000 7 "ana@x.io" "Abcdef1!" "Ana"
      (some "root")).1.code = some "REGISTRATION_ERROR" ∧
    (AuthController.register
      (AuthService.register sampleEnv emptyDb 5000 7 "ana@x.io" "Abcdef1!" "Ana"
        (some "root")).1).status = 400 := by
  decide

/-- C26 (amended): the auth controllers choose the status of a failed core result per
endpoint and send the result as the body: `register` answers 400 and `changePassword` answers
400 whatever the code, `refresh` answers 401 whatever the code, and `login` answers 423 for
`ACCOUNT_LOCKED` and 401 for every other code; no failed core result is answered 404 or 500.
-/
theorem C26_status_by_endpoint (result : Result) (hfail : result.success = false) :
    AuthController.register result = { status := 400, body := result } ∧
    AuthController.changePassword result = { status := 400, body := result } ∧
    AuthController.refresh result =
      { status := 401, body := result, clearRefreshCookie := true } ∧
    (result.code = some "ACCOUNT_LOCKED" →
      AuthController.login result = { status := 423, body := result }) ∧
    (result.code ≠ some "ACCOUNT_LOCKED" →
      AuthController.login result = { status := 401, body := result }) ∧
    (AuthController.login result).status ≠ 404 ∧ (AuthController.login result).status ≠ 500 := by
  refine ⟨by simp [AuthController.register, hfail],
    by simp [AuthController.changePassword, hfail],
    by simp [AuthController.refresh, hfail], ?_, ?_, ?_, ?_⟩
  · intro h
    simp [AuthController.login, hfail, h]
  · intro h
    simp [AuthController.login, hfail, h]
  · by_cases h : result.code = some "ACCOUNT_LOCKED" <;> simp [AuthController.login, hfail, h]
  · by_cases h : result.code = some "ACCOUNT_LOCKED" <;> simp [AuthController.login, hfail, h]

/-- C26 (amended) on the result of a `login` against the locked sample account. -/
theorem C26_status_by_endpoint_witness :
    (AuthService.login sampleEnv lockedDb 9000 "ana@x.io" "Abcdef1!").1.success = false ∧
    (AuthService.login sampleEnv lockedDb 9000 "ana@x.io" "Abcdef1!").1.code =
      some "ACCOUNT_LOCKED" ∧
    AuthController.login (AuthService.login sampleEnv lockedDb 9000 "ana@x.io" "Abcdef1!").1 =
      { status := 423,
        body := (AuthService.login sampleEnv lockedDb 9000 "ana@x.io" "Abcdef1!").1 } :=
  ⟨by decide, by decide,
    (C26_status_by_endpoint (AuthService.login sampleEnv lockedDb 9000 "ana@x.io" "Abcdef1!").1
      (by decide)).2.2.2.1 (by decide)⟩

/-- C27: the middleware `authorize(...allowedRoles)` calls `next()`, leaving `req.user` as it
is and sending nothing, if and only if `req.user` is set and its role is one of
`allowedRoles`; without `req.user` it answers 401 `NOT_AUTHENTICATED`, and with a role that is
not allowed it answers 403 `INSUFFICIENT_PERMISSIONS`; in both cases `next()` is not called.
-/
theorem C27_authorize (allowedRoles : List String) (user : Option ReqUser) :
    ((∃ passed, authorize allowedRoles user = .next passed) ↔
      ∃ u, user = some u ∧ u.role ∈ allowedRoles) ∧
    (∀ passed, authorize allowedRoles user = .next passed → passed = user) ∧
    (user = none →
      authorize allowedRoles user =
        .respond { status := 401, error := "Usuario no autenticado",
                   code := "NOT_AUTHENTICATED" }) ∧
    (∀ u, user = some u → u.role ∉ allowedRoles →
      authorize allowedRoles user =
        .respond { status := 403, error := "No tienes permisos para realizar esta acción",
                   code := "INSUFFICIENT_PERMISSIONS", requiredRoles := some allowedRoles,
                   userRole := some u.role }) := by
  cases user with
  | none =>
    refine ⟨⟨?_, ?_⟩, ?_, fun _ => rfl, ?_⟩
    · rintro ⟨passed, h⟩
      cases h
    · rintro ⟨u, h, _⟩
      cases h
    · intro passed h
      cases h
    · intro u h
      cases h
  | some u =>
    by_cases hr : u.role ∈ allowedRoles
    · have hc : allowedRoles.contains u.role = true := by simpa using hr
      have hn : authorize allowedRoles (some u) = .next (some u) := by
        simp only [authorize, hc, Bool.not_true, Bool.false_eq_true, if_false]
      refine ⟨⟨fun _ => ⟨u, rfl, hr⟩, fun _ => ⟨some u, hn⟩⟩, ?_, ?_, ?_⟩
      · intro passed h
        rw [hn] at h
        exact (Outcome.next.inj h).symm
      · intro h
        cases h
      · intro v hv hnot
        cases hv
        exact absurd hr hnot
    · have hc : allowedRoles.contains u.role = false := by simpa using hr
      have hd : authorize allowedRoles (some u) =
          .respond { status := 403, error := "No tienes permisos para realizar esta acción",
                     code := "INSUFFICIENT_PERMISSIONS", requiredRoles := some allowedRoles,
                     userRole := some u.role } := by
        simp only [authorize, hc, Bool.not_false, if_true]
      refine ⟨⟨?_, ?_⟩, ?_, ?_, ?_⟩
      · rintro ⟨passed, h⟩
        rw [hd] at h
        cases h
      · rintro ⟨v, hv, hmem⟩
        cases hv
        exact absurd hmem hr
      · intro passed h
        rw [hd] at h
        cases h
      · intro h
        cases h
      · intro v hv _
        cases hv
        exact hd

/-- C27 on `authorize('admin', 'user')`: a viewer is answered 403, an admin is passed on. -/
theorem C27_authorize_witness :
    "viewer" ∉ ["admin", "user"] ∧
    authorize ["admin", "user"] (some { id := 1, email := "ana@x.io", role := "viewer" }) =
      .respond { status := 403, error := "No tienes permisos para realizar esta acción",
                 code := "INSUFFICIENT_PERMISSIONS",
                 requiredRoles := some ["admin", "user"], userRole := some "viewer" } ∧
    ∃ passed, authorize ["admin", "user"]
      (some { id := 2, email := "bob@x.io", role := "admin" }) = .next passed :=
  ⟨by decide,
    (C27_authorize ["admin", "user"] (some { id := 1, email := "ana@x.io", role := "viewer" })
      ).2.2.2 { id := 1, email := "ana@x.io", role := "viewer" } rfl (by decide),
    (C27_authorize ["admin", "user"] (some { id := 2, email := "bob@x.io", role := "admin" })
      ).1.mpr ⟨{ id := 2, email := "bob@x.io", role := "admin" }, rfl, by decide⟩⟩

/-- The filter accepts every file whose lowercased extension and whose MIME type are in the
lists of the claim. -/
theorem fileFilter_listed (extname : String → String) (file : UploadFile)
    (hext : toLowerCase (extname file.originalname) ∈
      [".jpeg", ".jpg", ".png", ".webp", ".heic"])
    (hmime : file.mimetype ∈
      ["image/jpeg", "image/jpg", "image/png", "image/webp", "image/heic"]) :
    fileFilter extname file = .ok true := by
  have h1 : allowedTypes_test (toLowerCase (extname file.originalname)) = true := by
    simp only [List.mem_cons, List.mem_singleton, List.not_mem_nil, or_false] at hext
    rcases hext with h | h | h | h | h <;> rw [h] <;> decide
  have h2 : allowedTypes_test file.mimetype = true := by
    simp only [List.mem_cons, List.mem_singleton, List.not_mem_nil, or_false] at hmime
    rcases hmime with h | h | h | h | h <;> rw [h] <;> decide
  simp [fileFilter, h1, h2]

/-- The filter either accepts or rejects with its one error message. -/
theorem fileFilter_outcomes (extname : String → String) (file : UploadFile) :
    fileFilter extname file = .ok true ∨
      fileFilter extname file = .error "Solo se permiten imágenes (JPEG, PNG, WebP, HEIC)" := by
  unfold fileFilter
  simp only []
  split
  · exact Or.inl rfl
  · exact Or.inr rfl

/-- C28 at a failing input: the file `invoice.pngx` sent with MIME type `text/x-png-notes` has
an extension outside the five listed and a MIME type outside the five listed, and the filter
accepts it: the pattern `/jpeg|jpg|png|webp|heic/` is not anchored, so `png` inside `.pngx`
and inside `text/x-png-notes` is enough. -/
theorem C28_substring_match_accepted :
    sampleExtname "invoice.pngx" = ".pngx" ∧
    toLowerCase ".pngx" ∉ [".jpeg", ".jpg", ".png", ".webp", ".heic"] ∧
    "text/x-png-notes" ∉ ["image/jpeg", "image/jpg", "image/png", "image/webp", "image/heic"] ∧
    fileFilter sampleExtname { originalname := "invoice.pngx", mimetype := "text/x-png-notes" } =
      .ok true :=
  ⟨by decide, by decide, by decide, rfl⟩

/-! ## Claims on the shape of results -/

theorem validatePasswordStrength_error_isSome {password : String}
    (h : (validatePasswordStrength password).valid = false) :
    (validatePasswordStrength password).error.isSome = true := by
  unfold validatePasswordStrength at h ⊢
  split
  · rfl
  · split
    · rfl
    · rename_i h1 h2
      simp [h1, h2] at h

/-- C23 (as stated) fails: `logout` returns `success = true` without a data object, and so
does a successful `changePassword`; both carry a `message` instead. -/
theorem C23_success_without_data :
    (AuthService.logout registeredDb 8000 (.text anaToken)).1.success = true ∧
    (AuthService.logout registeredDb 8000 (.text anaToken)).1.data = none ∧
    (AuthService.logout registeredDb 8000 (.text anaToken)).1.message =
      some "Sesión cerrada exitosamente" ∧
    (AuthService.changePassword sampleEnv registeredDb 9000 7 1 "Abcdef1!"
      "Str0ng!pw").1.success = true ∧
    (AuthService.changePassword sampleEnv registeredDb 9000 7 1 "Abcdef1!"
      "Str0ng!pw").1.data = none := by
  decide

/-- C23 (amended): every result has one of three shapes. Every result of `register`, `login`
and `refreshAccessToken` has `success = true` together with a data object, or `success = false`
together with an error message and a code; every result of `logout` and of `changePassword`,
whatever the argument, has `success = true` together with a message and no data object, or
`success = false` together with an error message and a code. -/
theorem C23_result_shapes (env : Env) (db : Db) :
    (∀ now salt email password name role,
      ((AuthService.register env db now salt email password name role).1.success = true ∧
        (AuthService.register env db now salt email password name role).1.data.isSome = true) ∨
      ((AuthService.register env db now salt email password name role).1.success = false ∧
        (AuthService.register env db now salt email password name role).1.error.isSome = true ∧
        (AuthService.register env db now salt email password name role).1.code.isSome = true)) ∧
    (∀ now email password,
      ((AuthService.login env db now email password).1.success = true ∧
        (AuthService.login env db now email password).1.data.isSome = true) ∨
      ((AuthService.login env db now email password).1.success = false ∧
        (AuthService.login env db now email password).1.error.isSome = true ∧
        (AuthService.login env db now email password).1.code.isSome = true)) ∧
    (∀ now token,
      ((AuthService.refreshAccessToken env db now token).1.success = true ∧
        (AuthService.refreshAccessToken env db now token).1.data.isSome = true) ∨
      ((AuthService.refreshAccessToken env db now token).1.success = false ∧
        (AuthService.refreshAccessToken env db now token).1.error.isSome = true ∧
        (AuthService.refreshAccessToken env db now token).1.code.isSome = true)) ∧
    (∀ now (arg : TokenArg),
      ((AuthService.logout db now arg).1.success = true ∧
        (AuthService.logout db now arg).1.data = none ∧
        (AuthService.logout db now arg).1.message.isSome = true) ∨
      ((AuthService.logout db now arg).1.success = false ∧
        (AuthService.logout db now arg).1.error.isSome = true ∧
        (AuthService.logout db now arg).1.code.isSome = true)) ∧
    (∀ now salt userId currentPassword newPassword,
      ((AuthService.changePassword env db now salt userId currentPassword
          newPassword).1.success = true ∧
        (AuthService.changePassword env db now salt userId currentPassword
          newPassword).1.data = none ∧
        (AuthService.changePassword env db now salt userId currentPassword
          newPassword).1.message.isSome = true) ∨
      ((AuthService.changePassword env db now salt userId currentPassword
          newPassword).1.success = false ∧
        (AuthService.changePassword env db now salt userId currentPassword
          newPassword).1.error.isSome = true ∧
        (AuthService.changePassword env db now salt userId currentPassword
          newPassword).1.code.isSome = true)) := by
  refine ⟨?_, ?_, ?_, ?_, ?_⟩
  · intro now salt email password name role
    unfold AuthService.register
    simp only []
    split
    · exact Or.inr ⟨rfl, rfl, rfl⟩
    · split
      · rename_i hv
        refine Or.inr ⟨rfl, ?_, rfl⟩
        exact validatePasswordStrength_error_isSome (by simpa using hv)
      · split
        · exact Or.inr ⟨rfl, rfl, rfl⟩
        · split
          · exact Or.inr ⟨rfl, rfl, rfl⟩
          · split
            · exact Or.inr ⟨rfl, rfl, rfl⟩
            · exact Or.inl ⟨rfl, rfl⟩
  · intro now email password
    unfold AuthService.login
    split
    · exact Or.inr ⟨rfl, rfl, rfl⟩
    · split
      · exact Or.inr ⟨rfl, rfl, rfl⟩
      · split
        · exact Or.inr ⟨rfl, rfl, rfl⟩
        · split
          · exact Or.inr ⟨rfl, rfl, rfl⟩
          · simp only []
            split
            · exact Or.inr ⟨rfl, rfl, rfl⟩
            · exact Or.inl ⟨rfl, rfl⟩
  · intro now token
    unfold AuthService.refreshAccessToken
    simp only []
    split
    · exact Or.inr ⟨rfl, rfl, rfl⟩
    · split
      · exact Or.inr ⟨rfl, rfl, rfl⟩
      · split
        · exact Or.inr ⟨rfl, rfl, rfl⟩
        · split
          · exact Or.inr ⟨rfl, rfl, rfl⟩
          · exact Or.inl ⟨rfl, rfl⟩
  · intro now arg
    cases arg with
    | text token => exact Or.inl ⟨rfl, rfl, rfl⟩
    | unbindable => exact Or.inr ⟨rfl, rfl, rfl⟩
  · intro now salt userId currentPassword newPassword
    unfold AuthService.changePassword
    split
    · exact Or.inr ⟨rfl, rfl, rfl⟩
    · split
      · exact Or.inr ⟨rfl, rfl, rfl⟩
      · simp only []
        split
        · rename_i hv
          refine Or.inr ⟨rfl, ?_, rfl⟩
          exact validatePasswordStrength_error_isSome (by simpa using hv)
        · exact Or.inl ⟨rfl, rfl, rfl⟩

/-! ## Claims on the two kinds of token -/

theorem bearer_header (token : String) :
    ("Bearer " ++ token).data.isEmpty = false ∧
    "Bearer ".data.isPrefixOf ("Bearer " ++ token).data = true ∧
    String.mk (("Bearer " ++ token).data.drop 7) = token := by
  have h : ("Bearer " ++ token).data = 'B' :: 'e' :: 'a' :: 'r' :: 'e' :: 'r' :: ' ' ::
      token.data := by
    rw [String.data_append]
    rfl
  rw [h]
  refine ⟨rfl, ?_, rfl⟩
  show List.isPrefixOf ['B', 'e', 'a', 'r', 'e', 'r', ' ']
    ('B' :: 'e' :: 'a' :: 'r' :: 'e' :: 'r' :: ' ' :: token.data) = true
  simp [List.isPrefixOf]

/-- C30: access and refresh tokens are not interchangeable, whatever the two secrets are, equal
or not. `refreshAccessToken` applied to an access token the service signed returns
`INVALID_REFRESH_TOKEN` and writes nothing; `authenticate` applied to a refresh token the
service signed answers 401 and does not call `next()`, so `req.user` is not set. The one
hypothesis is the law `JwtSound` of the library: a token it accepts carries the payload that
was signed. That the access token has no type marker and the refresh token no email and role
follows from `generateAccessToken` and `generateRefreshToken`. -/
theorem C30_tokens_not_interchangeable (env : Env) (hlaw : JwtSound env) (db : Db)
    (t0 now : Nat) (user : PublicUser) :
    AuthService.refreshAccessToken env db now (generateAccessToken env t0 user) =
      ({ success := false, error := some "Token de actualización inválido",
         code := some "INVALID_REFRESH_TOKEN" }, db) ∧
    ∃ denial, authenticate env now (some ("Bearer " ++ generateRefreshToken env t0 user)) =
      .respond denial ∧ denial.status = 401 := by
  constructor
  · apply refresh_invalid
    rw [← Bool.not_eq_true, verifyRefreshToken_valid_iff]
    rintro ⟨c, hc, htype⟩
    have hdec := ((jwtVerify_ok_iff env now _ _ c).mp hc).1
    unfold generateAccessToken at hdec
    rw [hlaw _ _ _ _ hdec] at htype
    cases htype
  · obtain ⟨h1, h2, h3⟩ := bearer_header (generateRefreshToken env t0 user)
    unfold authenticate
    simp only [h1, h2, h3, Bool.not_true, Bool.or_self, Bool.false_eq_true, if_false]
    cases hd : env.jwsDecode (generateRefreshToken env t0 user) env.JWT_SECRET with
    | error msg => exact ⟨_, rfl, rfl⟩
    | ok c =>
      have hc : c = { userId := user.id, email := none, role := none, type := some "refresh",
                      iat := t0 / 1000, exp := t0 / 1000 + REFRESH_TOKEN_EXPIRY } := by
        unfold generateRefreshToken at hd
        exact hlaw _ _ _ _ hd
      subst hc
      simp only []
      split
      · exact ⟨_, rfl, rfl⟩
      · exact ⟨_, rfl, rfl⟩

/-- C30 with one secret for both kinds of token, on libraries that obey the law: the signature
of the access token is accepted under the refresh secret and the token is refused for its
missing type marker, and the refresh token is answered 401 by `authenticate`. -/
theorem C30_tokens_not_interchangeable_witness :
    JwtSound sharedSecretEnv ∧
    sharedSecretEnv.JWT_SECRET = sharedSecretEnv.JWT_REFRESH_SECRET ∧
    verifyRefreshToken sharedSecretEnv 9000
      (generateAccessToken sharedSecretEnv 5000 ana.toPublic) =
        { valid := false, error := some "Invalid token type" } ∧
    (AuthService.refreshAccessToken sharedSecretEnv registeredDb 9000
      (generateAccessToken sharedSecretEnv 5000 ana.toPublic)).1.code =
        some "INVALID_REFRESH_TOKEN" ∧
    ∃ denial, authenticate sharedSecretEnv 9000
      (some ("Bearer " ++ generateRefreshToken sharedSecretEnv 5000 ana.toPublic)) =
        .respond denial ∧ denial.status = 401 := by
  have h := C30_tokens_not_interchangeable sharedSecretEnv
    (jwtSound_of_codec sharedSecretEnv rfl rfl) registeredDb 5000 9000 ana.toPublic
  exact ⟨jwtSound_of_codec sharedSecretEnv rfl rfl, rfl, by decide, by rw [h.1], h.2⟩

/-! ## Claims that meet the same-second defect of `login` -/

/-- C22 at a failing input: for the active, unlocked sample account, the first `login` with the
correct password at 5000 ms succeeds; the second one at 5999 ms, in the same clock second,
returns `LOGIN_ERROR`, and afterwards the account owns one refresh-token row, not two. -/
theorem C22_two_logins_same_second :
    selectUserByEmail anaDb "ana@x.io" = some ana ∧ ana.is_active = 1 ∧
    ana.locked_until = none ∧ sampleEnv.bcryptCompare "Abcdef1!" ana.password_hash = true ∧
    (AuthService.login sampleEnv anaDb 5000 "ana@x.io" "Abcdef1!").1.success = true ∧
    (AuthService.login sampleEnv
      (AuthService.login sampleEnv anaDb 5000 "ana@x.io" "Abcdef1!").2 5999 "ana@x.io"
      "Abcdef1!").1.success = false ∧
    (AuthService.login sampleEnv
      (AuthService.login sampleEnv anaDb 5000 "ana@x.io" "Abcdef1!").2 5999 "ana@x.io"
      "Abcdef1!").1.code = some "LOGIN_ERROR" ∧
    ((AuthService.login sampleEnv
      (AuthService.login sampleEnv anaDb 5000 "ana@x.io" "Abcdef1!").2 5999 "ana@x.io"
      "Abcdef1!").2.refresh_tokens.filter (fun r => decide (r.user_id = 1))).length = 1 := by
  decide

/-- Two logins with the correct password whose refresh tokens are different strings, the
first not stored yet, both succeed, and the account then owns two more rows, with different
tokens and no `revoked_at`. -/
theorem login_twice_distinct_tokens {env : Env} {db : Db} {email password : String} {u : User}
    {now1 now2 : Nat} (hu : selectUserByEmail db email = some u) (hact : u.is_active ≠ 0)
    (hnl : ∀ t, u.locked_until = some t → t ≤ now1)
    (hpw : env.bcryptCompare password u.password_hash = true)
    (hfresh1 : ∀ r ∈ db.refresh_tokens, r.token ≠ generateRefreshToken env now1 u.toPublic)
    (hfresh2 : ∀ r ∈ db.refresh_tokens, r.token ≠ generateRefreshToken env now2 u.toPublic)
    (hne : generateRefreshToken env now1 u.toPublic ≠ generateRefreshToken env now2 u.toPublic) :
    (AuthService.login env db now1 email password).1.success = true ∧
    (AuthService.login env (AuthService.login env db now1 email password).2 now2 email
      password).1.success = true ∧
    ∃ r1 r2, (AuthService.login env (AuthService.login env db now1 email password).2 now2 email
        password).2.refresh_tokens = db.refresh_tokens ++ [r1, r2] ∧
      r1.token ≠ r2.token ∧ r1.user_id = u.id ∧ r2.user_id = u.id ∧
      r1.revoked_at = none ∧ r2.revoked_at = none ∧
      r1.expires_at = now1 + 7 * 24 * 60 * 60 * 1000 ∧
      r2.expires_at = now2 + 7 * 24 * 60 * 60 * 1000 := by
  rw [login_correct_password_fresh hu hact hnl hpw hfresh1]
  have hsel2 : selectUserByEmail
      { users := (resetFailedAttempts db now1 u.id).users,
        refresh_tokens := db.refresh_tokens ++
          [{ id := nextRowid db.refresh_tokens_seq (db.refresh_tokens.map (fun r => r.id)),
             user_id := u.id, token := generateRefreshToken env now1 u.toPublic,
             expires_at := now1 + 7 * 24 * 60 * 60 * 1000, revoked_at := none,
             created_at := now1 }],
        users_seq := db.users_seq,
        refresh_tokens_seq :=
          nextRowid db.refresh_tokens_seq (db.refresh_tokens.map (fun r => r.id)) } email =
      some { u with failed_login_attempts := some 0, locked_until := none,
                    last_login_at := some now1 } :=
    selectUserByEmail_resetFailedAttempts hu now1
  have h2 := @login_correct_password_fresh env _ _ password _ now2 hsel2 hact
    (fun t ht => by cases ht) hpw
    (by
      intro r hr
      rcases List.mem_append.mp hr with hr | hr
      · exact hfresh2 r hr
      · rw [List.mem_singleton] at hr
        subst hr
        exact hne)
  rw [h2]
  refine ⟨rfl, rfl,
    { id := nextRowid db.refresh_tokens_seq (db.refresh_tokens.map (fun r => r.id)),
      user_id := u.id, token := generateRefreshToken env now1 u.toPublic,
      expires_at := now1 + 7 * 24 * 60 * 60 * 1000, revoked_at := none, created_at := now1 },
    { id := nextRowid
        (nextRowid db.refresh_tokens_seq (db.refresh_tokens.map (fun r => r.id)))
        ((db.refresh_tokens ++
          [({ id := nextRowid db.refresh_tokens_seq (db.refresh_tokens.map (fun r => r.id)),
              user_id := u.id, token := generateRefreshToken env now1 u.toPublic,
              expires_at := now1 + 7 * 24 * 60 * 60 * 1000, revoked_at := none,
              created_at := now1 } : RefreshTokenRow)]).map (fun r => r.id)),
      user_id := u.id, token := generateRefreshToken env now2 u.toPublic,
      expires_at := now2 + 7 * 24 * 60 * 60 * 1000, revoked_at := none, created_at := now2 },
    ?_, hne, rfl, rfl, rfl, rfl, rfl, rfl⟩
  simp only [List.append_assoc, List.singleton_append]
  rfl

/-- C21 at a failing input: the account registered at 5000 ms is active and unlocked, its
password is changed with success at 5400 ms, and `login` with the new password at 5800 ms
returns `LOGIN_ERROR`: the refresh token it signs is the one `register` stored in the same
clock second, revoked by now but still in the table. The login with the old password is
refused with `INVALID_CREDENTIALS`. -/
theorem C21_login_after_change_same_second :
    (AuthService.changePassword sampleEnv registeredDb 5400 9 1 "Abcdef1!"
      "Str0ng!pw").1.success = true ∧
    sampleEnv.bcryptCompare "Str0ng!pw" (sampleEnv.bcryptHash "Str0ng!pw" 12 9) = true ∧
    sampleEnv.bcryptCompare "Abcdef1!" (sampleEnv.bcryptHash "Str0ng!pw" 12 9) = false ∧
    (selectUserByEmail
      (AuthService.changePassword sampleEnv registeredDb 5400 9 1 "Abcdef1!" "Str0ng!pw").2
      "ana@x.io").map (fun u => (u.is_active, u.locked_until)) = some (1, none) ∧
    (AuthService.login sampleEnv
      (AuthService.changePassword sampleEnv registeredDb 5400 9 1 "Abcdef1!" "Str0ng!pw").2
      5800 "ana@x.io" "Str0ng!pw").1.success = false ∧
    (AuthService.login sampleEnv
      (AuthService.changePassword sampleEnv registeredDb 5400 9 1 "Abcdef1!" "Str0ng!pw").2
      5800 "ana@x.io" "Str0ng!pw").1.code = some "LOGIN_ERROR" ∧
    (AuthService.login sampleEnv
      (AuthService.changePassword sampleEnv registeredDb 5400 9 1 "Abcdef1!" "Str0ng!pw").2
      5800 "ana@x.io" "Abcdef1!").1.code = some "INVALID_CREDENTIALS" := by
  decide

/-- After a successful `changePassword` on an active, unlocked account, `login` with the new
password succeeds when the refresh token it signs is not stored yet, and `login` with the old
password returns `INVALID_CREDENTIALS`; the hash comparison is assumed to accept the new
password and to reject the old one against the new hash. -/
theorem changePassword_then_login {env : Env} {db : Db} {email oldPassword newPassword : String}
    {u : User} (now salt t2 : Nat) (hu : selectUserByEmail db email = some u)
    (hid : selectUserById db u.id = some u) (hact : u.is_active ≠ 0)
    (hnl : ∀ t, u.locked_until = some t → t ≤ t2)
    (hold : env.bcryptCompare oldPassword u.password_hash = true)
    (hstrong : (validatePasswordStrength newPassword).valid = true)
    (hnew : env.bcryptCompare newPassword (env.bcryptHash newPassword 12 salt) = true)
    (hrej : env.bcryptCompare oldPassword (env.bcryptHash newPassword 12 salt) = false) :
    (AuthService.changePassword env db now salt u.id oldPassword newPassword).1.success = true ∧
    ((∀ r ∈ db.refresh_tokens, r.token ≠ generateRefreshToken env t2 u.toPublic) →
      (AuthService.login env
        (AuthService.changePassword env db now salt u.id oldPassword newPassword).2 t2 email
        newPassword).1.success = true) ∧
    (AuthService.login env
      (AuthService.changePassword env db now salt u.id oldPassword newPassword).2 t2 email
      oldPassword).1.code = some "INVALID_CREDENTIALS" := by
  rw [changePassword_ok now salt hid hold hstrong]
  have hsel : selectUserByEmail
      (revokeByUser (updatePasswordHash db (env.bcryptHash newPassword 12 salt) u.id) now u.id)
      email = some { u with password_hash := env.bcryptHash newPassword 12 salt } := by
    unfold selectUserByEmail at hu ⊢
    simp only [revokeByUser, updatePasswordHash]
    rw [find?_email_map email _ (fun v => by by_cases hv : v.id = u.id <;> simp [hv]), hu]
    simp
  refine ⟨rfl, ?_, ?_⟩
  · intro hfresh
    have hfresh2 : ∀ r ∈ (revokeByUser
        (updatePasswordHash db (env.bcryptHash newPassword 12 salt) u.id) now
        u.id).refresh_tokens, r.token ≠ generateRefreshToken env t2 u.toPublic := by
      intro r hr
      simp only [revokeByUser, updatePasswordHash] at hr
      obtain ⟨r0, hr0, rfl⟩ := List.mem_map.mp hr
      have := hfresh r0 hr0
      by_cases h0 : r0.user_id = u.id
      · rw [if_pos h0]; exact this
      · rw [if_neg h0]; exact this
    rw [@login_correct_password_fresh env _ _ newPassword _ t2 hsel hact hnl hnew hfresh2]
  · rw [@login_wrong_password env _ _ oldPassword _ t2 hsel hact hnl hrej]

/-! ## What the service keeps true of the account table -/

theorem usersOk_of_users_eq {db db' : Db} (h : db'.users = db.users) (hok : UsersOk db) :
    UsersOk db' := by
  unfold UsersOk at hok ⊢
  rw [h]
  exact hok

theorem usersOk_map {db db' : Db} (g : User → User)
    (hk : ∀ u, (g u).id = u.id ∧ (g u).email = u.email)
    (husers : db'.users = db.users.map g) (hok : UsersOk db)
    (hc : ∀ v ∈ db.users, CounterOk (g v)) : UsersOk db' := by
  obtain ⟨h1, h2, _⟩ := hok
  unfold UsersOk
  rw [husers]
  have e1 : (db.users.map g).map (fun u => u.id) = db.users.map (fun u => u.id) := by
    rw [List.map_map]
    exact List.map_congr_left (fun u _ => (hk u).1)
  have e2 : (db.users.map g).map (fun u => u.email) = db.users.map (fun u => u.email) := by
    rw [List.map_map]
    exact List.map_congr_left (fun u _ => (hk u).2)
  rw [e1, e2]
  refine ⟨h1, h2, ?_⟩
  intro v hv
  obtain ⟨v0, hv0, rfl⟩ := List.mem_map.mp hv
  exact hc v0 hv0

theorem usersOk_append {db db' : Db} (n : User) (husers : db'.users = db.users ++ [n])
    (hok : UsersOk db) (hid : ∀ v ∈ db.users, v.id ≠ n.id)
    (hemail : ∀ v ∈ db.users, v.email ≠ n.email) (hc : CounterOk n) : UsersOk db' := by
  obtain ⟨h1, h2, h3⟩ := hok
  unfold UsersOk
  rw [husers]
  refine ⟨?_, ?_, ?_⟩
  · rw [List.map_append, List.nodup_append]
    refine ⟨h1, List.nodup_singleton _, ?_⟩
    intro a ha hb
    simp only [List.map_cons, List.map_nil, List.mem_singleton] at hb
    obtain ⟨v, hv, rfl⟩ := List.mem_map.mp ha
    exact hid v hv hb
  · rw [List.map_append, List.nodup_append]
    refine ⟨h2, List.nodup_singleton _, ?_⟩
    intro a ha hb
    simp only [List.map_cons, List.map_nil, List.mem_singleton] at hb
    obtain ⟨v, hv, rfl⟩ := List.mem_map.mp ha
    exact hemail v hv hb
  · intro v hv
    rcases List.mem_append.mp hv with hv | hv
    · exact h3 v hv
    · rw [List.mem_singleton] at hv
      rw [hv]
      exact hc

/-- With distinct ids, the row an id names is one row. -/
theorem usersOk_id_inj {db : Db} (hok : UsersOk db) {u v : User} (hu : u ∈ db.users)
    (hv : v ∈ db.users) (h : v.id = u.id) : v = u :=
  List.inj_on_of_nodup_map hok.1 hv hu h

theorem usersOk_empty : UsersOk emptyDb := by
  unfold UsersOk emptyDb
  simp

theorem usersOk_insertRefreshToken {db db1 : Db} {token : String}
    {user_id expires_at created_at : Nat}
    (h : insertRefreshToken db user_id token expires_at created_at = .ok db1)
    (hok : UsersOk db) : UsersOk db1 :=
  usersOk_of_users_eq (insertRefreshToken_ok_inv h).2.1 hok

theorem usersOk_resetFailedAttempts (db : Db) (now id : Nat) (hok : UsersOk db) :
    UsersOk (resetFailedAttempts db now id) := by
  refine usersOk_map
    (fun u => if u.id = id then { u with failed_login_attempts := some 0, locked_until := none,
                                         last_login_at := some now } else u)
    ?_ rfl hok ?_
  · intro u
    beta_reduce
    by_cases h : u.id = id
    · rw [if_pos h]; exact ⟨rfl, rfl⟩
    · rw [if_neg h]; exact ⟨rfl, rfl⟩
  · intro v hv
    beta_reduce
    by_cases h : v.id = id
    · rw [if_pos h]
      exact ⟨0, rfl, le_refl 0, fun hne => absurd rfl hne⟩
    · rw [if_neg h]
      exact hok.2.2 v hv

theorem usersOk_updatePasswordHash (db : Db) (password_hash : String) (id : Nat)
    (hok : UsersOk db) : UsersOk (updatePasswordHash db password_hash id) := by
  refine usersOk_map
    (fun u => if u.id = id then { u with password_hash := password_hash } else u) ?_ rfl hok ?_
  · intro u
    beta_reduce
    by_cases h : u.id = id
    · rw [if_pos h]; exact ⟨rfl, rfl⟩
    · rw [if_neg h]; exact ⟨rfl, rfl⟩
  · intro v hv
    beta_reduce
    by_cases h : v.id = id
    · rw [if_pos h]
      exact hok.2.2 v hv
    · rw [if_neg h]
      exact hok.2.2 v hv

/-- The write of a failed attempt keeps the table well formed: the row it rewrites is the
selected one, its counter goes up by one, and a lock expiry is written with a counter of five
or more, or else kept. -/
theorem usersOk_failedAttempt {db : Db} {u : User} (now : Nat) (hok : UsersOk db)
    (hu : u ∈ db.users) :
    UsersOk (updateFailedAttempts db (orZero u.failed_login_attempts + 1)
      (if 5 ≤ orZero u.failed_login_attempts + 1 then some (now + 30 * 60 * 1000) else none)
      u.id) := by
  obtain ⟨c, hc, hc0, hc5⟩ := hok.2.2 u hu
  have hz : orZero u.failed_login_attempts = c := by rw [hc]; rfl
  rw [hz]
  by_cases h5 : 5 ≤ c + 1
  · rw [if_pos h5]
    refine usersOk_map
      (fun v => if v.id = u.id then
        { v with failed_login_attempts := some (c + 1),
                 locked_until := some (now + 30 * 60 * 1000) } else v) ?_ rfl hok ?_
    · intro v
      beta_reduce
      by_cases h : v.id = u.id
      · rw [if_pos h]; exact ⟨rfl, rfl⟩
      · rw [if_neg h]; exact ⟨rfl, rfl⟩
    · intro v hv
      beta_reduce
      by_cases h : v.id = u.id
      · rw [if_pos h]
        exact ⟨c + 1, rfl, by omega, fun _ => h5⟩
      · rw [if_neg h]
        exact hok.2.2 v hv
  · rw [if_neg h5]
    refine usersOk_map
      (fun v => if v.id = u.id then { v with failed_login_attempts := some (c + 1) } else v)
      ?_ rfl hok ?_
    · intro v
      beta_reduce
      by_cases h : v.id = u.id
      · rw [if_pos h]; exact ⟨rfl, rfl⟩
      · rw [if_neg h]; exact ⟨rfl, rfl⟩
    · intro v hv
      beta_reduce
      by_cases h : v.id = u.id
      · rw [if_pos h]
        have hvu := usersOk_id_inj hok hu hv h
        subst hvu
        exact ⟨c + 1, rfl, by omega, fun hne => by have := hc5 hne; omega⟩
      · rw [if_neg h]
        exact hok.2.2 v hv

theorem selectUserByEmail_mem {db : Db} {email : String} {u : User}
    (h : selectUserByEmail db email = some u) : u ∈ db.users ∧ u.email = email :=
  ⟨(find?_email_some h).2, (find?_email_some h).1⟩

theorem usersOk_login (env : Env) (db : Db) (now : Nat) (email password : String)
    (hok : UsersOk db) : UsersOk (AuthService.login env db now email password).2 := by
  cases hu : selectUserByEmail db email with
  | none => rw [login_no_account now password hu]; exact hok
  | some u =>
    by_cases hact : u.is_active = 0
    · rw [login_disabled now password hu hact]; exact hok
    · cases hl : isLocked u.locked_until now with
      | true =>
        have : (AuthService.login env db now email password).2 = db := by
          simp [AuthService.login, hu, hact, hl]
        rw [this]; exact hok
      | false =>
        have hnl : ∀ t, u.locked_until = some t → t ≤ now := by
          intro t ht
          rw [ht] at hl
          simpa [isLocked] using hl
        cases hpw : env.bcryptCompare password u.password_hash with
        | false =>
          rw [login_wrong_password hu hact hnl hpw]
          exact usersOk_failedAttempt now hok (selectUserByEmail_mem hu).1
        | true =>
          rw [login_correct_password hu hact hnl hpw]
          cases hins : insertRefreshToken (resetFailedAttempts db now u.id) u.id
              (generateRefreshToken env now u.toPublic) (now + 7 * 24 * 60 * 60 * 1000) now with
          | error msg => exact usersOk_resetFailedAttempts db now u.id hok
          | ok db2 =>
            exact usersOk_insertRefreshToken hins (usersOk_resetFailedAttempts db now u.id hok)

theorem usersOk_insertUser {db db1 : Db} {email password_hash name role : String}
    {created_at rowid : Nat}
    (h : insertUser db email password_hash name role created_at = .ok (rowid, db1))
    (hok : UsersOk db) : UsersOk db1 := by
  obtain ⟨_, _, hid, husers⟩ := insertUser_ok_inv h
  refine usersOk_append _ husers hok ?_ ?_ ⟨0, rfl, le_refl 0, fun hne => absurd rfl hne⟩
  · intro v hv heq
    have := lt_nextRowid db.users_seq (db.users.map (fun u => u.id)) v.id
      (List.mem_map_of_mem (fun u => u.id) hv)
    simp only [] at heq
    omega
  · intro v hv heq
    simp only [] at heq
    unfold insertUser at h
    split at h
    · cases h
    · split at h
      · rename_i hany
        cases h
      · rename_i hany
        apply hany
        rw [List.any_eq_true]
        exact ⟨v, hv, by simpa using heq⟩

theorem usersOk_register (env : Env) (db : Db) (now salt : Nat) (email password name : String)
    (role : Option String) (hok : UsersOk db) :
    UsersOk (AuthService.register env db now salt email password name role).2 := by
  unfold AuthService.register
  simp only []
  split
  · exact hok
  · split
    · exact hok
    · split
      · exact hok
      · split
        · exact hok
        · rename_i id db1 hins
          split
          · exact usersOk_insertUser hins hok
          · rename_i db2 hins2
            exact usersOk_insertRefreshToken hins2 (usersOk_insertUser hins hok)

theorem usersOk_changePassword (env : Env) (db : Db) (now salt userId : Nat)
    (currentPassword newPassword : String) (hok : UsersOk db) :
    UsersOk
      (AuthService.changePassword env db now salt userId currentPassword newPassword).2 := by
  unfold AuthService.changePassword
  split
  · exact hok
  · split
    · exact hok
    · simp only []
      split
      · exact hok
      · exact usersOk_of_users_eq rfl (usersOk_updatePasswordHash db _ userId hok)

theorem usersOk_call (env : Env) (db : Db) (call : Call) (hok : UsersOk db) :
    UsersOk (call.run env db).2 := by
  cases call with
  | register now salt email password name role =>
    exact usersOk_register env db now salt email password name role hok
  | login now email password => exact usersOk_login env db now email password hok
  | refreshAccessToken now refreshToken =>
    simp only [Call.run, refresh_db]
    exact hok
  | logout now refreshToken =>
    cases refreshToken with
    | text token => exact usersOk_of_users_eq rfl hok
    | unbindable => exact hok
  | changePassword now salt userId currentPassword newPassword =>
    exact usersOk_changePassword env db now salt userId currentPassword newPassword hok

/-- Every store the service reaches from a well-formed one is well formed. -/
theorem usersOk_runCalls (env : Env) :
    ∀ (calls : List Call) (db : Db), UsersOk db → UsersOk (runCalls env db calls) := by
  intro calls
  induction calls with
  | nil => intro db hok; exact hok
  | cons call rest ih =>
    intro db hok
    exact ih (call.run env db).2 (usersOk_call env db call hok)

/-! ## Claims on reachable stores -/

/-- C24: in every store reached from the empty store by any sequence of `register`, `login`,
`refreshAccessToken`, `logout` and `changePassword` calls, each account's failed-login counter
is a number that is not negative, and its lock expiry is non-null only if the counter is at
least 5. -/
theorem C24_counter_and_lock (env : Env) (calls : List Call) :
    ∀ u ∈ (runCalls env emptyDb calls).users,
      ∃ c : Int, u.failed_login_attempts = some c ∧ 0 ≤ c ∧ (u.locked_until ≠ none → 5 ≤ c) :=
  (usersOk_runCalls env calls emptyDb usersOk_empty).2.2

/-- C24 on the store after a registration and five wrong passwords: the account is locked and
its counter is 5. -/
theorem C24_counter_and_lock_witness :
    ({ id := 1, email := "ana@x.io", password_hash := "#Abcdef1!", name := "Ana",
       role := "user", is_active := 1, failed_login_attempts := some 5,
       locked_until := some 1805000, last_login_at := none, created_at := 500,
       updated_at := none } : User) ∈ (runCalls sampleEnv emptyDb lockingCalls).users ∧
    ∃ c : Int, (some 5 : Option Int) = some c ∧ 0 ≤ c ∧
      ((some 1805000 : Option Nat) ≠ none → 5 ≤ c) :=
  ⟨by decide,
    C24_counter_and_lock sampleEnv lockingCalls
      { id := 1, email := "ana@x.io", password_hash := "#Abcdef1!", name := "Ana",
        role := "user", is_active := 1, failed_login_attempts := some 5,
        locked_until := some 1805000, last_login_at := none, created_at := 500,
        updated_at := none } (by decide)⟩

/-- C25: in every store reached from the empty store by any sequence of calls of the service,
the emails of the accounts are pairwise distinct, so two accounts with one email are one
account; and from any store, a call keeps every account in place with its id and its email,
new accounts coming after them. -/
theorem C25_emails_unique (env : Env) (calls : List Call) :
    ((runCalls env emptyDb calls).users.map (fun u => u.email)).Nodup ∧
    (∀ u ∈ (runCalls env emptyDb calls).users, ∀ v ∈ (runCalls env emptyDb calls).users,
      u.email = v.email → u = v) ∧
    ∀ (db : Db) (call : Call), ∃ (g : User → User) (extra : List User),
      (call.run env db).2.users = db.users.map g ++ extra ∧
      ∀ u, (g u).id = u.id ∧ (g u).email = u.email := by
  have hok := usersOk_runCalls env calls emptyDb usersOk_empty
  refine ⟨hok.2.1, ?_, ?_⟩
  · intro u hu v hv h
    exact List.inj_on_of_nodup_map hok.2.1 hu hv h
  · intro db call
    obtain ⟨_, _, g, extra, _, _, _, _, hu, hg⟩ := evolves_call env db call
    exact ⟨g, extra, hu, fun u => ⟨(hg u).1, (hg u).2.1⟩⟩

/-- C25 on a sequence that tries to register `ana@x.io` twice: one account has that email. -/
theorem C25_emails_unique_witness :
    (runCalls sampleEnv emptyDb
      [.register 500 7 "ana@x.io" "Abcdef1!" "Ana" none,
       .register 900 8 "ana@x.io" "Str0ng!pw" "Eve" none,
       .register 1200 9 "bob@x.io" "Str0ng!pw" "Bob" none]).users.map (fun u => u.email) =
      ["ana@x.io", "bob@x.io"] ∧
    ((runCalls sampleEnv emptyDb
      [.register 500 7 "ana@x.io" "Abcdef1!" "Ana" none,
       .register 900 8 "ana@x.io" "Str0ng!pw" "Eve" none,
       .register 1200 9 "bob@x.io" "Str0ng!pw" "Bob" none]).users.map
        (fun u => u.email)).Nodup :=
  ⟨by decide,
    (C25_emails_unique sampleEnv
      [.register 500 7 "ana@x.io" "Abcdef1!" "Ana" none,
       .register 900 8 "ana@x.io" "Str0ng!pw" "Eve" none,
       .register 1200 9 "bob@x.io" "Str0ng!pw" "Bob" none]).1⟩

/-- C29: the failed-login counter is not reset when a lock expires. In a store reached from
the empty store by calls of the service, take an active account whose lock expiry is set and
has passed (a successful login would have cleared it). One `login` with a wrong password then
stores a counter of at least 6, sets the lock expiry to now + 30 minutes, and returns
`INVALID_CREDENTIALS` with `attemptsRemaining = 0`. -/
theorem C29_counter_survives_lock_expiry (env : Env) (calls : List Call) (now : Nat)
    (email password : String) (u : User) (t : Nat)
    (hu : selectUserByEmail (runCalls env emptyDb calls) email = some u)
    (hact : u.is_active ≠ 0) (hl : u.locked_until = some t) (hexp : t ≤ now)
    (hpw : env.bcryptCompare password u.password_hash = false) :
    (AuthService.login env (runCalls env emptyDb calls) now email password).1 =
      { success := false, error := some "Credenciales inválidas",
        code := some "INVALID_CREDENTIALS", attemptsRemaining := some 0 } ∧
    ∃ c : Int, 6 ≤ c ∧
      selectUserByEmail
          (AuthService.login env (runCalls env emptyDb calls) now email password).2 email =
        some { u with failed_login_attempts := some c,
                      locked_until := some (now + 30 * 60 * 1000) } := by
  have hok := usersOk_runCalls env calls emptyDb usersOk_empty
  obtain ⟨c, hc, _, hc5⟩ := hok.2.2 u (selectUserByEmail_mem hu).1
  have h5 : 5 ≤ c := hc5 (by rw [hl]; exact Option.some_ne_none t)
  have hz : orZero u.failed_login_attempts = c := by rw [hc]; rfl
  have hnl : ∀ t', u.locked_until = some t' → t' ≤ now := by
    intro t' ht'
    rw [hl] at ht'
    cases ht'
    exact hexp
  rw [login_wrong_password hu hact hnl hpw, hz]
  have h6 : 5 ≤ c + 1 := by omega
  refine ⟨?_, c + 1, by omega, ?_⟩
  · have : max 0 (5 - (c + 1)) = 0 := by omega
    rw [this]
  · simp only []
    rw [selectUserByEmail_updateFailedAttempts hu, if_pos h6]

/-- C29 on the account locked at 5000 ms until 1 805 000 ms: a wrong password at that very
time stores counter 6 and locks until 3 605 000 ms. -/
theorem C29_counter_survives_lock_expiry_witness :
    selectUserByEmail (runCalls sampleEnv emptyDb lockingCalls) "ana@x.io" =
      some { id := 1, email := "ana@x.io", password_hash := "#Abcdef1!", name := "Ana",
             role := "user", is_active := 1, failed_login_attempts := some 5,
             locked_until := some 1805000, last_login_at := none, created_at := 500,
             updated_at := none } ∧
    (AuthService.login sampleEnv (runCalls sampleEnv emptyDb lockingCalls) 1805000 "ana@x.io"
      "Wrong000!").1.attemptsRemaining = some 0 ∧
    (selectUserByEmail
      (AuthService.login sampleEnv (runCalls sampleEnv emptyDb lockingCalls) 1805000 "ana@x.io"
        "Wrong000!").2 "ana@x.io").map (fun v => (v.failed_login_attempts, v.locked_until)) =
      some (some 6, some 3605000) := by
  have h := C29_counter_survives_lock_expiry sampleEnv lockingCalls 1805000 "ana@x.io"
    "Wrong000!"
    { id := 1, email := "ana@x.io", password_hash := "#Abcdef1!", name := "Ana",
      role := "user", is_active := 1, failed_login_attempts := some 5,
      locked_until := some 1805000, last_login_at := none, created_at := 500,
      updated_at := none } 1805000 (by decide) (by decide) rfl (by decide) (by decide)
  exact ⟨by decide, by rw [h.1], by decide⟩

/-! ## What the service keeps true of the token table -/

theorem tokensIssued_empty (env : Env) : TokensIssued env emptyDb := by
  intro row hrow
  simp [emptyDb] at hrow

theorem tokensIssued_users_map {env : Env} {db db' : Db} (g : User → User)
    (hg : ∀ u, (g u).id = u.id) (htokens : db'.refresh_tokens = db.refresh_tokens)
    (husers : db'.users = db.users.map g) (h : TokensIssued env db) : TokensIssued env db' := by
  intro row hrow
  rw [htokens] at hrow
  obtain ⟨hc, v, hv, hid⟩ := h row hrow
  refine ⟨hc, g v, ?_, ?_⟩
  · rw [husers]
    exact List.mem_map_of_mem g hv
  · rw [hg, hid]

theorem tokensIssued_tokens_map {env : Env} {db db' : Db} (f : RefreshTokenRow → RefreshTokenRow)
    (hf : ∀ r, (f r).user_id = r.user_id ∧ (f r).token = r.token)
    (husers : db'.users = db.users) (htokens : db'.refresh_tokens = db.refresh_tokens.map f)
    (h : TokensIssued env db) : TokensIssued env db' := by
  intro row hrow
  rw [htokens, List.mem_map] at hrow
  obtain ⟨r, hr, rfl⟩ := hrow
  obtain ⟨hc, hv⟩ := h r hr
  rw [(hf r).1, (hf r).2, husers]
  exact ⟨hc, hv⟩

theorem tokensIssued_insertUser {env : Env} {db db1 : Db}
    {email password_hash name role : String} {created_at rowid : Nat}
    (hins : insertUser db email password_hash name role created_at = .ok (rowid, db1))
    (h : TokensIssued env db) : TokensIssued env db1 := by
  obtain ⟨htokens, _, _, husers⟩ := insertUser_ok_inv hins
  intro row hrow
  rw [htokens] at hrow
  obtain ⟨hc, v, hv, hid⟩ := h row hrow
  refine ⟨hc, v, ?_, hid⟩
  rw [husers]
  exact List.mem_append_left _ hv

/-- The foreign key of `refresh_tokens.user_id`: a row is inserted only for an account of the
store. -/
theorem insertRefreshToken_ok_fk {db db1 : Db} {token : String}
    {user_id expires_at created_at : Nat}
    (h : insertRefreshToken db user_id token expires_at created_at = .ok db1) :
    ∃ v ∈ db.users, v.id = user_id := by
  unfold insertRefreshToken at h
  split at h
  · cases h
  · split at h
    · cases h
    · rename_i hfk
      have hany : db.users.any (fun u => decide (u.id = user_id)) = true := by
        simpa using hfk
      rw [List.any_eq_true] at hany
      obtain ⟨v, hv, hid⟩ := hany
      exact ⟨v, hv, by simpa using hid⟩

theorem tokensIssued_insertRefreshToken {env : Env} {db db1 : Db} {token : String}
    {user_id expires_at created_at : Nat}
    (hins : insertRefreshToken db user_id token expires_at created_at = .ok db1)
    (hsigned : ∃ c : JwtClaims, c.userId = user_id ∧
      token = env.jwsEncode c env.JWT_REFRESH_SECRET)
    (h : TokensIssued env db) : TokensIssued env db1 := by
  obtain ⟨_, husers, _, htokens⟩ := insertRefreshToken_ok_inv hins
  intro row hrow
  rw [htokens, List.mem_append] at hrow
  rw [husers]
  rcases hrow with hrow | hrow
  · exact h row hrow
  · rw [List.mem_singleton] at hrow
    subst hrow
    exact ⟨hsigned, insertRefreshToken_ok_fk hins⟩

theorem tokensIssued_resetFailedAttempts {env : Env} (db : Db) (now id : Nat)
    (h : TokensIssued env db) : TokensIssued env (resetFailedAttempts db now id) := by
  refine @tokensIssued_users_map env db (resetFailedAttempts db now id)
    (fun u => if u.id = id then { u with failed_login_attempts := some 0, locked_until := none,
                                         last_login_at := some now } else u)
    ?_ rfl rfl h
  intro u
  beta_reduce
  split <;> rfl

theorem tokensIssued_updateFailedAttempts {env : Env} (db : Db) (failedAttempts : Int)
    (lockUntil : Option Nat) (id : Nat) (h : TokensIssued env db) :
    TokensIssued env (updateFailedAttempts db failedAttempts lockUntil id) := by
  refine @tokensIssued_users_map env db (updateFailedAttempts db failedAttempts lockUntil id)
    (fun u =>
      if u.id = id then
        match lockUntil with
        | some t => { u with failed_login_attempts := some failedAttempts, locked_until := some t }
        | none => { u with failed_login_attempts := some failedAttempts }
      else u)
    ?_ rfl rfl h
  intro u
  beta_reduce
  split
  · cases lockUntil <;> rfl
  · rfl

theorem tokensIssued_updatePasswordHash {env : Env} (db : Db) (password_hash : String)
    (id : Nat) (h : TokensIssued env db) :
    TokensIssued env (updatePasswordHash db password_hash id) := by
  refine @tokensIssued_users_map env db (updatePasswordHash db password_hash id)
    (fun u => if u.id = id then { u with password_hash := password_hash } else u) ?_ rfl rfl h
  intro u
  beta_reduce
  split <;> rfl

theorem tokensIssued_revokeByToken {env : Env} (db : Db) (now : Nat) (token : String)
    (h : TokensIssued env db) : TokensIssued env (revokeByToken db now token) := by
  refine @tokensIssued_tokens_map env db (revokeByToken db now token)
    (fun r => if r.token = token then { r with revoked_at := some now } else r) ?_ rfl rfl h
  intro r
  beta_reduce
  split <;> exact ⟨rfl, rfl⟩

theorem tokensIssued_revokeByUser {env : Env} (db : Db) (now user_id : Nat)
    (h : TokensIssued env db) : TokensIssued env (revokeByUser db now user_id) := by
  refine @tokensIssued_tokens_map env db (revokeByUser db now user_id)
    (fun r => if r.user_id = user_id then { r with revoked_at := some now } else r) ?_ rfl rfl h
  intro r
  beta_reduce
  split <;> exact ⟨rfl, rfl⟩

theorem tokensIssued_login (env : Env) (db : Db) (now : Nat) (email password : String)
    (h : TokensIssued env db) :
    TokensIssued env (AuthService.login env db now email password).2 := by
  unfold AuthService.login
  split
  · exact h
  · split
    · exact h
    · split
      · exact h
      · split
        · exact tokensIssued_updateFailedAttempts db _ _ _ h
        · simp only []
          split
          · exact tokensIssued_resetFailedAttempts db now _ h
          · rename_i db2 hins
            exact tokensIssued_insertRefreshToken hins ⟨_, rfl, rfl⟩
              (tokensIssued_resetFailedAttempts db now _ h)

theorem tokensIssued_register (env : Env) (db : Db) (now salt : Nat)
    (email password name : String) (role : Option String) (h : TokensIssued env db) :
    TokensIssued env (AuthService.register env db now salt email password name role).2 := by
  unfold AuthService.register
  simp only []
  split
  · exact h
  · split
    · exact h
    · split
      · exact h
      · split
        · exact h
        · rename_i id db1 hins
          split
          · exact tokensIssued_insertUser hins h
          · rename_i db2 hins2
            exact tokensIssued_insertRefreshToken hins2 ⟨_, rfl, rfl⟩
              (tokensIssued_insertUser hins h)

theorem tokensIssued_changePassword (env : Env) (db : Db) (now salt userId : Nat)
    (currentPassword newPassword : String) (h : TokensIssued env db) :
    TokensIssued env
      (AuthService.changePassword env db now salt userId currentPassword newPassword).2 := by
  unfold AuthService.changePassword
  split
  · exact h
  · split
    · exact h
    · simp only []
      split
      · exact h
      · exact tokensIssued_revokeByUser _ now userId
          (tokensIssued_updatePasswordHash db _ userId h)

theorem tokensIssued_call (env : Env) (db : Db) (call : Call) (h : TokensIssued env db) :
    TokensIssued env (call.run env db).2 := by
  cases call with
  | register now salt email password name role =>
    exact tokensIssued_register env db now salt email password name role h
  | login now email password => exact tokensIssued_login env db now email password h
  | refreshAccessToken now refreshToken =>
    simp only [Call.run, refresh_db]
    exact h
  | logout now refreshToken =>
    cases refreshToken with
    | text token => exact tokensIssued_revokeByToken db now token h
    | unbindable => exact h
  | changePassword now salt userId currentPassword newPassword =>
    exact tokensIssued_changePassword env db now salt userId currentPassword newPassword h

/-- In every store the service reaches from one whose tokens it signed, it signed the
tokens. -/
theorem tokensIssued_runCalls (env : Env) :
    ∀ (calls : List Call) (db : Db), TokensIssued env db →
      TokensIssued env (runCalls env db calls) := by
  intro calls
  induction calls with
  | nil => intro db h; exact h
  | cons call rest ih =>
    intro db h
    exact ih (call.run env db).2 (tokensIssued_call env db call h)

/-! ## Claims on `register` in a reachable store -/

/-- C9: in every store the service reaches from the empty one, for every email the address
check accepts and no account uses, every password the policy accepts, every name, and a role
that is absent or one of the three roles, `register` succeeds. The returned account has the
passed role, or `user` when none is passed, and an id no account had; the account table gains
that account, and the token table gains exactly one row: owned by it, holding the returned
refresh token, with `revoked_at` null and `expires_at = now + 7 days`. The one hypothesis on
the library is its law `JwtRoundTrip`. -/
theorem C9_register_succeeds (env : Env) (hlaw : JwtRoundTrip env) (calls : List Call)
    (now salt : Nat) (email password name : String) (role : Option String)
    (hemail : env.zodEmail email = true)
    (hpw : (validatePasswordStrength password).valid = true)
    (hnew : selectUserByEmail (runCalls env emptyDb calls) email = none)
    (hrole : role = none ∨ role = some "admin" ∨ role = some "user" ∨ role = some "viewer") :
    ∃ (user : PublicUser) (row : RefreshTokenRow),
      (AuthService.register env (runCalls env emptyDb calls) now salt email password name
        role).1 =
        { success := true,
          data := some { user := some user, accessToken := generateAccessToken env now user,
                         refreshToken := some row.token } } ∧
      user.email = email ∧ user.name = name ∧ user.role = role.getD "user" ∧
      (∀ v ∈ (runCalls env emptyDb calls).users, v.id ≠ user.id) ∧
      (AuthService.register env (runCalls env emptyDb calls) now salt email password name
        role).2.users =
        (runCalls env emptyDb calls).users ++
          [{ id := user.id, email := email, password_hash := env.bcryptHash password 12 salt,
             name := name, role := role.getD "user", is_active := 1,
             failed_login_attempts := some 0, locked_until := none, last_login_at := none,
             created_at := now, updated_at := none }] ∧
      (AuthService.register env (runCalls env emptyDb calls) now salt email password name
        role).2.refresh_tokens =
        (runCalls env emptyDb calls).refresh_tokens ++ [row] ∧
      row.user_id = user.id ∧ row.token = generateRefreshToken env now user ∧
      row.revoked_at = none ∧ row.expires_at = now + 7 * 24 * 60 * 60 * 1000 := by
  have hissued := tokensIssued_runCalls env calls emptyDb (tokensIssued_empty env)
  exact register_succeeds_of_fresh env (runCalls env emptyDb calls) now salt email password name
    role hemail hpw hnew hrole
    (register_refresh_token_fresh env _ now email name (role.getD "user")
      (fun _ _ h => jwsEncode_injective hlaw h) (fun row hrow => (hissued row hrow).1)
      (fun row hrow => (hissued row hrow).2))

/-- C9 on the store after a registration and a login of `ana@x.io`, with libraries that obey
the law: `bob@x.io` registers as a viewer, in the clock second of the login. -/
theorem C9_register_succeeds_witness :
    JwtRoundTrip codecEnv ∧
    codecEnv.zodEmail "bob@x.io" = true ∧
    (validatePasswordStrength "Str0ng!pw").valid = true ∧
    selectUserByEmail (runCalls codecEnv emptyDb sessionCalls) "bob@x.io" = none ∧
    ∃ (user : PublicUser) (row : RefreshTokenRow),
      (AuthService.register codecEnv (runCalls codecEnv emptyDb sessionCalls) 11500 3 "bob@x.io"
        "Str0ng!pw" "Bob" (some "viewer")).1 =
        { success := true,
          data := some { user := some user,
                         accessToken := generateAccessToken codecEnv 11500 user,
                         refreshToken := some row.token } } ∧
      user.role = "viewer" ∧
      (AuthService.register codecEnv (runCalls codecEnv emptyDb sessionCalls) 11500 3 "bob@x.io"
        "Str0ng!pw" "Bob" (some "viewer")).2.refresh_tokens =
        (runCalls codecEnv emptyDb sessionCalls).refresh_tokens ++ [row] ∧
      row.user_id = user.id ∧ row.revoked_at = none ∧
      row.expires_at = 11500 + 7 * 24 * 60 * 60 * 1000 :=
  ⟨jwtRoundTrip_of_codec codecEnv rfl rfl, by decide, by decide, by decide,
    let ⟨user, row, h1, _, _, h4, _, _, h7, h8, _, h10, h11⟩ :=
      C9_register_succeeds codecEnv (jwtRoundTrip_of_codec codecEnv rfl rfl) sessionCalls 11500 3
        "bob@x.io" "Str0ng!pw" "Bob" (some "viewer") (by decide) (by decide) (by decide)
        (Or.inr (Or.inr (Or.inr rfl)))
    ⟨user, row, h1, h4, h7, h8, h10, h11⟩⟩

end FleetFuel
